import Mathlib

/-!
# libad2k: frame codec, payload codecs and receive pipeline

A shallow embedding of `src/libad2k-linux/libad2k.c` (with the declarations of
`libad2k.h`) and theorems about it.

Conventions of the embedding

* A byte (`unsigned char`) is a `Nat` below 256; a buffer is a `List Nat`.
  Reading a zero-initialised buffer past the bytes written so far gives 0, which
  is what `List.getD _ _ 0` returns.
* A C string held in a buffer is the list of bytes before the first NUL (`cstr`).
* `int` values are `Int`.  Signed overflow is undefined in C; the arithmetic of
  `ad2k_StrToNum` is modelled without wrap-around and is exact as long as no
  intermediate value leaves the range of `int`.
* A C `enum` field is the `Nat` code of its enumerator, so that the `default:`
  branches of the source stay visible.
* The signedness of plain `char` is implementation-defined.  It is a parameter
  `charSigned` of `fetchContent`: `true` for the ABIs where `char` is signed
  (gcc on x86 and x86-64 Linux), `false` where it is unsigned (gcc on ARM Linux).
* A blocking `read` that never delivers another byte is modelled by the result
  `none`: the input of `fetchContent` is the finite list of bytes the transport
  delivers, reads that return nothing are retried by the source and do not
  appear in the list.
* A System V message queue is the list of the messages it holds; `msgsnd`
  appends, `msgrcv` with `IPC_NOWAIT` in a loop (`msgq_clear`) empties it.
* An uninitialised automatic variable is a parameter (named `junk`) holding the
  indeterminate contents.
-/

namespace LibAd2k

/-! ## Constants of `libad2k.c` and `libad2k.h` -/

def STX : Nat := 0x02
def ETX : Nat := 0x03
def DC1 : Nat := 0x11
def DC3 : Nat := 0x13
def XON : Nat := DC1
def XOFF : Nat := DC3

def BASE_BIN : Int := 0
def BASE_DEC : Int := 1
def BASE_HEX : Int := 2

/-- Command type `'W'`. -/
def CMD_W : Nat := 0x57
/-- Command type `'R'`. -/
def CMD_R : Nat := 0x52

/-- Command id `'C'`. -/
def CMD_RW_SPEC_DATA : Nat := 0x43
/-- Command id `'D'`. -/
def CMD_RW_SPAN_DATA : Nat := 0x44
/-- Command id `'F'`. -/
def CMD_R_AD_VER : Nat := 0x46
/-- Command id `'X'`. -/
def CMD_W_CALB_ZERO : Nat := 0x58
/-- Command id `'P'`. -/
def CMD_W_CALB_SPAN : Nat := 0x50
/-- Command id `'T'`. -/
def CMD_W_OTCH_TARE : Nat := 0x54
/-- Command id `'U'`. -/
def CMD_W_DIGI_TARE : Nat := 0x55
/-- Command id `'u'`. -/
def CMD_W_PRESET_TARE : Nat := 0x75
/-- Command id `'V'`. -/
def CMD_W_PERCENT_TARE : Nat := 0x56
/-- Command id `'Z'`. -/
def CMD_W_ZERO_RST : Nat := 0x5A
/-- Command id `'I'`. -/
def CMD_W_INT_MODE : Nat := 0x49
/-- Command id `'N'`. -/
def CMD_W_WGT_MODE : Nat := 0x4E
/-- Command id `'z'`. -/
def CMD_W_ZRST_PWR_ON : Nat := 0x7A
/-- Command id `'d'`. -/
def CMD_W_VLD_CHKSUM : Nat := 0x64
/-- Command id `'*'`. -/
def CMD_W_SET_CHKSUM : Nat := 0x2A
/-- Command id `'Q'`. -/
def CMD_W_CALB_SPAN_G : Nat := 0x51
/-- Command id `'E'`. -/
def CMD_W_CRCT_G : Nat := 0x45

/-- The command ids enumerated in `libad2k.h`. -/
def commandIds : List Nat :=
  [CMD_RW_SPEC_DATA, CMD_RW_SPAN_DATA, CMD_R_AD_VER, CMD_W_CALB_ZERO, CMD_W_CALB_SPAN,
   CMD_W_OTCH_TARE, CMD_W_DIGI_TARE, CMD_W_PRESET_TARE, CMD_W_PERCENT_TARE, CMD_W_ZERO_RST,
   CMD_W_INT_MODE, CMD_W_WGT_MODE, CMD_W_ZRST_PWR_ON, CMD_W_VLD_CHKSUM, CMD_W_SET_CHKSUM,
   CMD_W_CALB_SPAN_G, CMD_W_CRCT_G]

/-- Response result `'0'`. -/
def RSP_RW_OK : Nat := 0x30

def LEN_NI_DATA : Nat := 27
def LEN_RW_SPEC_DATA : Nat := 40
def LEN_RW_SPAN_DATA : Nat := 28
def LEN_R_AD_VER : Nat := 3
def NBYTE_NI_STATUS : Nat := 3
def NBYTE_SPEC : Nat := 5

def AD2K_MSG_DEFAULT : Int := 2000
def AD2K_MSG_NI : Int := 2001
def AD2K_MSG_SPEC : Int := 2002
def AD2K_MSG_SPAN : Int := 2003
def AD2K_MSG_ADVER : Int := 2004
def AD2K_MSG_RESP : Int := 2005
def AD2K_MSG_DEBUG : Int := 2006

/-! ## Block check character -/

/-- The running XOR of the loop `for (i = 0; i < len; i++) bcc ^= data[i];`. -/
def xorBytes (data : List Nat) : Nat :=
  data.foldl (fun bcc d => bcc ^^^ d) 0

/-- Embedding of `calculateBCC(data, len)` with `len` the length of `data`. -/
def calculateBCC (data : List Nat) : Nat :=
  if data.length ≤ 0 then 0
  else
    let bcc := xorBytes data
    if bcc = 0x00 ∨ bcc = 0x11 ∨ bcc = 0x13 ∨ bcc = 0x02 ∨ bcc = 0x03 then
      (bcc + 0x20) % 256
    else bcc

/-- The five reserved control values NUL, STX, ETX, XON, XOFF. -/
def reservedControl : List Nat := [0x00, 0x02, 0x03, 0x11, 0x13]

/-! ## Numeric and hexadecimal string codecs -/

/-- The C string held in a buffer: the bytes before the first NUL. -/
def cstr (buf : List Nat) : List Nat :=
  buf.takeWhile (fun c => c != 0)

/-- The loop of `ad2k_StrToNum` over the characters of `str`, with the running
`val` and `sign`.  The comparisons of a `char` with the character constants give
the same result for a signed and an unsigned `char`: a byte of 0x80 or more lies
in none of the ranges either way. -/
def strToNumLoop (base_fg base : Int) : List Nat → Int → Int → Int
  | [], val, sign => val * sign
  | c :: rest, val, sign =>
    if base_fg = BASE_BIN ∧ ¬ (c = 0x30 ∨ c = 0x31) then 0
    else if base_fg = BASE_DEC ∧ ¬ (0x30 ≤ c ∧ c ≤ 0x39) then
      if c = 0x2D then strToNumLoop base_fg base rest 0 (-1)
      else if c = 0x2E ∨ c = 0x2C then strToNumLoop base_fg base rest val sign
      else 0
    else if base_fg = BASE_HEX ∧ ¬ (0x30 ≤ c ∧ c ≤ 0x39) ∧ ¬ (0x61 ≤ c ∧ c ≤ 0x66)
        ∧ ¬ (0x41 ≤ c ∧ c ≤ 0x46) then 0
    else
      let num : Int :=
        if 0x30 ≤ c ∧ c ≤ 0x39 then (c : Int) - 0x30
        else if 0x61 ≤ c ∧ c ≤ 0x66 then (c : Int) - 0x61 + 0xa
        else if 0x41 ≤ c ∧ c ≤ 0x46 then (c : Int) - 0x41 + 0xa
        else 0
      strToNumLoop base_fg base rest (val * base + num) sign

/-- Embedding of `ad2k_StrToNum(str, base_fg)`; `str` is the C string. -/
def ad2k_StrToNum (str : List Nat) (base_fg : Int) : Int :=
  if base_fg = BASE_BIN then strToNumLoop base_fg 2 str 0 1
  else if base_fg = BASE_DEC then strToNumLoop base_fg 10 str 0 1
  else if base_fg = BASE_HEX then strToNumLoop base_fg 16 str 0 1
  else 0

/-- The byte `ad2k_StrToNum(buf, BASE_HEX) & 0xff` for the 4-byte `buf` holding
the characters `c0`, `c1` and a NUL. -/
def hexPairToByte (c0 c1 : Nat) : Nat :=
  (ad2k_StrToNum (cstr [c0, c1, 0]) BASE_HEX % 256).toNat

/-- One iteration of `ad2k_StrToHex`: `memcpy(buf, &str[i*2], 2); buf[2] = 0;`
and `hex[i] = ad2k_StrToNum(buf, BASE_HEX) & 0xff`. -/
def strToHexByte (str : List Nat) (i : Nat) : Nat :=
  hexPairToByte (str.getD (i * 2) 0) (str.getD (i * 2 + 1) 0)

/-- Embedding of `ad2k_StrToHex(hex, str, n)`: the `n` bytes written to `hex`. -/
def ad2k_StrToHex (str : List Nat) (n : Nat) : List Nat :=
  (List.range n).map (strToHexByte str)

/-- The digit characters `printf` uses for `%X`. -/
def hexDigitUpper (d : Nat) : Nat :=
  if d < 10 then 0x30 + d else 0x41 + (d - 10)

/-- The two characters `snprintf(buf, sizeof(buf), "%02X", h & 0xff)` writes. -/
def hexByteToStr (h : Nat) : List Nat :=
  [hexDigitUpper ((h &&& 0xff) / 16), hexDigitUpper ((h &&& 0xff) % 16)]

/-- Embedding of `ad2k_HexToStr(str, hex, n)`: the `2n` characters written to
`str[0 .. 2n)`. -/
def ad2k_HexToStr (hex : List Nat) (n : Nat) : List Nat :=
  (List.range n).flatMap (fun i => hexByteToStr (hex.getD i 0))

/-- Embedding of `cutHeadZero(dst, src)`: the C string left in `dst`.  `src` is
the C string; `q` and `p` are the indices the two pointers of the source hold. -/
def cutHeadZero (src : List Nat) : List Nat :=
  let n := src.length
  let minus := src.indexOf 0x2D
  let sign : List Nat := if minus < n then [0x2D] else []
  let q0 := if minus < n then minus + 1 else 0
  let p :=
    if src.indexOf 0x2E < n then src.indexOf 0x2E
    else if src.indexOf 0x2C < n then src.indexOf 0x2C
    else n
  let q := q0 + (((src.drop q0).take (p - q0)).takeWhile (fun c => c == 0x30)).length
  if q < p then sign ++ src.drop q
  else sign ++ [0x30] ++ src.drop q

/-! ## Data model of `libad2k.h` -/

def SV_ALLOW : Nat := 0
def SV_INHIBIT : Nat := 1

def SV_WSC_LOOSE : Nat := 0
def SV_WSC_NORMAL : Nat := 1
def SV_WSC_TIGHT : Nat := 2
def SV_WSC_STRINGENT : Nat := 3

def SV_ZN_GROSS : Nat := 0
def SV_ZN_NET : Nat := 1

def SV_SR_10 : Nat := 0
def SV_SR_20 : Nat := 1
def SV_SR_50 : Nat := 2
def SV_SR_100 : Nat := 3

def SV_PTO_OT : Nat := 0
def SV_PTO_DT : Nat := 1

def SV_ACC_0 : Nat := 0
def SV_ACC_1 : Nat := 1

def SV_DP_0 : Nat := 0
def SV_DP_1 : Nat := 1
def SV_DP_2 : Nat := 2
def SV_DP_3 : Nat := 3
def SV_DP_4 : Nat := 4

def SV_RZR_2 : Nat := 0
def SV_RZR_4 : Nat := 1
def SV_RZR_10 : Nat := 2
def SV_RZR_100 : Nat := 3

def SV_WSM_SIG : Nat := 0
def SV_WSM_MUL : Nat := 1

def SV_TDP_P : Nat := 0
def SV_TDP_C : Nat := 1

def SV_TR_50 : Nat := 0
def SV_TR_100 : Nat := 1

def SV_SCC_1 : Nat := 0
def SV_SCC_1_2 : Nat := 1

def SV_NWM_MG9E : Nat := 0
def SV_NWM_MGW : Nat := 1
def SV_NWM_MGF : Nat := 2
def SV_NWM_NU : Nat := 3

def SV_FS_LO : Nat := 0
def SV_FS_NM : Nat := 1
def SV_FS_UN : Nat := 2
def SV_FS_HI : Nat := 3

/-- The `struct SpecData` of `libad2k.h`; every field holds an enumerator code. -/
structure SpecData where
  wgtStabCond : Nat
  tareAcc : Nat
  tareSub : Nat
  startRange : Nat
  autoZeroReset : Nat
  tareAutoClear : Nat
  priTareOpe : Nat
  autoClearCond : Nat
  tareAutoClear2 : Nat
  zeroOn : Nat
  manTareCancel : Nat
  digiTare : Nat
  wgtReset : Nat
  zeroTrack : Nat
  posDecPoint1 : Nat
  reZeroRange : Nat
  reZeroFunc : Nat
  wtgSinMul1 : Nat
  negWgtMsk : Nat
  startChnChk : Nat
  decPointType : Nat
  tareRange : Nat
  posDecPoint2 : Nat
  wtgSinMu2 : Nat
  scale1FilterStrn : Nat
  scale2FilterStrn : Nat
  deriving DecidableEq, Repr

/-- Every field holds a value of its enumeration type (`SPEC_VAL_WSC` has four
enumerators, `SPEC_VAL_AI` two, `SPEC_VAL_DP` five, and so on). -/
def SpecData.Valid (s : SpecData) : Prop :=
  s.wgtStabCond < 4 ∧ s.tareAcc < 2 ∧ s.tareSub < 2 ∧ s.startRange < 4
  ∧ s.autoZeroReset < 2 ∧ s.tareAutoClear < 2
  ∧ s.priTareOpe < 2 ∧ s.autoClearCond < 2 ∧ s.tareAutoClear2 < 2 ∧ s.zeroOn < 2
  ∧ s.manTareCancel < 2 ∧ s.digiTare < 2 ∧ s.wgtReset < 2 ∧ s.zeroTrack < 2
  ∧ s.posDecPoint1 < 5 ∧ s.reZeroRange < 4 ∧ s.reZeroFunc < 2 ∧ s.wtgSinMul1 < 2
  ∧ s.negWgtMsk < 4 ∧ s.startChnChk < 2 ∧ s.decPointType < 2 ∧ s.tareRange < 2
  ∧ s.posDecPoint2 < 5 ∧ s.wtgSinMu2 < 2
  ∧ s.scale1FilterStrn < 4 ∧ s.scale2FilterStrn < 4

instance (s : SpecData) : Decidable s.Valid := by
  unfold SpecData.Valid
  infer_instance

/-- A `struct SpecData` after `memset(&x, 0, sizeof(x))`. -/
def zeroSpecData : SpecData :=
  ⟨0, 0, 0, 0, 0, 0, 0, 0, 0, 0, 0, 0, 0, 0, 0, 0, 0, 0, 0, 0, 0, 0, 0, 0, 0, 0⟩

/-- The `struct SpanData` of `libad2k.h`. -/
structure SpanData where
  firstWeight : Int
  spanWeight : Int
  secWeight : Int
  e2 : Int
  e1 : Int
  deriving DecidableEq, Repr

/-- The `struct Response` of `libad2k.h`; `data` is the 128-byte array. -/
structure Response where
  type : Nat
  cmd : Nat
  result : Nat
  data : List Nat
  data_len : Nat
  deriving DecidableEq, Repr

/-- The `struct ScaleData` of `libad2k.h`; `sec1Str` and `sec2Str` hold the C
strings stored in the two 16-byte arrays. -/
structure ScaleData where
  sec1Str : List Nat
  sec2Str : List Nat
  weight : Int
  tare : Int
  adCount : Int
  irCount : Int
  irFg : Int
  tareFg : Int
  spanSwFg : Int
  zeroPointFg : Int
  stabilizeFg : Int
  underOverFlowFg : Int
  percentTareFg : Int
  presetTareFg : Int
  digitalTareFg : Int
  oneTouchTareFg : Int
  deriving DecidableEq, Repr

/-- The `struct AD2kData` of `libad2k.h`.  The members of the union `data` are
kept side by side: a store to one member leaves the others as they were, and
only the member that the `type` tag selects is meaningful to a reader. -/
structure AD2kData where
  type : Int
  scaleData : ScaleData
  scaleSpec : SpecData
  scaleSpan : SpanData
  response : Response
  adVer : List Nat
  deriving DecidableEq, Repr

/-- The `struct NIData` of `libad2k.c`; `sec1Str` and `sec2Str` hold the C
strings stored in the two 16-byte arrays, `status` the `NBYTE_NI_STATUS` bytes. -/
structure NIData where
  mode : Nat
  sec1Str : List Nat
  sec2Str : List Nat
  sec1 : Int
  sec2 : Int
  status : List Nat
  deriving DecidableEq, Repr

/-- The file-scope variables of `libad2k.c` that the protocol engine uses,
together with the contents of the two message queues. -/
structure LibState where
  cmd_saved : Nat
  waitRespFg : Int
  scale_fd : Int
  msgq_fr_ad_id : Int
  msgq_to_ad_id : Int
  msgq_fr_ad : List AD2kData
  msgq_to_ad : List (List Nat)
  deriving DecidableEq, Repr

/-! ## SpecData codec -/

/-- The statement `b <<= k` on an `unsigned char`. -/
def shl8 (b k : Nat) : Nat :=
  (b <<< k) % 256

/-- The statements of `specDataToCmdData` that build `spec_byte[0]`. -/
def specByte0 (specData : SpecData) : Nat :=
  -- byte 0, bit 6-7
  let b : Nat :=
    if specData.wgtStabCond = SV_WSC_LOOSE then 0x00
    else if specData.wgtStabCond = SV_WSC_NORMAL then 0x01
    else if specData.wgtStabCond = SV_WSC_TIGHT then 0x02
    else if specData.wgtStabCond = SV_WSC_STRINGENT then 0x03
    else 0x01
  -- byte 0, bit 5
  let b := shl8 b 1
  let b := b &&& 0xFE
  let b := if specData.tareAcc = SV_INHIBIT then b ||| 0x01 else b
  -- byte 0, bit 4
  let b := shl8 b 1
  let b := b &&& 0xFE
  let b := if specData.tareSub = SV_INHIBIT then b ||| 0x01 else b
  -- byte 0, bit 2-3
  let b := shl8 b 2
  let b := b &&& 0xFC
  let b :=
    if specData.startRange = SV_SR_10 then b
    else if specData.startRange = SV_SR_20 then b ||| 0x01
    else if specData.startRange = SV_SR_50 then b ||| 0x02
    else b ||| 0x03
  -- byte 0, bit 1
  let b := shl8 b 1
  let b := b &&& 0xFE
  let b := if specData.autoZeroReset = SV_INHIBIT then b ||| 0x01 else b
  -- byte 0, bit 0
  let b := shl8 b 1
  let b := b &&& 0xFE
  let b := if specData.tareAutoClear = SV_INHIBIT then b ||| 0x01 else b
  b

/-- The statements of `specDataToCmdData` that build `spec_byte[1]`. -/
def specByte1 (specData : SpecData) : Nat :=
  -- byte 1, bit 7
  let b : Nat := if specData.priTareOpe = SV_PTO_OT then 0x00 else 0x01
  -- byte 1, bit 6
  let b := shl8 b 1
  let b := b &&& 0xFE
  let b := if specData.autoClearCond = SV_ACC_1 then b ||| 0x01 else b
  -- byte 1, bit 5
  let b := shl8 b 1
  let b := b &&& 0xFE
  let b := if specData.tareAutoClear2 = SV_INHIBIT then b ||| 0x01 else b
  -- byte 1, bit 4
  let b := shl8 b 1
  let b := b &&& 0xFE
  let b := if specData.zeroOn = SV_ZN_NET then b ||| 0x01 else b
  -- byte 1, bit 3
  let b := shl8 b 1
  let b := b &&& 0xFE
  let b := if specData.manTareCancel = SV_INHIBIT then b ||| 0x01 else b
  -- byte 1, bit 2
  let b := shl8 b 1
  let b := b &&& 0xFE
  let b := if specData.digiTare = SV_INHIBIT then b ||| 0x01 else b
  -- byte 1, bit 1
  let b := shl8 b 1
  let b := b &&& 0xFE
  let b := if specData.wgtReset = SV_INHIBIT then b ||| 0x01 else b
  -- byte 1, bit 0
  let b := shl8 b 1
  let b := b &&& 0xFE
  let b := if specData.zeroTrack = SV_INHIBIT then b ||| 0x01 else b
  b

/-- The statements of `specDataToCmdData` that build `spec_byte[2]`. -/
def specByte2 (specData : SpecData) : Nat :=
  -- byte 2, bit 5-7
  let b : Nat :=
    if specData.posDecPoint1 = SV_DP_0 then 0x00
    else if specData.posDecPoint1 = SV_DP_1 then 0x01
    else if specData.posDecPoint1 = SV_DP_2 then 0x02
    else if specData.posDecPoint1 = SV_DP_3 then 0x03
    else if specData.posDecPoint1 = SV_DP_4 then 0x04
    else 0x00
  -- byte 2, bit 4, not used
  let b := shl8 b 1
  -- byte 2, bit 2-3
  let b := shl8 b 2
  let b := b &&& 0xFC
  let b :=
    if specData.reZeroRange = SV_RZR_2 then b
    else if specData.reZeroRange = SV_RZR_4 then b ||| 0x01
    else if specData.reZeroRange = SV_RZR_10 then b ||| 0x02
    else b ||| 0x03
  -- byte 2, bit 1
  let b := shl8 b 1
  let b := b &&& 0xFE
  let b := if specData.reZeroFunc = SV_INHIBIT then b ||| 0x01 else b
  -- byte 2, bit 0
  let b := shl8 b 1
  let b := b &&& 0xFE
  let b := if specData.wtgSinMul1 = SV_WSM_MUL then b ||| 0x01 else b
  b

/-- The statements of `specDataToCmdData` that build `spec_byte[3]`; the stores
of `posDecPoint2` and `wtgSinMu2` are commented out in the source. -/
def specByte3 (specData : SpecData) : Nat :=
  -- byte 3, bit 6-7
  let b : Nat :=
    if specData.negWgtMsk = SV_NWM_MG9E then 0x00
    else if specData.negWgtMsk = SV_NWM_MGW then 0x01
    else if specData.negWgtMsk = SV_NWM_MGF then 0x02
    else 0x03
  -- byte 3, bit 5
  let b := shl8 b 1
  let b := b &&& 0xFE
  let b := if specData.tareRange = SV_TR_100 then b ||| 0x01 else b
  -- byte 3, bit 4
  let b := shl8 b 1
  let b := b &&& 0xFE
  let b := if specData.decPointType = SV_TDP_C then b ||| 0x01 else b
  -- byte 3, bit 1-3
  let b := shl8 b 3
  -- byte 3, bit 0
  let b := shl8 b 1
  b

/-- The statements of `specDataToCmdData` that build `spec_byte[4]`; the store
of `scale2FilterStrn` is commented out in the source. -/
def specByte4 (specData : SpecData) : Nat :=
  -- byte 4, bit 6-7
  let b : Nat :=
    if specData.scale1FilterStrn = SV_FS_LO then 0x00
    else if specData.scale1FilterStrn = SV_FS_NM then 0x01
    else if specData.scale1FilterStrn = SV_FS_UN then 0x02
    else if specData.scale1FilterStrn = SV_FS_HI then 0x03
    else 0x01
  -- byte 4, bit 4-5
  let b := shl8 b 2
  -- byte 4, bit 0-3, not used
  let b := shl8 b 4
  b

/-- The array `spec_byte` at the end of `specDataToCmdData`. -/
def specBytes (specData : SpecData) : List Nat :=
  [specByte0 specData, specByte1 specData, specByte2 specData, specByte3 specData,
   specByte4 specData]

/-- Embedding of `specDataToCmdData(cmdData, specData)`: the `LEN_RW_SPEC_DATA`
bytes of `cmdData` after `memset(cmdData, '0', LEN_RW_SPEC_DATA)` and
`ad2k_HexToStr(cmdData, spec_byte, 5)`. -/
def specDataToCmdData (specData : SpecData) : List Nat :=
  ad2k_HexToStr (specBytes specData) NBYTE_SPEC
    ++ (List.replicate LEN_RW_SPEC_DATA 0x30).drop (2 * NBYTE_SPEC)

/-- The statements of `respDataToSpecData` that read `spec_byte[0]`. -/
def respSpecByte0 (specData : SpecData) (spec_byte0 : Nat) : SpecData :=
  let b := spec_byte0
  -- byte 0, bit 0
  let specData := { specData with
    tareAutoClear := if b &&& 0x01 = 0 then SV_ALLOW else SV_INHIBIT }
  let b := b >>> 1
  -- byte 0, bit 1
  let specData := { specData with
    autoZeroReset := if b &&& 0x01 = 0 then SV_ALLOW else SV_INHIBIT }
  let b := b >>> 1
  -- byte 0, bit 2-3
  let specData := { specData with
    startRange :=
      if b &&& 0x03 = 0 then SV_SR_10
      else if b &&& 0x03 = 1 then SV_SR_20
      else if b &&& 0x03 = 2 then SV_SR_50
      else SV_SR_100 }
  let b := b >>> 2
  -- byte 0, bit 4
  let specData := { specData with
    tareSub := if b &&& 0x01 = 0 then SV_ALLOW else SV_INHIBIT }
  let b := b >>> 1
  -- byte 0, bit 5
  let specData := { specData with
    tareAcc := if b &&& 0x01 = 0 then SV_ALLOW else SV_INHIBIT }
  let b := b >>> 1
  -- byte 0, bit 6-7
  let specData := { specData with
    wgtStabCond :=
      if b &&& 0x03 = 0 then SV_WSC_LOOSE
      else if b &&& 0x03 = 1 then SV_WSC_NORMAL
      else if b &&& 0x03 = 2 then SV_WSC_TIGHT
      else if b &&& 0x03 = 3 then SV_WSC_STRINGENT
      else SV_WSC_NORMAL }
  specData

/-- The statements of `respDataToSpecData` that read `spec_byte[1]`. -/
def respSpecByte1 (specData : SpecData) (spec_byte1 : Nat) : SpecData :=
  let b := spec_byte1
  -- byte 1, bit 0
  let specData := { specData with
    zeroTrack := if b &&& 0x01 = 0 then SV_ALLOW else SV_INHIBIT }
  let b := b >>> 1
  -- byte 1, bit 1
  let specData := { specData with
    wgtReset := if b &&& 0x01 = 0 then SV_ALLOW else SV_INHIBIT }
  let b := b >>> 1
  -- byte 1, bit 2
  let specData := { specData with
    digiTare := if b &&& 0x01 = 0 then SV_ALLOW else SV_INHIBIT }
  let b := b >>> 1
  -- byte 1, bit 3
  let specData := { specData with
    manTareCancel := if b &&& 0x01 = 0 then SV_ALLOW else SV_INHIBIT }
  let b := b >>> 1
  -- byte 1, bit 4
  let specData := { specData with
    zeroOn := if b &&& 0x01 = 0 then SV_ZN_GROSS else SV_ZN_NET }
  let b := b >>> 1
  -- byte 1, bit 5
  let specData := { specData with
    tareAutoClear2 := if b &&& 0x01 = 0 then SV_ALLOW else SV_INHIBIT }
  let b := b >>> 1
  -- byte 1, bit 6
  let specData := { specData with
    autoClearCond := if b &&& 0x01 = 0 then SV_ACC_0 else SV_ACC_1 }
  let b := b >>> 1
  -- byte 1, bit 7
  let specData := { specData with
    priTareOpe := if b &&& 0x01 = 0 then SV_PTO_OT else SV_PTO_DT }
  specData

/-- The statements of `respDataToSpecData` that read `spec_byte[2]`. -/
def respSpecByte2 (specData : SpecData) (spec_byte2 : Nat) : SpecData :=
  let b := spec_byte2
  -- byte 2, bit 0
  let specData := { specData with
    wtgSinMul1 := if b &&& 0x01 = 0 then SV_WSM_SIG else SV_WSM_MUL }
  let b := b >>> 1
  -- byte 2, bit 1
  let specData := { specData with
    reZeroFunc := if b &&& 0x01 = 0 then SV_ALLOW else SV_INHIBIT }
  let b := b >>> 1
  -- byte 2, bit 2-3
  let specData := { specData with
    reZeroRange :=
      if b &&& 0x03 = 0 then SV_RZR_2
      else if b &&& 0x03 = 1 then SV_RZR_4
      else if b &&& 0x03 = 2 then SV_RZR_10
      else SV_RZR_100 }
  let b := b >>> 2
  -- byte 2, bit 4, not used
  let b := b >>> 1
  -- byte 2, bit 5-7
  let specData := { specData with
    posDecPoint1 :=
      if b &&& 0x07 = 0 then SV_DP_0
      else if b &&& 0x07 = 1 then SV_DP_1
      else if b &&& 0x07 = 2 then SV_DP_2
      else if b &&& 0x07 = 3 then SV_DP_3
      else if b &&& 0x07 = 4 then SV_DP_4
      else SV_DP_0 }
  specData

/-- The statements of `respDataToSpecData` that read `spec_byte[3]`; the loads
of `wtgSinMu2` and `posDecPoint2` are commented out in the source. -/
def respSpecByte3 (specData : SpecData) (spec_byte3 : Nat) : SpecData :=
  let b := spec_byte3
  -- byte 3, bit 0
  let b := b >>> 1
  -- byte 3, bit 1-3
  let b := b >>> 3
  -- byte 3, bit 4
  let specData := { specData with
    decPointType := if b &&& 0x01 = 0 then SV_TDP_P else SV_TDP_C }
  let b := b >>> 1
  -- byte 3, bit 5
  let specData := { specData with
    tareRange := if b &&& 0x01 = 0 then SV_TR_50 else SV_TR_100 }
  let b := b >>> 1
  -- byte3, bit 6-7
  let specData := { specData with
    negWgtMsk :=
      if b &&& 0x03 = 0 then SV_NWM_MG9E
      else if b &&& 0x03 = 1 then SV_NWM_MGW
      else if b &&& 0x03 = 2 then SV_NWM_MGF
      else SV_NWM_NU }
  specData

/-- The statements of `respDataToSpecData` that read `spec_byte[4]`; the load
of `scale2FilterStrn` is commented out in the source. -/
def respSpecByte4 (specData : SpecData) (spec_byte4 : Nat) : SpecData :=
  let b := spec_byte4
  -- byte4, bit 0-3, not used
  let b := b >>> 4
  -- byte4, bit 4-5
  let b := b >>> 2
  -- byte4, bit 6-7
  let specData := { specData with
    scale1FilterStrn :=
      if b &&& 0x03 = 0 then SV_FS_LO
      else if b &&& 0x03 = 1 then SV_FS_NM
      else if b &&& 0x03 = 2 then SV_FS_UN
      else if b &&& 0x03 = 3 then SV_FS_HI
      else SV_FS_NM }
  specData

/-- Embedding of `respDataToSpecData(specData, respData)`: the record `*specData`
after the call, from the record before it and the bytes at `respData`.  The
fields `startChnChk`, `posDecPoint2`, `wtgSinMu2` and `scale2FilterStrn` are never
stored to. -/
def respDataToSpecData (specData : SpecData) (respData : List Nat) : SpecData :=
  let spec_byte := ad2k_StrToHex respData NBYTE_SPEC
  let specData := respSpecByte0 specData (spec_byte.getD 0 0)
  let specData := respSpecByte1 specData (spec_byte.getD 1 0)
  let specData := respSpecByte2 specData (spec_byte.getD 2 0)
  let specData := respSpecByte3 specData (spec_byte.getD 3 0)
  let specData := respSpecByte4 specData (spec_byte.getD 4 0)
  specData

/-! ## Memory and message queue primitives -/

/-- The `k` bytes that `memcpy` or a copying loop reads from the zero-initialised
buffer `src`, starting at its first byte. -/
def memRead (src : List Nat) (k : Nat) : List Nat :=
  (List.range k).map (fun i => src.getD i 0)

/-- The array `dst` after `memcpy(dst, src, k)`. -/
def memcpy (dst src : List Nat) (k : Nat) : List Nat :=
  memRead src k ++ dst.drop k

/-- Embedding of `msgq_clear(msgq_id)`: `msgrcv` with `IPC_NOWAIT` until it fails;
on an invalid queue id the first `msgrcv` fails. -/
def msgq_clear {α : Type} (msgq_id : Int) (msgq : List α) : List α :=
  if msgq_id < 0 then msgq else []

/-- Byte 3 of an `int` object as it lies in memory, least significant byte first:
bits 24-31 of its 32-bit representation. -/
def intByte3 (v : Int) : Nat :=
  (v % 2 ^ 32).toNat / 2 ^ 24

/-- Embedding of `msgq_send_msg(msgq_id, msg_type, buf, n)`: the return value and
the queue afterwards.  `text3` is `msg.text[3]`, byte 3 of the `n` bytes copied
from `buf` (0 when `n` is 3 or less).  `msgq_snd` hands `struct ad2k_msg_s`, a
4-byte `type` followed by `text`, to `msgsnd`, which reads a `long` message type
at its start: where `long` has 8 bytes (the 64-bit little-endian Linux targets)
that is `type` followed by `text[0..3]`, so the message type is negative and
`msgsnd` fails, queueing nothing, exactly when `text[3]` is 0x80 or above.
Otherwise `msgsnd` is taken to succeed (the queue has room). -/
def msgq_send_msg {α : Type} (msgq_id msg_type : Int) (msgq : List α) (buf : α)
    (text3 : Nat) : Int × List α :=
  if msgq_id < 0 ∨ msg_type ≤ 0 then (-1, msgq)
  else if 0x80 ≤ text3 then (-1, msgq)
  else (0, msgq ++ [buf])

/-! ## Frame codec -/

/-- The value of a plain `char` object holding the byte `b`, converted to `int`. -/
def charValue (charSigned : Bool) (b : Nat) : Int :=
  if charSigned = true ∧ 128 ≤ b then (b : Int) - 256 else (b : Int)

/-- The `while (1)` loop of `fetchContent`.  The arguments are `maxSize`, the
`stage`, the bytes `content[0 .. i)` stored so far and the bytes still to be read;
the result is the return value, the stored bytes and the unread bytes, or `none`
when the input ends before the function returns. -/
def fetchLoop (charSigned : Bool) (maxSize : Int) :
    Nat → List Nat → List Nat → Option (Int × List Nat × List Nat)
  | _, _, [] => none
  | stage, content, ch :: rest =>
    if (content.length : Int) ≥ maxSize then some (maxSize, content, rest)
    else
      match stage with
      | 0 =>
        if charValue charSigned ch = (STX : Int) then fetchLoop charSigned maxSize 1 content rest
        else fetchLoop charSigned maxSize 0 content rest
      | 1 =>
        if charValue charSigned ch = (ETX : Int) then fetchLoop charSigned maxSize 2 content rest
        else fetchLoop charSigned maxSize 1 (content ++ [ch]) rest
      | 2 =>
        if (calculateBCC content : Int) = charValue charSigned ch then
          some ((content.length : Int), content, rest)
        else some (-1, content, rest)
      | _ => some (-1, content, rest)

/-- Embedding of `fetchContent(fd, content, maxSize)` on the bytes `input` that
`read(fd, &ch, 1)` delivers one at a time. -/
def fetchContent (charSigned : Bool) (fd maxSize : Int) (input : List Nat) :
    Option (Int × List Nat × List Nat) :=
  if fd < 0 ∨ maxSize ≤ 0 then some (-1, [], input)
  else fetchLoop charSigned maxSize 0 [] input

/-- Embedding of `sendCmd(type, cmd, data, data_len, timeout)`: the return value
and the state afterwards.  `data` is `none` for a NULL pointer.  The frame is
built in `buf[128]`; `snprintf` writes STX, `type`, `cmd` and a NUL, `strlen`
gives the index where the payload starts.  `buf.getD 3 0` is byte 3 of the frame,
which `msgq_send_msg` copies to `msg.text[3]`. -/
def sendCmd (st : LibState) (type cmd : Nat) (data : Option (List Nat)) (data_len : Int)
    (_timeout : Int) : Int × LibState :=
  if st.msgq_to_ad_id < 0 then (-1, st)
  else
    let st := { st with cmd_saved := cmd }
    let buf := cstr [STX, type, cmd, 0]
    let buf :=
      match data with
      | some d => if data_len > 0 then buf ++ memRead d data_len.toNat else buf
      | none => buf
    let buf := buf ++ [ETX]
    let buf := buf ++ [calculateBCC ((buf.drop 1).take (buf.length - 2))]
    let r := msgq_send_msg st.msgq_to_ad_id AD2K_MSG_DEFAULT st.msgq_to_ad buf (buf.getD 3 0)
    if r.1 < 0 then (-1, st)
    else (0, { st with msgq_to_ad := r.2 })

/-- Embedding of `sendRCmd(cmd, timeout)`. -/
def sendRCmd (st : LibState) (cmd : Nat) (timeout : Int) : Int × LibState :=
  sendCmd st CMD_R cmd none 0 timeout

/-- Embedding of `sendWCmd(cmd, data, data_len, timeout)`. -/
def sendWCmd (st : LibState) (cmd : Nat) (data : Option (List Nat)) (data_len : Int)
    (timeout : Int) : Int × LibState :=
  sendCmd st CMD_W cmd data data_len timeout

/-! ## Receive pipeline -/

/-- A `struct Response` after `memset(&resp, 0, sizeof(resp))`. -/
def zeroResponse : Response :=
  ⟨0, 0, 0, List.replicate 128 0, 0⟩

/-- A `struct NIData` after `memset(&NIdata, 0, sizeof(NIdata))`. -/
def zeroNIData : NIData :=
  ⟨0, [], [], 0, 0, List.replicate NBYTE_NI_STATUS 0⟩

/-- Embedding of `getResponse(resp, content, n)`: the record `*resp` after the
call; `cmd_saved` is the file-scope variable. -/
def getResponse (cmd_saved : Nat) (resp : Response) (content : List Nat) (n : Int) : Response :=
  if n < 2 then resp
  else
    let resp := { resp with cmd := cmd_saved }
    let resp := { resp with type := content.getD 0 0 }
    let resp := { resp with result := content.getD 1 0 }
    if resp.type = CMD_R ∧ resp.result = RSP_RW_OK then
      let resp := { resp with data := memcpy resp.data (content.drop 2) (n - 2).toNat }
      { resp with data_len := (n - 2).toNat }
    else
      let resp := { resp with data := List.replicate 128 0 }
      { resp with data_len := 0 }

/-- Embedding of `getNIData(NIdata, content)`: the record `*NIdata` after the
call.  `buf` receives 8 bytes of `content` and a NUL; the string arrays of
`NIdata` are zero on entry. -/
def getNIData (NIdata : NIData) (content : List Nat) : NIData :=
  let decode (NIdata : NIData) : NIData :=
    let buf := memRead (content.drop 1) 8 ++ [0]
    let NIdata := { NIdata with sec1Str := cutHeadZero (cstr buf) }
    let NIdata := { NIdata with sec1 := ad2k_StrToNum NIdata.sec1Str BASE_DEC }
    let buf := memRead (content.drop 11) 8 ++ [0]
    let NIdata := { NIdata with sec2Str := cutHeadZero (cstr buf) }
    let NIdata := { NIdata with sec2 := ad2k_StrToNum NIdata.sec2Str BASE_DEC }
    let NIdata := { NIdata with status := List.replicate NBYTE_NI_STATUS 0 }
    { NIdata with status := ad2k_StrToHex (content.drop 21) NBYTE_NI_STATUS }
  if content.getD 0 0 = 0x30 ∧ content.getD 10 0 = 0x34 then
    -- weight mode
    decode { NIdata with mode := CMD_W_WGT_MODE }
  else if content.getD 0 0 = 0x61 ∧ content.getD 10 0 = 0x69 then
    -- internal mode
    decode { NIdata with mode := CMD_W_INT_MODE }
  else NIdata

/-- Embedding of `NIDataToScaleData(scaleData, NIdata)`: the record `*scaleData`
after the call, from the record before it.  `status` is the `unsigned char`
local of the source. -/
def NIDataToScaleData (scaleData : ScaleData) (NIdata : NIData) : ScaleData :=
  let status := NIdata.status.getD 0 0
  -- byte 0, bit 0
  let scaleData := { scaleData with tareFg := if status &&& 0x01 ≠ 0 then 1 else 0 }
  let status := status >>> 3
  -- byte 0, bit 3
  let scaleData := { scaleData with zeroPointFg := if status &&& 0x01 ≠ 0 then 1 else 0 }
  let status := status >>> 1
  -- byte 0, bit 4
  let scaleData := { scaleData with stabilizeFg := if status &&& 0x01 ≠ 0 then 1 else 0 }
  let status := status >>> 2
  -- byte 0, bit 6-7
  let scaleData := { scaleData with underOverFlowFg := (((status &&& 0x03) &&& 0xff : Nat) : Int) }
  let status := NIdata.status.getD 1 0
  let status := status >>> 3
  -- byte 1, bit 3
  let scaleData := { scaleData with spanSwFg := if status &&& 0x01 ≠ 0 then 1 else 0 }
  let status := NIdata.status.getD 2 0
  -- byte 2, bit 0
  let scaleData := { scaleData with oneTouchTareFg := if status &&& 0x01 ≠ 0 then 1 else 0 }
  let status := status >>> 1
  -- byte 2, bit 1
  let scaleData := { scaleData with digitalTareFg := if status &&& 0x01 ≠ 0 then 1 else 0 }
  let status := status >>> 1
  -- byte 2, bit 2
  let scaleData := { scaleData with presetTareFg := if status &&& 0x01 ≠ 0 then 1 else 0 }
  let status := status >>> 1
  -- byte 2, bit 3
  let scaleData := { scaleData with percentTareFg := if status &&& 0x01 ≠ 0 then 1 else 0 }
  let scaleData := { scaleData with sec1Str := NIdata.sec1Str }
  let scaleData := { scaleData with sec2Str := NIdata.sec2Str }
  if NIdata.mode = CMD_W_WGT_MODE then
    let scaleData := { scaleData with
      weight := if scaleData.underOverFlowFg = 0 then NIdata.sec1 else 0 }
    let scaleData := { scaleData with tare := NIdata.sec2 }
    { scaleData with irFg := 0 }
  else if NIdata.mode = CMD_W_INT_MODE then
    let scaleData := { scaleData with adCount := NIdata.sec1 }
    let scaleData := { scaleData with irCount := NIdata.sec2 }
    { scaleData with irFg := 1 }
  else scaleData

/-- Embedding of `respDataToADVerStr(adVer, respData)`: the array `adVer` after
`snprintf(adVer, 8, "%c.%c.%c", ...)`, which stores five characters and a NUL. -/
def respDataToADVerStr (adVer : List Nat) (respData : List Nat) : List Nat :=
  [respData.getD 0 0, 0x2E, respData.getD 1 0, 0x2E, respData.getD 2 0, 0] ++ adVer.drop 6

/-- Embedding of `respDataToSpanData(spanData, respData)`; `buf` is zeroed before
each `memcpy`, so each field is read from the C string of the copied bytes. -/
def respDataToSpanData (spanData : SpanData) (respData : List Nat) : SpanData :=
  let i := 0
  let spanData := { spanData with
    firstWeight := ad2k_StrToNum (cstr (memRead (respData.drop i) 8 ++ [0])) BASE_DEC }
  let i := i + 8
  let spanData := { spanData with
    spanWeight := ad2k_StrToNum (cstr (memRead (respData.drop i) 8 ++ [0])) BASE_DEC }
  let i := i + 8
  let spanData := { spanData with
    secWeight := ad2k_StrToNum (cstr (memRead (respData.drop i) 8 ++ [0])) BASE_DEC }
  let i := i + 8
  let spanData := { spanData with
    e2 := ad2k_StrToNum (cstr (memRead (respData.drop i) 2 ++ [0])) BASE_DEC }
  let i := i + 2
  { spanData with
    e1 := ad2k_StrToNum (cstr (memRead (respData.drop i) 2 ++ [0])) BASE_DEC }

/-- Embedding of `processResponse(msgq_id, resp)` on the queue `msgq` that
`msgq_id` names: the queue afterwards.  `junk` is the indeterminate initial
contents of the local `ad2kData`.  The `int` member `type` comes first in
`struct AD2kData`, so `msg.text[3]` is byte 3 of the tag. -/
def processResponse (junk : AD2kData) (msgq_id : Int) (msgq : List AD2kData)
    (resp : Response) : List AD2kData :=
  if msgq_id < 0 then msgq
  else
    let response := resp
    let ad2kData := junk
    let ad2kData :=
      if response.type = CMD_R ∧ response.result = RSP_RW_OK then
        if response.cmd = CMD_RW_SPEC_DATA ∧ response.data_len = LEN_RW_SPEC_DATA then
          let ad2kData := { ad2kData with type := AD2K_MSG_SPEC }
          { ad2kData with scaleSpec := respDataToSpecData ad2kData.scaleSpec response.data }
        else if response.cmd = CMD_RW_SPAN_DATA ∧ response.data_len = LEN_RW_SPAN_DATA then
          let ad2kData := { ad2kData with type := AD2K_MSG_SPAN }
          { ad2kData with scaleSpan := respDataToSpanData ad2kData.scaleSpan response.data }
        else if response.cmd = CMD_R_AD_VER ∧ response.data_len = LEN_R_AD_VER then
          let ad2kData := { ad2kData with type := AD2K_MSG_ADVER }
          { ad2kData with adVer := respDataToADVerStr ad2kData.adVer response.data }
        else ad2kData
      else
        let ad2kData := { ad2kData with type := AD2K_MSG_RESP }
        { ad2kData with response := response }
    let msgq := msgq_clear msgq_id msgq
    (msgq_send_msg msgq_id AD2K_MSG_DEFAULT msgq ad2kData (intByte3 ad2kData.type)).2

/-- Embedding of `processNIData(msgq_id, NIdata)` on the queue `msgq` that
`msgq_id` names: the queue afterwards.  `junk` is the indeterminate initial
contents of the local `ad2kData`; `msg.text[3]` is byte 3 of its tag. -/
def processNIData (junk : AD2kData) (msgq_id : Int) (msgq : List AD2kData)
    (NIdata : NIData) : List AD2kData :=
  let ad2kData := junk
  let ad2kData := { ad2kData with type := AD2K_MSG_NI }
  let ad2kData := { ad2kData with scaleData := NIDataToScaleData ad2kData.scaleData NIdata }
  let msgq := msgq_clear msgq_id msgq
  (msgq_send_msg msgq_id AD2K_MSG_DEFAULT msgq ad2kData (intByte3 ad2kData.type)).2

/-- One iteration of the `while (1)` loop of `scaleProcedureFrAD`, on the bytes
`input` the transport still delivers: the state and the unread bytes afterwards,
or `none` when `fetchContent` does not return.  `junk` is the indeterminate
initial contents of the local `ad2kData` of the two `process` functions. -/
def scaleProcedureFrAD_iter (charSigned : Bool) (junk : AD2kData) (st : LibState)
    (input : List Nat) : Option (LibState × List Nat) :=
  match fetchContent charSigned st.scale_fd 256 input with
  | none => none
  | some (len, content, rest) =>
    if len = 2 ∨ len = 2 + (LEN_R_AD_VER : Int) ∨ len = 2 + (LEN_RW_SPEC_DATA : Int)
        ∨ len = 2 + (LEN_RW_SPAN_DATA : Int) then
      let resp := zeroResponse
      let resp := getResponse st.cmd_saved resp content len
      let st := { st with msgq_fr_ad := processResponse junk st.msgq_fr_ad_id st.msgq_fr_ad resp }
      some ({ st with waitRespFg := 0 }, rest)
    else if len = (LEN_NI_DATA : Int) then
      let NIdata := zeroNIData
      let NIdata := getNIData NIdata content
      some ({ st with msgq_fr_ad := processNIData junk st.msgq_fr_ad_id st.msgq_fr_ad NIdata },
        rest)
    else some (st, rest)

/-! ## Decimal value of a digit string -/

/-- The number a string of decimal digit characters denotes, most significant
digit first. -/
def decimalValue (digits : List Nat) : Nat :=
  Nat.ofDigits 10 (digits.reverse.map (fun c => c - 0x30))

/-- The characters `'0'` to `'9'`. -/
def IsDigits (l : List Nat) : Prop :=
  ∀ c ∈ l, 0x30 ≤ c ∧ c ≤ 0x39

instance (l : List Nat) : Decidable (IsDigits l) := by
  unfold IsDigits
  infer_instance

/-- A `struct AD2kData` after `memset(&x, 0, sizeof(x))`.  -/
def zeroAD2kData : AD2kData :=
  ⟨0, ⟨[], [], 0, 0, 0, 0, 0, 0, 0, 0, 0, 0, 0, 0, 0, 0⟩, zeroSpecData, ⟨0, 0, 0, 0, 0⟩,
    zeroResponse, List.replicate 16 0⟩

/-- Two XOR values that `calculateBCC` maps to the same block check character: a
reserved control value and that value plus 0x20. -/
def bccCollision (x y : Nat) : Prop :=
  (x ∈ reservedControl ∧ y = x + 0x20) ∨ (y ∈ reservedControl ∧ x = y + 0x20)

instance (x y : Nat) : Decidable (bccCollision x y) := by
  unfold bccCollision
  infer_instance

/-- The state once `ad2k_OpenScale` and `ad2k_StartScale` have succeeded with
the descriptor 3 and the queue ids 0 and 1: both queues exist and are empty, no
command has been sent. -/
def startedState : LibState :=
  ⟨0, 0, 3, 0, 1, [], []⟩

/-- A `struct ScaleData` after `memset(&x, 0, sizeof(x))`. -/
def zeroScaleData : ScaleData :=
  ⟨[], [], 0, 0, 0, 0, 0, 0, 0, 0, 0, 0, 0, 0, 0, 0⟩

/-- A telemetry body laid out as the source reads it: byte 0 `c0`, bytes 1-8
`sec1`, byte 9 `c9`, byte 10 `c10`, bytes 11-18 `sec2`, bytes 19 and 20 `c19` and
`c20`, then the status characters (bytes 21-26). -/
def telemetryBody (c0 : Nat) (sec1 : List Nat) (c9 c10 : Nat) (sec2 : List Nat)
    (c19 c20 : Nat) (status : List Nat) : List Nat :=
  c0 :: (sec1 ++ c9 :: c10 :: (sec2 ++ c19 :: c20 :: status))

/-- The telemetry body of the scenario: byte 0 `'0'`, bytes 1-8 `"00001000"`,
byte 10 `'4'`, bytes 11-18 `"00000000"` and the six status characters `status`. -/
def scenarioBody (c9 c19 c20 : Nat) (status : List Nat) : List Nat :=
  telemetryBody 0x30 [0x30, 0x30, 0x30, 0x30, 0x31, 0x30, 0x30, 0x30] c9 0x34
    [0x30, 0x30, 0x30, 0x30, 0x30, 0x30, 0x30, 0x30] c19 c20 status

/-- The `ScaleData` the receive loop builds for a telemetry body: `getNIData` on
a zeroed `NIData`, then `NIDataToScaleData` into the record `junk`. -/
def telemetryScaleData (junk : ScaleData) (content : List Nat) : ScaleData :=
  NIDataToScaleData junk (getNIData zeroNIData content)

/-! ## Command wrappers -/

def TIME_OUT_SPEC_mSEC : Int := 2000
def TIME_OUT_SPAN_mSEC : Int := 20000
def TIME_OUT_CMD_mSEC : Int := 500

def LEN_W_DIGI_TARE : Nat := 8

/-- The decimal digit characters of `n`, most significant first, computed with
`fuel` division steps. -/
def decimalDigitsFuel : Nat → Nat → List Nat
  | 0, _ => []
  | fuel + 1, n =>
    if n < 10 then [0x30 + n]
    else decimalDigitsFuel fuel (n / 10) ++ [0x30 + n % 10]

/-- Modelled from the C standard library (`printf` is not part of the
repository): the characters `%d` produces for a non-negative value, at least one
digit and no leading zero. -/
def decimalDigits (n : Nat) : List Nat :=
  decimalDigitsFuel (n + 1) n

/-- Modelled from the C standard library: the characters the conversion `%0Wd`
produces for the `int` value `v` with field width `W`; the value is padded with
zeros on the left, after the sign, up to the width. -/
def printfZeroPadInt (width : Nat) (v : Int) : List Nat :=
  let digits := decimalDigits v.natAbs
  if v < 0 then 0x2D :: (List.replicate (width - 1 - digits.length) 0x30 ++ digits)
  else List.replicate (width - digits.length) 0x30 ++ digits

/-- Modelled from the C standard library: a zeroed array of `size` bytes after
`snprintf(buf, size, ...)` has produced `chars`; at most `size - 1` characters
are stored, and a NUL after them. -/
def snprintfBuf (size : Nat) (chars : List Nat) : List Nat :=
  chars.take (size - 1) ++ List.replicate (size - (chars.take (size - 1)).length) 0

/-- Embedding of `ad2k_SetDigitalTare(tare)`: the return value and the state
afterwards. -/
def ad2k_SetDigitalTare (st : LibState) (tare : Int) : Int × LibState :=
  let data := snprintfBuf 16 (printfZeroPadInt 8 tare)
  sendWCmd st CMD_W_DIGI_TARE (some data) LEN_W_DIGI_TARE TIME_OUT_CMD_mSEC

/-- Embedding of `ad2k_SetSpecData(scale_spec)`, `none` for a NULL pointer: the
return value and the state afterwards.  `specDataToCmdData` overwrites all
`LEN_RW_SPEC_DATA` bytes of the zeroed array `data`. -/
def ad2k_SetSpecData (st : LibState) (scale_spec : Option SpecData) : Int × LibState :=
  match scale_spec with
  | none => (-1, st)
  | some spec =>
    let data := specDataToCmdData spec
    sendWCmd st CMD_RW_SPEC_DATA (some data) LEN_RW_SPEC_DATA TIME_OUT_SPEC_mSEC

/-- Embedding of `ad2k_SetSpanData(span_data)`, `none` for a NULL pointer: the
return value and the state afterwards.  `data` is the zeroed 32-byte array after
`snprintf(data, 32, "%08d%08d%08d%02d%02d", ...)`. -/
def ad2k_SetSpanData (st : LibState) (span_data : Option SpanData) : Int × LibState :=
  match span_data with
  | none => (-1, st)
  | some span =>
    let data := snprintfBuf 32
      (printfZeroPadInt 8 span.firstWeight ++ (printfZeroPadInt 8 span.spanWeight
        ++ (printfZeroPadInt 8 span.secWeight ++ (printfZeroPadInt 2 span.e2
        ++ printfZeroPadInt 2 span.e1))))
    sendWCmd st CMD_RW_SPAN_DATA (some data) LEN_RW_SPAN_DATA TIME_OUT_SPAN_mSEC

/-- The characters `'0'`-`'9'` and `'A'`-`'F'`. -/
def IsUpperHexChar (c : Nat) : Prop :=
  (0x30 ≤ c ∧ c ≤ 0x39) ∨ (0x41 ≤ c ∧ c ≤ 0x46)

instance (c : Nat) : Decidable (IsUpperHexChar c) := by
  unfold IsUpperHexChar
  infer_instance

/-! ## Layout table of the packed SpecData -/

/-- Byte 0 of the layout table: bit 0 tareAutoClear, bit 1 autoZeroReset, bits
2-3 startRange, bit 4 tareSub, bit 5 tareAcc, bits 6-7 wgtStabCond. -/
def specLayoutByte0 (s : SpecData) : Nat :=
  s.tareAutoClear <<< 0 ||| s.autoZeroReset <<< 1 ||| s.startRange <<< 2 ||| s.tareSub <<< 4
    ||| s.tareAcc <<< 5 ||| s.wgtStabCond <<< 6

/-- Byte 1 of the layout table: bits 0 to 7 are zeroTrack, wgtReset, digiTare,
manTareCancel, zeroOn, tareAutoClear2, autoClearCond, priTareOpe. -/
def specLayoutByte1 (s : SpecData) : Nat :=
  s.zeroTrack <<< 0 ||| s.wgtReset <<< 1 ||| s.digiTare <<< 2 ||| s.manTareCancel <<< 3
    ||| s.zeroOn <<< 4 ||| s.tareAutoClear2 <<< 5 ||| s.autoClearCond <<< 6
    ||| s.priTareOpe <<< 7

/-- Byte 2 of the layout table: bit 0 wtgSinMul1, bit 1 reZeroFunc, bits 2-3
reZeroRange, bit 4 unused, bits 5-7 posDecPoint1. -/
def specLayoutByte2 (s : SpecData) : Nat :=
  s.wtgSinMul1 <<< 0 ||| s.reZeroFunc <<< 1 ||| s.reZeroRange <<< 2 ||| s.posDecPoint1 <<< 5

/-- Byte 3 of the layout table: bits 0-3 unused, bit 4 decPointType, bit 5
tareRange, bits 6-7 negWgtMsk. -/
def specLayoutByte3 (s : SpecData) : Nat :=
  s.decPointType <<< 4 ||| s.tareRange <<< 5 ||| s.negWgtMsk <<< 6

/-- Byte 4 of the layout table: bits 0-5 unused, bits 6-7 scale1FilterStrn. -/
def specLayoutByte4 (s : SpecData) : Nat :=
  s.scale1FilterStrn <<< 6

/-- The bit range of `b` that starts at bit `shift`; `mask` is 1 for a one-bit
range, 3 for a two-bit range and 7 for a three-bit range. -/
def bitField (b shift mask : Nat) : Nat :=
  (b >>> shift) &&& mask

/-- The value of a hexadecimal digit character, 0 for any other character. -/
def hexDigitValue (c : Nat) : Nat :=
  if 0x30 ≤ c ∧ c ≤ 0x39 then c - 0x30
  else if 0x61 ≤ c ∧ c ≤ 0x66 then c - 0x61 + 10
  else if 0x41 ≤ c ∧ c ≤ 0x46 then c - 0x41 + 10
  else 0

/-- The characters `'0'`-`'9'`, `'a'`-`'f'` and `'A'`-`'F'`. -/
def IsHexDigit (c : Nat) : Prop :=
  (0x30 ≤ c ∧ c ≤ 0x39) ∨ (0x61 ≤ c ∧ c ≤ 0x66) ∨ (0x41 ≤ c ∧ c ≤ 0x46)

instance (c : Nat) : Decidable (IsHexDigit c) := by
  unfold IsHexDigit
  infer_instance

/-- Byte `i` of a payload read as two hexadecimal characters per byte, high
nibble first. -/
def hexPayloadByte (payload : List Nat) (i : Nat) : Nat :=
  16 * hexDigitValue (payload.getD (2 * i) 0) + hexDigitValue (payload.getD (2 * i + 1) 0)

/-! ## Specification-side notions for the string codecs -/

/-- The characters of `s` after its last `'-'`; all of `s` when it has none. -/
def afterLastMinus : List Nat → List Nat
  | [] => []
  | c :: t => if 0x2D ∈ t then afterLastMinus t else if c = 0x2D then t else c :: t

/-- The decimal digit characters of `s`, in order. -/
def digitsOf (s : List Nat) : List Nat :=
  s.filter (fun c => decide (0x30 ≤ c ∧ c ≤ 0x39))

/-- The characters a decimal string may hold: digits, `'-'`, `'.'` and `','`. -/
def IsDecChar (c : Nat) : Prop :=
  (0x30 ≤ c ∧ c ≤ 0x39) ∨ c = 0x2D ∨ c = 0x2E ∨ c = 0x2C

instance (c : Nat) : Decidable (IsDecChar c) := by
  unfold IsDecChar
  infer_instance

/-- The characters a binary string may hold: `'0'` and `'1'`. -/
def IsBinChar (c : Nat) : Prop :=
  c = 0x30 ∨ c = 0x31

instance (c : Nat) : Decidable (IsBinChar c) := by
  unfold IsBinChar
  infer_instance

/-- The characters allowed in a string of the base that `base_fg` selects; no
character is allowed for an unknown base flag. -/
def allowedChar (base_fg : Int) (c : Nat) : Prop :=
  (base_fg = BASE_BIN ∧ IsBinChar c) ∨ (base_fg = BASE_DEC ∧ IsDecChar c)
    ∨ (base_fg = BASE_HEX ∧ IsHexDigit c)

instance (base_fg : Int) (c : Nat) : Decidable (allowedChar base_fg c) := by
  unfold allowedChar
  infer_instance

/-- A string of digits without its leading zeros, or `"0"` when nothing is
left. -/
def stripLeadingZeros (digits : List Nat) : List Nat :=
  if digits.dropWhile (fun c => c == 0x30) = [] then [0x30]
  else digits.dropWhile (fun c => c == 0x30)

/-- A string of decimal digits, optionally with `'-'` as its first character. -/
def IsSignedDigits (s : List Nat) : Prop :=
  IsDigits s ∨ (s.head? = some 0x2D ∧ IsDigits s.tail)

instance (s : List Nat) : Decidable (IsSignedDigits s) := by
  unfold IsSignedDigits
  infer_instance

/-- The number a string of decimal digits with an optional leading `'-'`
denotes. -/
def signedDecimalValue (s : List Nat) : Int :=
  if s.head? = some 0x2D then -(decimalValue s.tail : Int) else (decimalValue s : Int)

/-! ## File checksum -/

/-- The body of the inner loop of `init_crc32_table`, on the `unsigned int`
(32-bit) variable `crc`. -/
def crcShift (crc : Nat) : Nat :=
  if crc &&& 1 ≠ 0 then ((crc >>> 1) ^^^ 0xEDB88320) % 2 ^ 32
  else crc >>> 1

/-- Embedding of `init_crc32_table()`: the array `crc32_table[256]` after the
call.  Entry `i` is `i` after eight rounds of the inner loop. -/
def init_crc32_table : List Nat :=
  (List.range 256).map (fun i => (List.range 8).foldl (fun crc _ => crcShift crc) i)

/-- The file-scope array `crc32_table` as `crc32` reads it: `crc32` fills it with
`init_crc32_table` on its first call and nothing else stores to it. -/
def crc32_table : List Nat :=
  init_crc32_table

/-- Embedding of `crc32(buf, len)`; `ret` is the `unsigned int` accumulator. -/
def crc32 (buf : List Nat) (len : Int) : Nat :=
  (List.range len.toNat).foldl
    (fun ret i => (crc32_table.getD ((ret &&& 0xFF) ^^^ buf.getD i 0) 0 ^^^ (ret >>> 8)) % 2 ^ 32)
    0xFFFFFFFF

/-- The `while (1)` loop of `calculateChecksum` on the bytes that `read(fd, &buf, 1)`
delivers before it returns 0: the value of `checksum` when the loop is left. -/
def checksumLoop (checksum : Nat) : List Nat → Nat
  | [] => checksum
  | buf :: rest => checksumLoop ((checksum ^^^ crc32 [buf] 1) % 2 ^ 32) rest

/-- Embedding of `calculateChecksum(fileName)`.  `fileName` is `none` for a NULL
pointer; `file` is what `open(fileName, O_RDONLY)` gives, `none` when it fails and
otherwise the bytes of the file. -/
def calculateChecksum (file : Option (List Nat)) (fileName : Option (List Nat)) : Nat :=
  match fileName with
  | none => 0
  | some name =>
    if (cstr name).length ≤ 0 then 0
    else
      match file with
      | none => 0
      | some bytes => checksumLoop 0 bytes

/-- Specification side: the standard CRC-32 of the message `msg`, computed bit by
bit: initial value 0xFFFFFFFF, each byte XORed into the low byte and followed by
eight shifts with the reflected polynomial 0xEDB88320, final complement. -/
def standardCrc32 (msg : List Nat) : Nat :=
  (msg.foldl
    (fun crc b =>
      (List.range 8).foldl
        (fun c _ => if c &&& 1 ≠ 0 then (c >>> 1) ^^^ 0xEDB88320 else c >>> 1) (crc ^^^ b))
    0xFFFFFFFF) ^^^ 0xFFFFFFFF

/-! ## Theorems: block check character -/

theorem calculateBCC_of_ne_nil (d : List Nat) (hd : d ≠ []) :
    calculateBCC d =
      if xorBytes d = 0x00 ∨ xorBytes d = 0x11 ∨ xorBytes d = 0x13 ∨ xorBytes d = 0x02
          ∨ xorBytes d = 0x03 then (xorBytes d + 0x20) % 256 else xorBytes d := by
  have hlen : ¬ d.length ≤ 0 := by
    cases d with
    | nil => exact absurd rfl hd
    | cons a t => simp
  simp only [calculateBCC, if_neg hlen]

/-- C7: for a non-empty byte sequence the block check character is the XOR of
all bytes, or that XOR plus 0x20 when the XOR is one of 0x00, 0x02, 0x03, 0x11,
0x13. -/
theorem calculateBCC_spec (d : List Nat) (hd : d ≠ []) :
    calculateBCC d =
      if xorBytes d ∈ reservedControl then xorBytes d + 0x20 else xorBytes d := by
  rw [calculateBCC_of_ne_nil d hd]
  by_cases h : xorBytes d ∈ reservedControl
  · have h1 : xorBytes d = 0x00 ∨ xorBytes d = 0x11 ∨ xorBytes d = 0x13 ∨ xorBytes d = 0x02
        ∨ xorBytes d = 0x03 := by
      simp only [reservedControl, List.mem_cons, List.mem_singleton, List.mem_nil_iff,
        or_false] at h
      omega
    rw [if_pos h1, if_pos h]
    omega
  · have h1 : ¬ (xorBytes d = 0x00 ∨ xorBytes d = 0x11 ∨ xorBytes d = 0x13 ∨ xorBytes d = 0x02
        ∨ xorBytes d = 0x03) := by
      simp only [reservedControl, List.mem_cons, List.mem_singleton, List.mem_nil_iff,
        or_false] at h
      omega
    rw [if_neg h1, if_neg h]

theorem calculateBCC_spec_witness :
    calculateBCC [0x41, 0x41] =
      if xorBytes [0x41, 0x41] ∈ reservedControl then xorBytes [0x41, 0x41] + 0x20
      else xorBytes [0x41, 0x41] :=
  calculateBCC_spec [0x41, 0x41] (by decide)

/-- C3 (as stated, refuted): for the empty sequence `calculateBCC` returns the
reserved value 0x00. -/
theorem calculateBCC_nil_reserved : calculateBCC [] ∈ reservedControl := by
  decide

/-- C3 (amended): for every non-empty byte sequence the block check character
is none of 0x00, 0x02, 0x03, 0x11, 0x13. -/
theorem calculateBCC_not_reserved (b : List Nat) (hb : b ≠ []) :
    calculateBCC b ∉ reservedControl := by
  rw [calculateBCC_spec b hb]
  by_cases h : xorBytes b ∈ reservedControl
  · rw [if_pos h]
    simp only [reservedControl, List.mem_cons, List.mem_singleton, List.mem_nil_iff,
      or_false] at h ⊢
    omega
  · rw [if_neg h]
    exact h

theorem calculateBCC_not_reserved_witness : calculateBCC [0x11] ∉ reservedControl :=
  calculateBCC_not_reserved [0x11] (by decide)

/-! ## Theorems: SpecData codec -/

set_option maxRecDepth 100000 in
theorem hexPairToByte_hexByteToStr : ∀ b < 256,
    hexPairToByte (hexDigitUpper ((b &&& 0xff) / 16)) (hexDigitUpper ((b &&& 0xff) % 16)) = b := by
  decide

theorem strToHex_hexToStr_five (b0 b1 b2 b3 b4 : Nat) (t : List Nat)
    (h0 : b0 < 256) (h1 : b1 < 256) (h2 : b2 < 256) (h3 : b3 < 256) (h4 : b4 < 256) :
    ad2k_StrToHex (ad2k_HexToStr [b0, b1, b2, b3, b4] 5 ++ t) 5 = [b0, b1, b2, b3, b4] := by
  have hr : List.range 5 = [0, 1, 2, 3, 4] := by decide
  simp only [ad2k_StrToHex, ad2k_HexToStr, hr, List.flatMap_cons, List.flatMap_nil, hexByteToStr,
    List.map_cons, List.map_nil, strToHexByte, List.getD_cons_zero, List.getD_cons_succ,
    List.cons_append, List.nil_append, List.append_nil]
  simp [hexPairToByte_hexByteToStr, h0, h1, h2, h3, h4]

set_option synthInstance.maxSize 4000 in
theorem specByte0_lt_closed : ∀ v0 < 4, ∀ v1 < 2, ∀ v2 < 2, ∀ v3 < 4, ∀ v4 < 2, ∀ v5 < 2,
    specByte0 { zeroSpecData with wgtStabCond := v0, tareAcc := v1, tareSub := v2, startRange := v3, autoZeroReset := v4, tareAutoClear := v5 } < 256 := by
  decide

set_option synthInstance.maxSize 4000 in
theorem respSpecByte0_closed : ∀ v0 < 4, ∀ v1 < 2, ∀ v2 < 2, ∀ v3 < 4, ∀ v4 < 2, ∀ v5 < 2,
    respSpecByte0 zeroSpecData (specByte0 { zeroSpecData with wgtStabCond := v0, tareAcc := v1, tareSub := v2, startRange := v3, autoZeroReset := v4, tareAutoClear := v5 })
      = { zeroSpecData with wgtStabCond := v0, tareAcc := v1, tareSub := v2, startRange := v3, autoZeroReset := v4, tareAutoClear := v5 } := by
  decide

theorem respSpecByte0_specByte0 (s d : SpecData) (h0 : s.wgtStabCond < 4) (h1 : s.tareAcc < 2) (h2 : s.tareSub < 2) (h3 : s.startRange < 4) (h4 : s.autoZeroReset < 2) (h5 : s.tareAutoClear < 2) :
    specByte0 s < 256 ∧
    respSpecByte0 d (specByte0 s) = { d with wgtStabCond := s.wgtStabCond, tareAcc := s.tareAcc, tareSub := s.tareSub, startRange := s.startRange, autoZeroReset := s.autoZeroReset, tareAutoClear := s.tareAutoClear } := by
  have hs : specByte0 s = specByte0 { zeroSpecData with wgtStabCond := s.wgtStabCond, tareAcc := s.tareAcc, tareSub := s.tareSub, startRange := s.startRange, autoZeroReset := s.autoZeroReset, tareAutoClear := s.tareAutoClear } := rfl
  have hd : ∀ b, respSpecByte0 d b =
      { d with
        wgtStabCond := (respSpecByte0 zeroSpecData b).wgtStabCond,
        tareAcc := (respSpecByte0 zeroSpecData b).tareAcc,
        tareSub := (respSpecByte0 zeroSpecData b).tareSub,
        startRange := (respSpecByte0 zeroSpecData b).startRange,
        autoZeroReset := (respSpecByte0 zeroSpecData b).autoZeroReset,
        tareAutoClear := (respSpecByte0 zeroSpecData b).tareAutoClear } := fun _ => rfl
  refine ⟨hs ▸ specByte0_lt_closed _ h0 _ h1 _ h2 _ h3 _ h4 _ h5, ?_⟩
  rw [hd, hs, respSpecByte0_closed _ h0 _ h1 _ h2 _ h3 _ h4 _ h5]

set_option synthInstance.maxSize 4000 in
theorem specByte1_lt_closed : ∀ v0 < 2, ∀ v1 < 2, ∀ v2 < 2, ∀ v3 < 2, ∀ v4 < 2, ∀ v5 < 2, ∀ v6 < 2, ∀ v7 < 2,
    specByte1 { zeroSpecData with priTareOpe := v0, autoClearCond := v1, tareAutoClear2 := v2, zeroOn := v3, manTareCancel := v4, digiTare := v5, wgtReset := v6, zeroTrack := v7 } < 256 := by
  decide

set_option synthInstance.maxSize 4000 in
theorem respSpecByte1_closed : ∀ v0 < 2, ∀ v1 < 2, ∀ v2 < 2, ∀ v3 < 2, ∀ v4 < 2, ∀ v5 < 2, ∀ v6 < 2, ∀ v7 < 2,
    respSpecByte1 zeroSpecData (specByte1 { zeroSpecData with priTareOpe := v0, autoClearCond := v1, tareAutoClear2 := v2, zeroOn := v3, manTareCancel := v4, digiTare := v5, wgtReset := v6, zeroTrack := v7 })
      = { zeroSpecData with priTareOpe := v0, autoClearCond := v1, tareAutoClear2 := v2, zeroOn := v3, manTareCancel := v4, digiTare := v5, wgtReset := v6, zeroTrack := v7 } := by
  decide

theorem respSpecByte1_specByte1 (s d : SpecData) (h0 : s.priTareOpe < 2) (h1 : s.autoClearCond < 2) (h2 : s.tareAutoClear2 < 2) (h3 : s.zeroOn < 2) (h4 : s.manTareCancel < 2) (h5 : s.digiTare < 2) (h6 : s.wgtReset < 2) (h7 : s.zeroTrack < 2) :
    specByte1 s < 256 ∧
    respSpecByte1 d (specByte1 s) = { d with priTareOpe := s.priTareOpe, autoClearCond := s.autoClearCond, tareAutoClear2 := s.tareAutoClear2, zeroOn := s.zeroOn, manTareCancel := s.manTareCancel, digiTare := s.digiTare, wgtReset := s.wgtReset, zeroTrack := s.zeroTrack } := by
  have hs : specByte1 s = specByte1 { zeroSpecData with priTareOpe := s.priTareOpe, autoClearCond := s.autoClearCond, tareAutoClear2 := s.tareAutoClear2, zeroOn := s.zeroOn, manTareCancel := s.manTareCancel, digiTare := s.digiTare, wgtReset := s.wgtReset, zeroTrack := s.zeroTrack } := rfl
  have hd : ∀ b, respSpecByte1 d b =
      { d with
        priTareOpe := (respSpecByte1 zeroSpecData b).priTareOpe,
        autoClearCond := (respSpecByte1 zeroSpecData b).autoClearCond,
        tareAutoClear2 := (respSpecByte1 zeroSpecData b).tareAutoClear2,
        zeroOn := (respSpecByte1 zeroSpecData b).zeroOn,
        manTareCancel := (respSpecByte1 zeroSpecData b).manTareCancel,
        digiTare := (respSpecByte1 zeroSpecData b).digiTare,
        wgtReset := (respSpecByte1 zeroSpecData b).wgtReset,
        zeroTrack := (respSpecByte1 zeroSpecData b).zeroTrack } := fun _ => rfl
  refine ⟨hs ▸ specByte1_lt_closed _ h0 _ h1 _ h2 _ h3 _ h4 _ h5 _ h6 _ h7, ?_⟩
  rw [hd, hs, respSpecByte1_closed _ h0 _ h1 _ h2 _ h3 _ h4 _ h5 _ h6 _ h7]

set_option synthInstance.maxSize 4000 in
theorem specByte2_lt_closed : ∀ v0 < 5, ∀ v1 < 4, ∀ v2 < 2, ∀ v3 < 2,
    specByte2 { zeroSpecData with posDecPoint1 := v0, reZeroRange := v1, reZeroFunc := v2, wtgSinMul1 := v3 } < 256 := by
  decide

set_option synthInstance.maxSize 4000 in
theorem respSpecByte2_closed : ∀ v0 < 5, ∀ v1 < 4, ∀ v2 < 2, ∀ v3 < 2,
    respSpecByte2 zeroSpecData (specByte2 { zeroSpecData with posDecPoint1 := v0, reZeroRange := v1, reZeroFunc := v2, wtgSinMul1 := v3 })
      = { zeroSpecData with posDecPoint1 := v0, reZeroRange := v1, reZeroFunc := v2, wtgSinMul1 := v3 } := by
  decide

theorem respSpecByte2_specByte2 (s d : SpecData) (h0 : s.posDecPoint1 < 5) (h1 : s.reZeroRange < 4) (h2 : s.reZeroFunc < 2) (h3 : s.wtgSinMul1 < 2) :
    specByte2 s < 256 ∧
    respSpecByte2 d (specByte2 s) = { d with posDecPoint1 := s.posDecPoint1, reZeroRange := s.reZeroRange, reZeroFunc := s.reZeroFunc, wtgSinMul1 := s.wtgSinMul1 } := by
  have hs : specByte2 s = specByte2 { zeroSpecData with posDecPoint1 := s.posDecPoint1, reZeroRange := s.reZeroRange, reZeroFunc := s.reZeroFunc, wtgSinMul1 := s.wtgSinMul1 } := rfl
  have hd : ∀ b, respSpecByte2 d b =
      { d with
        posDecPoint1 := (respSpecByte2 zeroSpecData b).posDecPoint1,
        reZeroRange := (respSpecByte2 zeroSpecData b).reZeroRange,
        reZeroFunc := (respSpecByte2 zeroSpecData b).reZeroFunc,
        wtgSinMul1 := (respSpecByte2 zeroSpecData b).wtgSinMul1 } := fun _ => rfl
  refine ⟨hs ▸ specByte2_lt_closed _ h0 _ h1 _ h2 _ h3, ?_⟩
  rw [hd, hs, respSpecByte2_closed _ h0 _ h1 _ h2 _ h3]

set_option synthInstance.maxSize 4000 in
theorem specByte3_lt_closed : ∀ v0 < 4, ∀ v1 < 2, ∀ v2 < 2,
    specByte3 { zeroSpecData with negWgtMsk := v0, tareRange := v1, decPointType := v2 } < 256 := by
  decide

set_option synthInstance.maxSize 4000 in
theorem respSpecByte3_closed : ∀ v0 < 4, ∀ v1 < 2, ∀ v2 < 2,
    respSpecByte3 zeroSpecData (specByte3 { zeroSpecData with negWgtMsk := v0, tareRange := v1, decPointType := v2 })
      = { zeroSpecData with negWgtMsk := v0, tareRange := v1, decPointType := v2 } := by
  decide

theorem respSpecByte3_specByte3 (s d : SpecData) (h0 : s.negWgtMsk < 4) (h1 : s.tareRange < 2) (h2 : s.decPointType < 2) :
    specByte3 s < 256 ∧
    respSpecByte3 d (specByte3 s) = { d with negWgtMsk := s.negWgtMsk, tareRange := s.tareRange, decPointType := s.decPointType } := by
  have hs : specByte3 s = specByte3 { zeroSpecData with negWgtMsk := s.negWgtMsk, tareRange := s.tareRange, decPointType := s.decPointType } := rfl
  have hd : ∀ b, respSpecByte3 d b =
      { d with
        negWgtMsk := (respSpecByte3 zeroSpecData b).negWgtMsk,
        tareRange := (respSpecByte3 zeroSpecData b).tareRange,
        decPointType := (respSpecByte3 zeroSpecData b).decPointType } := fun _ => rfl
  refine ⟨hs ▸ specByte3_lt_closed _ h0 _ h1 _ h2, ?_⟩
  rw [hd, hs, respSpecByte3_closed _ h0 _ h1 _ h2]

set_option synthInstance.maxSize 4000 in
theorem specByte4_lt_closed : ∀ v0 < 4,
    specByte4 { zeroSpecData with scale1FilterStrn := v0 } < 256 := by
  decide

set_option synthInstance.maxSize 4000 in
theorem respSpecByte4_closed : ∀ v0 < 4,
    respSpecByte4 zeroSpecData (specByte4 { zeroSpecData with scale1FilterStrn := v0 })
      = { zeroSpecData with scale1FilterStrn := v0 } := by
  decide

theorem respSpecByte4_specByte4 (s d : SpecData) (h0 : s.scale1FilterStrn < 4) :
    specByte4 s < 256 ∧
    respSpecByte4 d (specByte4 s) = { d with scale1FilterStrn := s.scale1FilterStrn } := by
  have hs : specByte4 s = specByte4 { zeroSpecData with scale1FilterStrn := s.scale1FilterStrn } := rfl
  have hd : ∀ b, respSpecByte4 d b =
      { d with
        scale1FilterStrn := (respSpecByte4 zeroSpecData b).scale1FilterStrn } := fun _ => rfl
  refine ⟨hs ▸ specByte4_lt_closed _ h0, ?_⟩
  rw [hd, hs, respSpecByte4_closed _ h0]

/-- C1 (amended): decoding the payload that encodes a valid SpecData `s` into a
record `d` gives `s` in the 22 settings that are transmitted, and leaves
`startChnChk`, `posDecPoint2`, `wtgSinMu2` and `scale2FilterStrn` as they were in
`d`. -/
theorem respDataToSpecData_specDataToCmdData (s d : SpecData) (hs : s.Valid) :
    respDataToSpecData d (specDataToCmdData s) =
      { s with startChnChk := d.startChnChk, posDecPoint2 := d.posDecPoint2,
               wtgSinMu2 := d.wtgSinMu2, scale2FilterStrn := d.scale2FilterStrn } := by
  obtain ⟨h1, h2, h3, h4, h5, h6, h7, h8, h9, h10, h11, h12, h13, h14, h15, h16, h17, h18, h19,
    _, h21, h22, _, _, h25, _⟩ := hs
  have e0 := fun d => respSpecByte0_specByte0 s d h1 h2 h3 h4 h5 h6
  have e1 := fun d => respSpecByte1_specByte1 s d h7 h8 h9 h10 h11 h12 h13 h14
  have e2 := fun d => respSpecByte2_specByte2 s d h15 h16 h17 h18
  have e3 := fun d => respSpecByte3_specByte3 s d h19 h22 h21
  have e4 := fun d => respSpecByte4_specByte4 s d h25
  unfold respDataToSpecData specDataToCmdData specBytes NBYTE_SPEC
  rw [strToHex_hexToStr_five _ _ _ _ _ _ (e0 d).1 (e1 d).1 (e2 d).1 (e3 d).1 (e4 d).1]
  simp only [List.getD_cons_zero, List.getD_cons_succ]
  rw [(e0 _).2, (e1 _).2, (e2 _).2, (e3 _).2, (e4 _).2]

theorem respDataToSpecData_specDataToCmdData_witness :
    respDataToSpecData zeroSpecData
        (specDataToCmdData { zeroSpecData with wgtStabCond := SV_WSC_TIGHT,
                                               startRange := SV_SR_50 }) =
      { ({ zeroSpecData with wgtStabCond := SV_WSC_TIGHT, startRange := SV_SR_50 } : SpecData)
        with startChnChk := zeroSpecData.startChnChk, posDecPoint2 := zeroSpecData.posDecPoint2,
             wtgSinMu2 := zeroSpecData.wtgSinMu2,
             scale2FilterStrn := zeroSpecData.scale2FilterStrn } :=
  respDataToSpecData_specDataToCmdData _ _ (by decide)

/-- C1 (as stated, refuted): a valid SpecData with `startChnChk = SV_SCC_1_2` is
not recovered, the decoded record keeps the `startChnChk` of the destination. -/
theorem specData_roundtrip_fails :
    ({ zeroSpecData with startChnChk := SV_SCC_1_2 } : SpecData).Valid ∧
    (respDataToSpecData zeroSpecData
        (specDataToCmdData { zeroSpecData with startChnChk := SV_SCC_1_2 })).startChnChk
      ≠ ({ zeroSpecData with startChnChk := SV_SCC_1_2 } : SpecData).startChnChk := by
  decide

/-! ## Theorems: frame codec -/

theorem xorBytes_foldl (l : List Nat) (a : Nat) :
    l.foldl (fun bcc d => bcc ^^^ d) a = a ^^^ xorBytes l := by
  induction l generalizing a with
  | nil => simp [xorBytes]
  | cons x t ih =>
    simp only [xorBytes, List.foldl_cons] at ih ⊢
    rw [ih (a ^^^ x), ih (0 ^^^ x), Nat.zero_xor, Nat.xor_assoc]

theorem xorBytes_cons (x : Nat) (l : List Nat) : xorBytes (x :: l) = x ^^^ xorBytes l := by
  unfold xorBytes
  rw [List.foldl_cons, Nat.zero_xor]
  exact xorBytes_foldl l x

theorem xorBytes_append (a b : List Nat) : xorBytes (a ++ b) = xorBytes a ^^^ xorBytes b := by
  simp only [xorBytes, List.foldl_append]
  rw [xorBytes_foldl]
  rfl

theorem xorBytes_lt (n : Nat) (l : List Nat) (h : ∀ b ∈ l, b < 2 ^ n) : xorBytes l < 2 ^ n := by
  induction l with
  | nil => simp [xorBytes]
  | cons x t ih =>
    rw [xorBytes_cons]
    exact Nat.xor_lt_two_pow (h x (List.mem_cons_self x t))
      (ih (fun b hb => h b (List.mem_cons_of_mem x hb)))

theorem calculateBCC_lt (n : Nat) (hn : 6 ≤ n) (l : List Nat) (h : ∀ b ∈ l, b < 2 ^ n) :
    calculateBCC l < 2 ^ n := by
  have h64 : 2 ^ 6 ≤ 2 ^ n := Nat.pow_le_pow_right (by decide) hn
  have hx := xorBytes_lt n l h
  unfold calculateBCC
  split
  · omega
  · simp only
    split
    · omega
    · exact hx

theorem charValue_eq_iff (cs : Bool) (b : Nat) (k : Nat) (hb : b < 256) (hk : k < 128) :
    charValue cs b = (k : Int) ↔ b = k := by
  unfold charValue
  split <;> omega

theorem fetchLoop_body (cs : Bool) (m : Nat) (body acc tail : List Nat)
    (hbody : ∀ b ∈ body, b < 256 ∧ b ≠ ETX) (hlen : acc.length + body.length ≤ m) :
    fetchLoop cs m 1 acc (body ++ ETX :: tail) = fetchLoop cs m 1 (acc ++ body) (ETX :: tail) := by
  induction body generalizing acc with
  | nil => simp
  | cons x t ih =>
    have hx := hbody x (List.mem_cons_self x t)
    have hne : ¬ charValue cs x = (ETX : Int) := by
      rw [charValue_eq_iff cs x ETX hx.1 (by decide)]
      exact hx.2
    have hl : ¬ ((acc.length : Int) ≥ (m : Int)) := by
      simp only [List.length_cons] at hlen
      omega
    rw [List.cons_append, fetchLoop, if_neg hl]
    simp only [if_neg hne]
    rw [ih (acc ++ [x]) (fun b hb => hbody b (List.mem_cons_of_mem x hb))
      (by simp only [List.length_append, List.length_cons, List.length_nil] at hlen ⊢; omega)]
    simp

theorem fetchContent_frame (cs : Bool) (fd : Int) (body : List Nat) (c : Nat) (rest : List Nat)
    (hfd : 0 ≤ fd) (hbody : ∀ b ∈ body, b < 256 ∧ b ≠ ETX) (hlen : body.length < 256) :
    fetchContent cs fd 256 (STX :: (body ++ ETX :: c :: rest)) =
      some (if (calculateBCC body : Int) = charValue cs c then (body.length : Int) else -1,
        body, rest) := by
  have hg : ¬ (fd < 0 ∨ (256 : Int) ≤ 0) := by omega
  have hstx : charValue cs STX = (STX : Int) := by
    rw [charValue_eq_iff cs STX STX (by decide) (by decide)]
  have hetx : charValue cs ETX = (ETX : Int) := by
    rw [charValue_eq_iff cs ETX ETX (by decide) (by decide)]
  have h0 : ¬ (((([] : List Nat).length : Nat) : Int) ≥ ((256 : Nat) : Int)) := by simp
  have hl : ¬ (((body.length : Nat) : Int) ≥ ((256 : Nat) : Int)) := by omega
  rw [fetchContent, if_neg hg]
  show fetchLoop cs ((256 : Nat) : Int) 0 [] (STX :: (body ++ ETX :: c :: rest)) = _
  rw [fetchLoop, if_neg h0]
  simp only [if_pos hstx]
  rw [fetchLoop_body cs 256 body [] (c :: rest) hbody (by simp; omega)]
  rw [List.nil_append, fetchLoop, if_neg hl]
  simp only [if_pos hetx]
  rw [fetchLoop, if_neg hl]
  split <;> rfl

theorem fetchContent_accepts (cs : Bool) (fd : Int) (body rest : List Nat)
    (hfd : 0 ≤ fd) (hbody : ∀ b ∈ body, b < 256 ∧ b ≠ ETX) (hlen : body.length < 256)
    (hbcc : cs = false ∨ calculateBCC body < 128) :
    fetchContent cs fd 256 (STX :: (body ++ ETX :: calculateBCC body :: rest)) =
      some ((body.length : Int), body, rest) := by
  rw [fetchContent_frame cs fd body _ rest hfd hbody hlen]
  have h : (calculateBCC body : Int) = charValue cs (calculateBCC body) := by
    unfold charValue
    rcases hbcc with h | h
    · simp [h]
    · rw [if_neg (by omega)]
  rw [if_pos h]

theorem fetchContent_rejects (cs : Bool) (fd : Int) (body : List Nat) (c : Nat) (rest : List Nat)
    (hfd : 0 ≤ fd) (hbody : ∀ b ∈ body, b < 256 ∧ b ≠ ETX) (hlen : body.length < 256)
    (hc : c < 256) (hne : c ≠ calculateBCC body) :
    fetchContent cs fd 256 (STX :: (body ++ ETX :: c :: rest)) = some (-1, body, rest) := by
  rw [fetchContent_frame cs fd body _ rest hfd hbody hlen]
  have hlt : calculateBCC body < 2 ^ 8 :=
    calculateBCC_lt 8 (by decide) body (fun b hb => (hbody b hb).1)
  have h : ¬ (calculateBCC body : Int) = charValue cs c := by
    unfold charValue
    split <;> omega
  rw [if_neg h]

/-- C2: with a signed plain `char` the well-formed frame STX, 0x80, ETX,
`calculateBCC [0x80]` is rejected: the check byte 0x80 is read as -128 and
compared with the value 128 that `calculateBCC` returns. -/
theorem fetchContent_signed_char_rejects_high_bcc :
    calculateBCC [0x80] = 0x80 ∧
    fetchContent true 3 256 [STX, 0x80, ETX, calculateBCC [0x80]] = some (-1, [0x80], []) := by
  decide

/-- C6: a frame whose check byte differs from the block check character of its
body makes `fetchContent` return -1, and the iteration of the receive loop that
reads it leaves the whole state unchanged: no event is published and the busy
flag keeps its value. -/
theorem bad_bcc_frame_dropped (cs : Bool) (junk : AD2kData) (st : LibState)
    (b : List Nat) (c : Nat) (rest : List Nat)
    (hfd : 0 ≤ st.scale_fd) (hb : ∀ x ∈ b, x < 256 ∧ x ≠ ETX) (hlen : b.length < 256)
    (hc : c < 256) (hne : c ≠ calculateBCC b) :
    fetchContent cs st.scale_fd 256 (STX :: (b ++ ETX :: c :: rest)) = some (-1, b, rest)
    ∧ scaleProcedureFrAD_iter cs junk st (STX :: (b ++ ETX :: c :: rest)) = some (st, rest) := by
  have h := fetchContent_rejects cs st.scale_fd b c rest hfd hb hlen hc hne
  refine ⟨h, ?_⟩
  unfold scaleProcedureFrAD_iter
  rw [h]
  simp [LEN_R_AD_VER, LEN_RW_SPEC_DATA, LEN_RW_SPAN_DATA, LEN_NI_DATA]

theorem bad_bcc_frame_dropped_witness :
    fetchContent false 3 256 (STX :: ([CMD_W, RSP_RW_OK] ++ ETX :: 0x66 :: []))
        = some (-1, [CMD_W, RSP_RW_OK], [])
    ∧ scaleProcedureFrAD_iter false
        zeroAD2kData
        ⟨CMD_W_DIGI_TARE, 1, 3, 0, 0, [], []⟩
        (STX :: ([CMD_W, RSP_RW_OK] ++ ETX :: 0x66 :: []))
      = some (⟨CMD_W_DIGI_TARE, 1, 3, 0, 0, [], []⟩, []) :=
  bad_bcc_frame_dropped false _ ⟨CMD_W_DIGI_TARE, 1, 3, 0, 0, [], []⟩ [CMD_W, RSP_RW_OK] 0x66 []
    (by decide) (by decide) (by decide) (by decide) (by decide)

/-- C4 (as stated, refuted): the body 0x41 0x41 has XOR 0x00 and check byte 0x20;
replacing its first byte by 0x61 gives XOR 0x20 and the same check byte, and the
corrupted frame is accepted with length 2, whatever the signedness of `char`. -/
theorem corrupted_frame_accepted :
    fetchContent false 3 256 [STX, 0x41, 0x41, ETX, calculateBCC [0x41, 0x41]]
        = some (2, [0x41, 0x41], [])
    ∧ fetchContent false 3 256 [STX, 0x61, 0x41, ETX, calculateBCC [0x41, 0x41]]
        = some (2, [0x61, 0x41], [])
    ∧ fetchContent true 3 256 [STX, 0x61, 0x41, ETX, calculateBCC [0x41, 0x41]]
        = some (2, [0x61, 0x41], []) := by
  decide

theorem calculateBCC_ne_of_corrupted (pre post : List Nat) (o v : Nat) (hov : v ≠ o)
    (hcol : ¬ bccCollision (xorBytes (pre ++ o :: post)) (xorBytes (pre ++ v :: post))) :
    calculateBCC (pre ++ o :: post) ≠ calculateBCC (pre ++ v :: post) := by
  have hx : xorBytes (pre ++ o :: post) ≠ xorBytes (pre ++ v :: post) := by
    rw [xorBytes_append, xorBytes_append, xorBytes_cons, xorBytes_cons]
    intro h
    exact hov (Nat.xor_left_inj.mp (Nat.xor_right_inj.mp h)).symm
  rw [calculateBCC_spec _ (by simp), calculateBCC_spec _ (by simp)]
  unfold bccCollision at hcol
  intro h
  by_cases h1 : xorBytes (pre ++ o :: post) ∈ reservedControl <;>
    by_cases h2 : xorBytes (pre ++ v :: post) ∈ reservedControl
  · rw [if_pos h1, if_pos h2] at h
    exact hx (by omega)
  · rw [if_pos h1, if_neg h2] at h
    exact hcol (Or.inl ⟨h1, h.symm⟩)
  · rw [if_neg h1, if_pos h2] at h
    exact hcol (Or.inr ⟨h2, h⟩)
  · rw [if_neg h1, if_neg h2] at h
    exact hx h

/-- C4 (amended): when one byte `o` of the body of a well-formed frame is
replaced by a different value `v` (not ETX), `fetchContent` returns -1, unless
the XOR of the original body and the XOR of the corrupted body are a reserved
control value and that value plus 0x20. -/
theorem corrupted_frame_rejected (cs : Bool) (fd : Int) (pre post : List Nat) (o v : Nat)
    (rest : List Nat) (hfd : 0 ≤ fd)
    (hpre : ∀ b ∈ pre, b < 256 ∧ b ≠ ETX) (hpost : ∀ b ∈ post, b < 256 ∧ b ≠ ETX)
    (ho : o < 256 ∧ o ≠ ETX) (hv : v < 256 ∧ v ≠ ETX) (hov : v ≠ o)
    (hlen : (pre ++ o :: post).length < 256)
    (hcol : ¬ bccCollision (xorBytes (pre ++ o :: post)) (xorBytes (pre ++ v :: post))) :
    fetchContent cs fd 256
        (STX :: ((pre ++ v :: post) ++ ETX :: calculateBCC (pre ++ o :: post) :: rest))
      = some (-1, pre ++ v :: post, rest) := by
  have hbody : ∀ b ∈ pre ++ v :: post, b < 256 ∧ b ≠ ETX := by
    intro b hb
    rcases List.mem_append.mp hb with h | h
    · exact hpre b h
    · rcases List.mem_cons.mp h with h | h
      · exact h ▸ hv
      · exact hpost b h
  have horig : ∀ b ∈ pre ++ o :: post, b < 2 ^ 8 := by
    intro b hb
    rcases List.mem_append.mp hb with h | h
    · exact (hpre b h).1
    · rcases List.mem_cons.mp h with h | h
      · exact h ▸ ho.1
      · exact (hpost b h).1
  have hlen2 : (pre ++ v :: post).length < 256 := by
    simp only [List.length_append, List.length_cons] at hlen ⊢
    exact hlen
  exact fetchContent_rejects cs fd _ _ rest hfd hbody hlen2
    (calculateBCC_lt 8 (by decide) _ horig) (calculateBCC_ne_of_corrupted pre post o v hov hcol)

theorem corrupted_frame_rejected_witness :
    fetchContent true 3 256
        (STX :: (([CMD_W] ++ 0x31 :: []) ++ ETX :: calculateBCC ([CMD_W] ++ RSP_RW_OK :: []) :: []))
      = some (-1, [CMD_W] ++ 0x31 :: [], []) :=
  corrupted_frame_rejected true 3 [CMD_W] [] RSP_RW_OK 0x31 [] (by decide) (by decide) (by decide)
    (by decide) (by decide) (by decide) (by decide) (by decide)

theorem memRead_self (l : List Nat) : memRead l l.length = l := by
  apply List.ext_getElem
  · simp [memRead]
  · intro i h1 h2
    simp [memRead, List.getD_eq_getElem?_getD, List.getElem?_eq_getElem h2]

theorem commandIds_printable : ∀ c ∈ commandIds, 0x20 ≤ c ∧ c ≤ 0x7E := by
  decide

/-- C5: for a type `'R'` or `'W'`, a command id of the enumeration and a payload
of at most 40 printable ASCII bytes, `sendCmd` (with the send queue created)
returns 0 and enqueues the frame STX, type, cmd, payload, ETX,
`calculateBCC (type, cmd, payload)` of length `|payload| + 5`, and `fetchContent`
reading that frame returns `2 + |payload|` with content type, cmd, payload. -/
theorem sendCmd_fetchContent_roundtrip (cs : Bool) (st : LibState) (type cmd : Nat)
    (payload : List Nat) (data : Option (List Nat)) (timeout fd : Int) (rest : List Nat)
    (hq : 0 ≤ st.msgq_to_ad_id) (htype : type = CMD_R ∨ type = CMD_W)
    (hcmd : cmd ∈ commandIds) (hlen : payload.length ≤ 40)
    (hp : ∀ b ∈ payload, 0x20 ≤ b ∧ b ≤ 0x7E)
    (hdata : data = some payload ∨ (data = none ∧ payload = [])) (hfd : 0 ≤ fd) :
    sendCmd st type cmd data payload.length timeout =
        (0, { st with
              cmd_saved := cmd
              msgq_to_ad := st.msgq_to_ad ++
                [STX :: type :: cmd :: (payload ++ [ETX, calculateBCC (type :: cmd :: payload)])] })
    ∧ (STX :: type :: cmd :: (payload ++ [ETX, calculateBCC (type :: cmd :: payload)])).length
        = payload.length + 5
    ∧ fetchContent cs fd 256
        (STX :: type :: cmd :: (payload ++ [ETX, calculateBCC (type :: cmd :: payload)]) ++ rest)
        = some (2 + (payload.length : Int), type :: cmd :: payload, rest) := by
  have hc := commandIds_printable cmd hcmd
  have ht : 0x20 ≤ type ∧ type ≤ 0x7E := by
    rcases htype with h | h <;> subst h <;> decide
  have hbody : ∀ b ∈ type :: cmd :: payload, 0x20 ≤ b ∧ b ≤ 0x7E := by
    intro b hb
    rcases List.mem_cons.mp hb with h | h
    · exact h ▸ ht
    · rcases List.mem_cons.mp h with h | h
      · exact h ▸ hc
      · exact hp b h
  refine ⟨?_, ?_, ?_⟩
  · have hcs : cstr [STX, type, cmd, 0] = [STX, type, cmd] := by
      have h1 : (type != 0) = true := by simp; omega
      have h2 : (cmd != 0) = true := by simp; omega
      simp [cstr, List.takeWhile_cons, STX, h1, h2]
    have hdrop : (([STX, type, cmd] ++ payload ++ [ETX]).drop 1).take
        (([STX, type, cmd] ++ payload ++ [ETX]).length - 2) = type :: cmd :: payload := by
      simp only [List.cons_append, List.nil_append, List.drop_succ_cons, List.drop_zero,
        List.length_cons, List.length_append, List.length_nil]
      have : payload.length + (0 + 1) + 1 + 1 + 1 - 2 = (type :: cmd :: payload).length := by
        simp only [List.length_cons]
        omega
      rw [this]
      exact List.take_left (type :: cmd :: payload) [ETX]
    have hsend : ¬ (st.msgq_to_ad_id < 0 ∨ AD2K_MSG_DEFAULT ≤ 0) := by
      have : ¬ AD2K_MSG_DEFAULT ≤ 0 := by decide
      omega
    have hbuf : ∀ dat : Option (List Nat), (dat = some payload ∨ (dat = none ∧ payload = [])) →
        (match dat with
        | some d => if (payload.length : Int) > 0 then
            [STX, type, cmd] ++ memRead d (payload.length : Int).toNat else [STX, type, cmd]
        | none => [STX, type, cmd]) = [STX, type, cmd] ++ payload := by
      intro dat hdat
      rcases hdat with h | ⟨h, h'⟩
      · subst h
        simp only [Int.toNat_ofNat, memRead_self]
        cases payload with
        | nil => simp
        | cons a t => simp
      · subst h h'
        simp
    have hb3 : ∀ x : Nat, ¬ 0x80 ≤ (([STX, type, cmd] ++ payload ++ [ETX]) ++ [x]).getD 3 0 := by
      intro x
      cases payload with
      | nil =>
        show ¬ 0x80 ≤ ETX
        decide
      | cons a t =>
        show ¬ 0x80 ≤ a
        have := hp a (List.mem_cons_self a t)
        omega
    unfold sendCmd
    rw [if_neg (by omega), hcs]
    simp only [hbuf data hdata, hdrop, msgq_send_msg, if_neg hsend]
    rw [if_neg (hb3 _)]
    simp
  · simp
  · have hb : ∀ b ∈ type :: cmd :: payload, b < 256 ∧ b ≠ ETX := by
      intro b hb
      have := hbody b hb
      simp only [ETX]
      omega
    have hlt : calculateBCC (type :: cmd :: payload) < 2 ^ 7 :=
      calculateBCC_lt 7 (by decide) _ (fun b hb => by have := hbody b hb; omega)
    have h := fetchContent_accepts cs fd (type :: cmd :: payload) rest hfd hb
      (by simp only [List.length_cons]; omega) (Or.inr hlt)
    simp only [List.cons_append, List.append_assoc, List.nil_append] at h ⊢
    rw [h]
    simp only [List.length_cons, Nat.cast_add, Nat.cast_one]
    congr 2
    omega

theorem sendCmd_fetchContent_roundtrip_witness :
    sendCmd startedState CMD_W CMD_W_DIGI_TARE (some [0x31, 0x32])
        ([0x31, 0x32] : List Nat).length 500 =
        (0, { startedState with
              cmd_saved := CMD_W_DIGI_TARE
              msgq_to_ad := startedState.msgq_to_ad ++
                [STX :: CMD_W :: CMD_W_DIGI_TARE ::
                  ([0x31, 0x32] ++ [ETX, calculateBCC (CMD_W :: CMD_W_DIGI_TARE :: [0x31, 0x32])])] })
    ∧ (STX :: CMD_W :: CMD_W_DIGI_TARE ::
          ([0x31, 0x32] ++ [ETX, calculateBCC (CMD_W :: CMD_W_DIGI_TARE :: [0x31, 0x32])])).length
        = ([0x31, 0x32] : List Nat).length + 5
    ∧ fetchContent true 3 256
        (STX :: CMD_W :: CMD_W_DIGI_TARE ::
          ([0x31, 0x32] ++ [ETX, calculateBCC (CMD_W :: CMD_W_DIGI_TARE :: [0x31, 0x32])]) ++ [])
        = some (2 + (([0x31, 0x32] : List Nat).length : Int),
            CMD_W :: CMD_W_DIGI_TARE :: [0x31, 0x32], []) :=
  sendCmd_fetchContent_roundtrip true startedState CMD_W CMD_W_DIGI_TARE [0x31, 0x32]
    (some [0x31, 0x32]) 500 3 [] (by decide) (by decide) (by decide) (by decide) (by decide)
    (by decide) (by decide)

/-! ## Theorems: telemetry -/

theorem memRead_append_left (r t : List Nat) : memRead (r ++ t) r.length = r := by
  apply List.ext_getElem
  · simp [memRead]
  · intro i h1 h2
    simp [memRead, List.getD_eq_getElem?_getD, List.getElem?_append_left h2,
      List.getElem?_eq_getElem h2]

theorem cstr_append_zero (r : List Nat) (h : ∀ c ∈ r, c ≠ 0) : cstr (r ++ [0]) = r := by
  induction r with
  | nil => simp [cstr]
  | cons x t ih =>
    have hx : (x != 0) = true := by simpa using h x (List.mem_cons_self x t)
    have := ih (fun c hc => h c (List.mem_cons_of_mem x hc))
    simp only [cstr] at this ⊢
    rw [List.cons_append, List.takeWhile_cons, hx]
    simp [this]

theorem decimalValue_cons (c : Nat) (t : List Nat) :
    decimalValue (c :: t) = (c - 0x30) * 10 ^ t.length + decimalValue t := by
  simp only [decimalValue, List.reverse_cons, List.map_append, List.map_cons, List.map_nil,
    Nat.ofDigits_append, Nat.ofDigits_singleton, List.length_map, List.length_reverse]
  ring

theorem strToNumLoop_digits (r : List Nat) (hr : IsDigits r) (val : Int) :
    strToNumLoop BASE_DEC 10 r val 1 = val * 10 ^ r.length + (decimalValue r : Int) := by
  induction r generalizing val with
  | nil => simp [strToNumLoop, decimalValue]
  | cons c t ih =>
    have hc := hr c (List.mem_cons_self c t)
    have h1 : ¬ (BASE_DEC = BASE_BIN ∧ ¬ (c = 0x30 ∨ c = 0x31)) := by
      intro h
      exact absurd h.1 (by decide)
    have h2 : ¬ (BASE_DEC = BASE_DEC ∧ ¬ (0x30 ≤ c ∧ c ≤ 0x39)) := fun h => h.2 hc
    have h3 : ¬ (BASE_DEC = BASE_HEX ∧ ¬ (0x30 ≤ c ∧ c ≤ 0x39) ∧ ¬ (0x61 ≤ c ∧ c ≤ 0x66)
        ∧ ¬ (0x41 ≤ c ∧ c ≤ 0x46)) := by
      intro h
      exact absurd h.1 (by decide)
    rw [strToNumLoop, if_neg h1, if_neg h2, if_neg h3]
    simp only [if_pos hc]
    rw [ih (fun x hx => hr x (List.mem_cons_of_mem c hx)), decimalValue_cons]
    have : ((c - 0x30 : Nat) : Int) = (c : Int) - 0x30 := by omega
    push_cast
    rw [this, List.length_cons]
    ring

theorem ad2k_StrToNum_digits (r : List Nat) (hr : IsDigits r) :
    ad2k_StrToNum r BASE_DEC = (decimalValue r : Int) := by
  have h1 : ¬ BASE_DEC = BASE_BIN := by decide
  rw [ad2k_StrToNum, if_neg h1, if_pos rfl, strToNumLoop_digits r hr]
  simp

theorem indexOf_of_isDigits (r : List Nat) (hr : IsDigits r) (a : Nat) (ha : a < 0x30) :
    r.indexOf a = r.length := by
  apply List.indexOf_eq_length.mpr
  intro h
  have := hr a h
  omega

theorem cutHeadZero_digits (r : List Nat) (hr : IsDigits r) :
    cutHeadZero r =
      if (r.takeWhile (fun c => c == 0x30)).length < r.length then
        r.drop (r.takeWhile (fun c => c == 0x30)).length
      else [0x30] := by
  unfold cutHeadZero
  simp only [indexOf_of_isDigits r hr 0x2D (by decide), indexOf_of_isDigits r hr 0x2E (by decide),
    indexOf_of_isDigits r hr 0x2C (by decide), lt_irrefl, if_false, List.drop_zero, Nat.sub_zero,
    List.take_length, Nat.zero_add, List.nil_append]
  split
  · rfl
  · rename_i h
    have hle := (List.takeWhile_sublist (fun c => c == 0x30) (l := r)).length_le
    have : (r.takeWhile (fun c => c == 0x30)).length = r.length := by omega
    rw [this, List.drop_length]
    rfl

theorem decimalValue_drop_zeros (r : List Nat) :
    decimalValue (r.drop (r.takeWhile (fun c => c == 0x30)).length) = decimalValue r := by
  induction r with
  | nil => rfl
  | cons c t ih =>
    by_cases hc : c = 0x30
    · subst hc
      simp only [List.takeWhile_cons, beq_self_eq_true, if_true, List.length_cons,
        List.drop_succ_cons]
      rw [ih, decimalValue_cons]
      simp
    · have : (c == 0x30) = false := by simpa using hc
      simp [List.takeWhile_cons, this]

theorem decimalValue_all_zeros (r : List Nat)
    (h : (r.takeWhile (fun c => c == 0x30)).length = r.length) : decimalValue r = 0 := by
  have := decimalValue_drop_zeros r
  rw [h, List.drop_length] at this
  rw [← this]
  rfl

theorem cutHeadZero_digits_spec (r : List Nat) (hr : IsDigits r) :
    IsDigits (cutHeadZero r) ∧ decimalValue (cutHeadZero r) = decimalValue r := by
  rw [cutHeadZero_digits r hr]
  split
  · refine ⟨fun c hc => hr c (List.mem_of_mem_drop hc), decimalValue_drop_zeros r⟩
  · rename_i h
    have hle := (List.takeWhile_sublist (fun c => c == 0x30) (l := r)).length_le
    refine ⟨by decide, ?_⟩
    rw [decimalValue_all_zeros r (by omega)]
    rfl

/-- The numeric reading `getNIData` stores for an 8-character field of decimal
digits is the decimal value of the field. -/
theorem strToNum_cutHeadZero_field (r t : List Nat) (hr : IsDigits r) :
    ad2k_StrToNum (cutHeadZero (cstr (memRead (r ++ t) r.length ++ [0]))) BASE_DEC
      = (decimalValue r : Int) := by
  have hnz : ∀ c ∈ r, c ≠ 0 := fun c hc => by have := hr c hc; omega
  rw [memRead_append_left, cstr_append_zero r hnz,
    ad2k_StrToNum_digits _ (cutHeadZero_digits_spec r hr).1, (cutHeadZero_digits_spec r hr).2]

theorem niContent_parts (c0 c9 c10 c19 c20 : Nat) (r1 r2 tail : List Nat)
    (h1 : r1.length = 8) (h2 : r2.length = 8) :
    (c0 :: (r1 ++ c9 :: c10 :: (r2 ++ c19 :: c20 :: tail))).getD 0 0 = c0
    ∧ (c0 :: (r1 ++ c9 :: c10 :: (r2 ++ c19 :: c20 :: tail))).getD 10 0 = c10
    ∧ (c0 :: (r1 ++ c9 :: c10 :: (r2 ++ c19 :: c20 :: tail))).drop 1
        = r1 ++ c9 :: c10 :: (r2 ++ c19 :: c20 :: tail)
    ∧ (c0 :: (r1 ++ c9 :: c10 :: (r2 ++ c19 :: c20 :: tail))).drop 11
        = r2 ++ c19 :: c20 :: tail
    ∧ (c0 :: (r1 ++ c9 :: c10 :: (r2 ++ c19 :: c20 :: tail))).drop 21 = tail := by
  have e1 : List.drop 10 r1 = [] := List.drop_eq_nil_of_le (by omega)
  have e1' : List.drop 20 r1 = [] := List.drop_eq_nil_of_le (by omega)
  have e2 : List.drop 10 r2 = [] := List.drop_eq_nil_of_le (by omega)
  refine ⟨rfl, ?_, rfl, ?_, ?_⟩
  · rw [List.getD_eq_getElem?_getD, List.getElem?_cons_succ,
      List.getElem?_append_right (by omega), h1]
    simp
  · rw [List.drop_succ_cons, List.drop_append_eq_append_drop, e1, h1]
    rfl
  · rw [List.drop_succ_cons, List.drop_append_eq_append_drop, e1', h1]
    show List.drop 10 (r2 ++ c19 :: c20 :: tail) = tail
    rw [List.drop_append_eq_append_drop, e2, h2]
    rfl

theorem getNIData_fields (mode c0 c9 c10 c19 c20 : Nat) (r1 r2 tail : List Nat)
    (h1 : r1.length = 8) (h2 : r2.length = 8) (hr1 : IsDigits r1) (hr2 : IsDigits r2)
    (hmode : (c0 = 0x30 ∧ c10 = 0x34 ∧ mode = CMD_W_WGT_MODE)
      ∨ (c0 = 0x61 ∧ c10 = 0x69 ∧ mode = CMD_W_INT_MODE)) :
    (getNIData zeroNIData (c0 :: (r1 ++ c9 :: c10 :: (r2 ++ c19 :: c20 :: tail)))).mode = mode
    ∧ (getNIData zeroNIData (c0 :: (r1 ++ c9 :: c10 :: (r2 ++ c19 :: c20 :: tail)))).sec1
        = (decimalValue r1 : Int)
    ∧ (getNIData zeroNIData (c0 :: (r1 ++ c9 :: c10 :: (r2 ++ c19 :: c20 :: tail)))).sec2
        = (decimalValue r2 : Int)
    ∧ (getNIData zeroNIData (c0 :: (r1 ++ c9 :: c10 :: (r2 ++ c19 :: c20 :: tail)))).status
        = ad2k_StrToHex tail NBYTE_NI_STATUS := by
  obtain ⟨p0, p10, p1, p11, p21⟩ := niContent_parts c0 c9 c10 c19 c20 r1 r2 tail h1 h2
  have f1 := strToNum_cutHeadZero_field r1 (c9 :: c10 :: (r2 ++ c19 :: c20 :: tail)) hr1
  have f2 := strToNum_cutHeadZero_field r2 (c19 :: c20 :: tail) hr2
  rw [h1] at f1
  rw [h2] at f2
  unfold getNIData
  simp only [p0, p10, p1, p11, p21]
  rcases hmode with ⟨a, b, c⟩ | ⟨a, b, c⟩
  · subst a b c
    rw [if_pos (by decide)]
    exact ⟨rfl, f1, f2, rfl⟩
  · subst a b c
    rw [if_neg (by decide), if_pos (by decide)]
    exact ⟨rfl, f1, f2, rfl⟩

theorem NIDataToScaleData_status (junk : ScaleData) (ni : NIData) :
    (NIDataToScaleData junk ni).tareFg = (if ni.status.getD 0 0 &&& 0x01 ≠ 0 then 1 else 0)
    ∧ (NIDataToScaleData junk ni).stabilizeFg
        = (if (ni.status.getD 0 0 >>> 3 >>> 1) &&& 0x01 ≠ 0 then 1 else 0)
    ∧ (NIDataToScaleData junk ni).underOverFlowFg
        = ((((ni.status.getD 0 0 >>> 3 >>> 1 >>> 2) &&& 0x03) &&& 0xff : Nat) : Int) := by
  unfold NIDataToScaleData
  simp only
  refine ⟨?_, ?_, ?_⟩ <;> split <;> (try split) <;> rfl

theorem NIDataToScaleData_weight_mode (junk : ScaleData) (ni : NIData)
    (h : ni.mode = CMD_W_WGT_MODE) :
    (NIDataToScaleData junk ni).weight
        = (if (NIDataToScaleData junk ni).underOverFlowFg = 0 then ni.sec1 else 0)
    ∧ (NIDataToScaleData junk ni).tare = ni.sec2
    ∧ (NIDataToScaleData junk ni).irFg = 0 := by
  unfold NIDataToScaleData
  simp only [h, if_true]
  refine ⟨?_, ?_, ?_⟩ <;> first | rfl | trivial

theorem NIDataToScaleData_int_mode (junk : ScaleData) (ni : NIData)
    (h : ni.mode = CMD_W_INT_MODE) :
    (NIDataToScaleData junk ni).adCount = ni.sec1
    ∧ (NIDataToScaleData junk ni).irCount = ni.sec2
    ∧ (NIDataToScaleData junk ni).irFg = 1 := by
  have hne : ¬ CMD_W_INT_MODE = CMD_W_WGT_MODE := by decide
  unfold NIDataToScaleData
  simp only [h, if_neg hne, if_true]
  refine ⟨?_, ?_, ?_⟩ <;> first | rfl | trivial

/-- C10: for a telemetry body whose bytes 1-8 and 11-18 are decimal digits, in
weight mode the weight is the decimal value of bytes 1-8 when the under/overflow
field is 0 and 0 otherwise, the tare is the decimal value of bytes 11-18 and
irFg = 0; in internal-count mode adCount and irCount are the two decimal values
and irFg = 1. -/
theorem telemetryScaleData_view (junk : ScaleData) (c0 c9 c10 c19 c20 : Nat)
    (sec1 sec2 status : List Nat) (h1 : sec1.length = 8) (h2 : sec2.length = 8)
    (hd1 : IsDigits sec1) (hd2 : IsDigits sec2) :
    (c0 = 0x30 ∧ c10 = 0x34 →
      (telemetryScaleData junk (telemetryBody c0 sec1 c9 c10 sec2 c19 c20 status)).weight
          = (if (telemetryScaleData junk
                  (telemetryBody c0 sec1 c9 c10 sec2 c19 c20 status)).underOverFlowFg = 0
             then (decimalValue sec1 : Int) else 0)
      ∧ (telemetryScaleData junk (telemetryBody c0 sec1 c9 c10 sec2 c19 c20 status)).tare
          = (decimalValue sec2 : Int)
      ∧ (telemetryScaleData junk (telemetryBody c0 sec1 c9 c10 sec2 c19 c20 status)).irFg = 0)
    ∧ (c0 = 0x61 ∧ c10 = 0x69 →
      (telemetryScaleData junk (telemetryBody c0 sec1 c9 c10 sec2 c19 c20 status)).adCount
          = (decimalValue sec1 : Int)
      ∧ (telemetryScaleData junk (telemetryBody c0 sec1 c9 c10 sec2 c19 c20 status)).irCount
          = (decimalValue sec2 : Int)
      ∧ (telemetryScaleData junk (telemetryBody c0 sec1 c9 c10 sec2 c19 c20 status)).irFg = 1) := by
  unfold telemetryScaleData telemetryBody
  constructor
  · rintro ⟨a, b⟩
    obtain ⟨m, s1, s2, _⟩ := getNIData_fields CMD_W_WGT_MODE c0 c9 c10 c19 c20 sec1 sec2 status
      h1 h2 hd1 hd2 (Or.inl ⟨a, b, rfl⟩)
    have h := NIDataToScaleData_weight_mode junk _ m
    rw [s1, s2] at h
    exact h
  · rintro ⟨a, b⟩
    obtain ⟨m, s1, s2, _⟩ := getNIData_fields CMD_W_INT_MODE c0 c9 c10 c19 c20 sec1 sec2 status
      h1 h2 hd1 hd2 (Or.inr ⟨a, b, rfl⟩)
    have h := NIDataToScaleData_int_mode junk _ m
    rw [s1, s2] at h
    exact h

theorem telemetryScaleData_view_witness :
    ((0x30 : Nat) = 0x30 ∧ (0x34 : Nat) = 0x34 →
      (telemetryScaleData zeroScaleData (telemetryBody 0x30 [0x30, 0x30, 0x30, 0x30, 0x31, 0x30, 0x30, 0x30] 0x20 0x34
          [0x30, 0x30, 0x30, 0x30, 0x30, 0x30, 0x32, 0x35] 0x20 0x20 [0x31, 0x30, 0x30, 0x30, 0x30, 0x30])).weight
          = (if (telemetryScaleData zeroScaleData (telemetryBody 0x30 [0x30, 0x30, 0x30, 0x30, 0x31, 0x30, 0x30, 0x30] 0x20 0x34
          [0x30, 0x30, 0x30, 0x30, 0x30, 0x30, 0x32, 0x35] 0x20 0x20 [0x31, 0x30, 0x30, 0x30, 0x30, 0x30])).underOverFlowFg = 0
             then (decimalValue [0x30, 0x30, 0x30, 0x30, 0x31, 0x30, 0x30, 0x30] : Int) else 0)
      ∧ (telemetryScaleData zeroScaleData (telemetryBody 0x30 [0x30, 0x30, 0x30, 0x30, 0x31, 0x30, 0x30, 0x30] 0x20 0x34
          [0x30, 0x30, 0x30, 0x30, 0x30, 0x30, 0x32, 0x35] 0x20 0x20 [0x31, 0x30, 0x30, 0x30, 0x30, 0x30])).tare
          = (decimalValue [0x30, 0x30, 0x30, 0x30, 0x30, 0x30, 0x32, 0x35] : Int)
      ∧ (telemetryScaleData zeroScaleData (telemetryBody 0x30 [0x30, 0x30, 0x30, 0x30, 0x31, 0x30, 0x30, 0x30] 0x20 0x34
          [0x30, 0x30, 0x30, 0x30, 0x30, 0x30, 0x32, 0x35] 0x20 0x20 [0x31, 0x30, 0x30, 0x30, 0x30, 0x30])).irFg = 0)
    ∧ ((0x30 : Nat) = 0x61 ∧ (0x34 : Nat) = 0x69 →
      (telemetryScaleData zeroScaleData (telemetryBody 0x30 [0x30, 0x30, 0x30, 0x30, 0x31, 0x30, 0x30, 0x30] 0x20 0x34
          [0x30, 0x30, 0x30, 0x30, 0x30, 0x30, 0x32, 0x35] 0x20 0x20 [0x31, 0x30, 0x30, 0x30, 0x30, 0x30])).adCount
          = (decimalValue [0x30, 0x30, 0x30, 0x30, 0x31, 0x30, 0x30, 0x30] : Int)
      ∧ (telemetryScaleData zeroScaleData (telemetryBody 0x30 [0x30, 0x30, 0x30, 0x30, 0x31, 0x30, 0x30, 0x30] 0x20 0x34
          [0x30, 0x30, 0x30, 0x30, 0x30, 0x30, 0x32, 0x35] 0x20 0x20 [0x31, 0x30, 0x30, 0x30, 0x30, 0x30])).irCount
          = (decimalValue [0x30, 0x30, 0x30, 0x30, 0x30, 0x30, 0x32, 0x35] : Int)
      ∧ (telemetryScaleData zeroScaleData (telemetryBody 0x30 [0x30, 0x30, 0x30, 0x30, 0x31, 0x30, 0x30, 0x30] 0x20 0x34
          [0x30, 0x30, 0x30, 0x30, 0x30, 0x30, 0x32, 0x35] 0x20 0x20 [0x31, 0x30, 0x30, 0x30, 0x30, 0x30])).irFg = 1) :=
  telemetryScaleData_view zeroScaleData 0x30 0x20 0x34 0x20 0x20
    [0x30, 0x30, 0x30, 0x30, 0x31, 0x30, 0x30, 0x30]
    [0x30, 0x30, 0x30, 0x30, 0x30, 0x30, 0x32, 0x35] [0x31, 0x30, 0x30, 0x30, 0x30, 0x30]
    (by decide) (by decide) (by decide) (by decide)

theorem decimalValue_scenario :
    decimalValue [0x30, 0x30, 0x30, 0x30, 0x31, 0x30, 0x30, 0x30] = 1000
    ∧ decimalValue [0x30, 0x30, 0x30, 0x30, 0x30, 0x30, 0x30, 0x30] = 0 := by
  constructor <;> simp [decimalValue, Nat.ofDigits]

/-- C8 (as stated, refuted): with the status characters "010000" the decoded
record does not have weight = 1000, tare = 0, tareFg = 0 and stabilizeFg = 1:
status byte 0 is 0x01, so tareFg is 1 and stabilizeFg is 0. -/
theorem scenario_010000_not_as_claimed :
    (scenarioBody 0x30 0x30 0x30 [0x30, 0x31, 0x30, 0x30, 0x30, 0x30]).length = 27
    ∧ ¬ ((telemetryScaleData zeroScaleData
          (scenarioBody 0x30 0x30 0x30 [0x30, 0x31, 0x30, 0x30, 0x30, 0x30])).weight = 1000
      ∧ (telemetryScaleData zeroScaleData
          (scenarioBody 0x30 0x30 0x30 [0x30, 0x31, 0x30, 0x30, 0x30, 0x30])).tare = 0
      ∧ (telemetryScaleData zeroScaleData
          (scenarioBody 0x30 0x30 0x30 [0x30, 0x31, 0x30, 0x30, 0x30, 0x30])).tareFg = 0
      ∧ (telemetryScaleData zeroScaleData
          (scenarioBody 0x30 0x30 0x30 [0x30, 0x31, 0x30, 0x30, 0x30, 0x30])).stabilizeFg = 1) := by
  decide

/-- C8 (amended): the 27-byte body of the scenario with status characters
"010000" decodes to weight = 1000, tare = 0, tareFg = 1 and stabilizeFg = 0,
whatever bytes 9, 19 and 20 and the previous contents of the record are. -/
theorem scenario_010000_decodes (junk : ScaleData) (c9 c19 c20 : Nat) :
    (scenarioBody c9 c19 c20 [0x30, 0x31, 0x30, 0x30, 0x30, 0x30]).length = 27
    ∧ (telemetryScaleData junk (scenarioBody c9 c19 c20 [0x30, 0x31, 0x30, 0x30, 0x30, 0x30])).weight = 1000
    ∧ (telemetryScaleData junk (scenarioBody c9 c19 c20 [0x30, 0x31, 0x30, 0x30, 0x30, 0x30])).tare = 0
    ∧ (telemetryScaleData junk (scenarioBody c9 c19 c20 [0x30, 0x31, 0x30, 0x30, 0x30, 0x30])).tareFg = 1
    ∧ (telemetryScaleData junk (scenarioBody c9 c19 c20 [0x30, 0x31, 0x30, 0x30, 0x30, 0x30])).stabilizeFg = 0 := by
  have hst : ad2k_StrToHex [0x30, 0x31, 0x30, 0x30, 0x30, 0x30] NBYTE_NI_STATUS = [1, 0, 0] := by
    decide
  have hv := telemetryScaleData_view junk 0x30 c9 0x34 c19 c20
    [0x30, 0x30, 0x30, 0x30, 0x31, 0x30, 0x30, 0x30]
    [0x30, 0x30, 0x30, 0x30, 0x30, 0x30, 0x30, 0x30] [0x30, 0x31, 0x30, 0x30, 0x30, 0x30]
    rfl rfl (by decide) (by decide)
  obtain ⟨hw, ht, _⟩ := hv.1 ⟨rfl, rfl⟩
  obtain ⟨_, _, _, hs⟩ := getNIData_fields CMD_W_WGT_MODE 0x30 c9 0x34 c19 c20
    [0x30, 0x30, 0x30, 0x30, 0x31, 0x30, 0x30, 0x30]
    [0x30, 0x30, 0x30, 0x30, 0x30, 0x30, 0x30, 0x30] [0x30, 0x31, 0x30, 0x30, 0x30, 0x30]
    rfl rfl (by decide) (by decide) (Or.inl ⟨rfl, rfl, rfl⟩)
  rw [hst] at hs
  unfold scenarioBody
  unfold telemetryScaleData telemetryBody at hw ht ⊢
  obtain ⟨f1, f2, f3⟩ := NIDataToScaleData_status junk
    (getNIData zeroNIData (0x30 :: ([0x30, 0x30, 0x30, 0x30, 0x31, 0x30, 0x30, 0x30] ++
      c9 :: 0x34 :: ([0x30, 0x30, 0x30, 0x30, 0x30, 0x30, 0x30, 0x30] ++
        c19 :: c20 :: [0x30, 0x31, 0x30, 0x30, 0x30, 0x30]))))
  rw [hs] at f1 f2 f3
  rw [f3] at hw
  rw [decimalValue_scenario.1] at hw
  rw [decimalValue_scenario.2] at ht
  refine ⟨by simp, ?_, ht, ?_, ?_⟩
  · rw [hw]
    decide
  · rw [f1]
    decide
  · rw [f2]
    decide

/-- C9: a valid frame whose 27-byte body is all `'1'` (so bytes 0 and 10 select
no mode) is not dropped: the iteration of the receive loop empties the mailbox
of the event queued before and pushes an `AD2K_MSG_NI` event. -/
theorem invalid_mode_frame_published :
    calculateBCC (List.replicate 27 0x31) = 0x31
    ∧ scaleProcedureFrAD_iter false zeroAD2kData
        { startedState with msgq_fr_ad := [{ zeroAD2kData with type := AD2K_MSG_RESP }] }
        (STX :: (List.replicate 27 0x31 ++ [ETX, 0x31]))
      = some ({ startedState with msgq_fr_ad := [{ zeroAD2kData with type := AD2K_MSG_NI }] },
          []) := by
  decide

/-! ## Theorems: receive pipeline -/

theorem processResponse_raw (junk : AD2kData) (msgq_id : Int) (msgq : List AD2kData)
    (resp : Response) (hq : 0 ≤ msgq_id) (h : ¬ (resp.type = CMD_R ∧ resp.result = RSP_RW_OK)) :
    processResponse junk msgq_id msgq resp =
      [{ junk with type := AD2K_MSG_RESP, response := resp }] := by
  have hsend : ¬ (msgq_id < 0 ∨ AD2K_MSG_DEFAULT ≤ 0) := by
    have : ¬ AD2K_MSG_DEFAULT ≤ 0 := by decide
    omega
  have hb3 : ¬ 0x80 ≤ intByte3 AD2K_MSG_RESP := by decide
  unfold processResponse
  rw [if_neg (by omega)]
  simp only [if_neg h, msgq_clear, msgq_send_msg, if_neg hsend, if_neg (not_lt.mpr hq),
    if_neg hb3, List.nil_append]

/-- C11: a type `'R'` response with result `'0'` that matches no decode (here the
saved command id is `'U'` and the payload is empty) is not published as a raw
Response event: the mailbox is emptied and what is sent is the uninitialised
local `ad2kData`, so the event's tag is whatever the stack held, for instance 0
and not `AD2K_MSG_RESP`, and when byte 3 of that tag is 0x80 or above nothing is
published at all; the receive loop does this for the valid frame STX, `'R'`,
`'0'`, ETX, 0x62. -/
theorem processResponse_unmatched_read_publishes_junk (junk : AD2kData)
    (msgq : List AD2kData) :
    processResponse junk 0 msgq ⟨CMD_R, CMD_W_DIGI_TARE, RSP_RW_OK, List.replicate 128 0, 0⟩
      = (if 0x80 ≤ intByte3 junk.type then [] else [junk])
    ∧ scaleProcedureFrAD_iter false zeroAD2kData
        { startedState with cmd_saved := CMD_W_DIGI_TARE, waitRespFg := 1 }
        [STX, CMD_R, RSP_RW_OK, ETX, 0x62]
      = some ({ startedState with cmd_saved := CMD_W_DIGI_TARE, msgq_fr_ad := [zeroAD2kData] },
          [])
    ∧ zeroAD2kData.type ≠ AD2K_MSG_RESP := by
  refine ⟨?_, by decide, by decide⟩
  have h1 : ¬ ((0 : Int) < 0) := by decide
  have h2 : ¬ ((0 : Int) < 0 ∨ AD2K_MSG_DEFAULT ≤ 0) := by decide
  have h3 : CMD_R = CMD_R ∧ RSP_RW_OK = RSP_RW_OK := ⟨rfl, rfl⟩
  have h4 : ¬ (CMD_W_DIGI_TARE = CMD_RW_SPEC_DATA ∧ (0 : Nat) = LEN_RW_SPEC_DATA) := by decide
  have h5 : ¬ (CMD_W_DIGI_TARE = CMD_RW_SPAN_DATA ∧ (0 : Nat) = LEN_RW_SPAN_DATA) := by decide
  have h6 : ¬ (CMD_W_DIGI_TARE = CMD_R_AD_VER ∧ (0 : Nat) = LEN_R_AD_VER) := by decide
  unfold processResponse
  simp only [if_neg h1, if_pos h3, if_neg h4, if_neg h5, if_neg h6, msgq_clear, msgq_send_msg,
    if_neg h2, List.nil_append, and_self, if_true]
  split <;> rfl

/-- C12: for a response of type `'R'` with result `'0'` (and the mailbox
created), `processResponse` publishes one event: tagged `AD2K_MSG_SPEC` and
holding `respDataToSpecData` of the payload when the saved command id is `'C'`
and the payload length 40; tagged `AD2K_MSG_SPAN` and holding
`respDataToSpanData` of the payload for `'D'` and 28; tagged `AD2K_MSG_ADVER` and
holding the version string `d0 '.' d1 '.' d2` for `'F'` and 3. -/
theorem processResponse_decodes (junk : AD2kData) (msgq_id : Int) (msgq : List AD2kData)
    (resp : Response) (hq : 0 ≤ msgq_id) (ht : resp.type = CMD_R)
    (hr : resp.result = RSP_RW_OK) :
    (resp.cmd = CMD_RW_SPEC_DATA ∧ resp.data_len = 40 →
      processResponse junk msgq_id msgq resp =
        [{ junk with type := AD2K_MSG_SPEC
                     scaleSpec := respDataToSpecData junk.scaleSpec resp.data }])
    ∧ (resp.cmd = CMD_RW_SPAN_DATA ∧ resp.data_len = 28 →
      processResponse junk msgq_id msgq resp =
        [{ junk with type := AD2K_MSG_SPAN
                     scaleSpan := respDataToSpanData junk.scaleSpan resp.data }])
    ∧ (resp.cmd = CMD_R_AD_VER ∧ resp.data_len = 3 →
      processResponse junk msgq_id msgq resp =
        [{ junk with type := AD2K_MSG_ADVER
                     adVer := [resp.data.getD 0 0, 0x2E, resp.data.getD 1 0, 0x2E,
                               resp.data.getD 2 0, 0] ++ junk.adVer.drop 6 }]) := by
  have hsend : ¬ (msgq_id < 0 ∨ AD2K_MSG_DEFAULT ≤ 0) := by
    have : ¬ AD2K_MSG_DEFAULT ≤ 0 := by decide
    omega
  have hq' : ¬ msgq_id < 0 := by omega
  have h3 : resp.type = CMD_R ∧ resp.result = RSP_RW_OK := ⟨ht, hr⟩
  have hb1 : ¬ 0x80 ≤ intByte3 AD2K_MSG_SPEC := by decide
  have hb2 : ¬ 0x80 ≤ intByte3 AD2K_MSG_SPAN := by decide
  have hb3 : ¬ 0x80 ≤ intByte3 AD2K_MSG_ADVER := by decide
  refine ⟨?_, ?_, ?_⟩
  · rintro ⟨hc, hl⟩
    have h4 : resp.cmd = CMD_RW_SPEC_DATA ∧ resp.data_len = LEN_RW_SPEC_DATA := ⟨hc, hl⟩
    unfold processResponse
    simp only [if_neg hq', if_pos h3, if_pos h4, msgq_clear, msgq_send_msg, if_neg hsend,
      if_neg hb1, List.nil_append]
  · rintro ⟨hc, hl⟩
    have h4 : ¬ (resp.cmd = CMD_RW_SPEC_DATA ∧ resp.data_len = LEN_RW_SPEC_DATA) := by
      rw [hc]
      exact fun h => absurd h.1 (by decide)
    have h5 : resp.cmd = CMD_RW_SPAN_DATA ∧ resp.data_len = LEN_RW_SPAN_DATA := ⟨hc, hl⟩
    unfold processResponse
    simp only [if_neg hq', if_pos h3, if_neg h4, if_pos h5, msgq_clear, msgq_send_msg,
      if_neg hsend, if_neg hb2, List.nil_append]
  · rintro ⟨hc, hl⟩
    have h4 : ¬ (resp.cmd = CMD_RW_SPEC_DATA ∧ resp.data_len = LEN_RW_SPEC_DATA) := by
      rw [hc]
      exact fun h => absurd h.1 (by decide)
    have h5 : ¬ (resp.cmd = CMD_RW_SPAN_DATA ∧ resp.data_len = LEN_RW_SPAN_DATA) := by
      rw [hc]
      exact fun h => absurd h.1 (by decide)
    have h6 : resp.cmd = CMD_R_AD_VER ∧ resp.data_len = LEN_R_AD_VER := ⟨hc, hl⟩
    unfold processResponse
    simp only [if_neg hq', if_pos h3, if_neg h4, if_neg h5, if_pos h6, msgq_clear,
      msgq_send_msg, if_neg hsend, if_neg hb3, List.nil_append, respDataToADVerStr]

theorem processResponse_decodes_witness :
    ((⟨CMD_R, CMD_R_AD_VER, RSP_RW_OK, [0x31, 0x32, 0x33], 3⟩ : Response).cmd = CMD_RW_SPEC_DATA ∧ (⟨CMD_R, CMD_R_AD_VER, RSP_RW_OK, [0x31, 0x32, 0x33], 3⟩ : Response).data_len = 40 →
      processResponse zeroAD2kData 0 [] (⟨CMD_R, CMD_R_AD_VER, RSP_RW_OK, [0x31, 0x32, 0x33], 3⟩ : Response) =
        [{ zeroAD2kData with type := AD2K_MSG_SPEC
                             scaleSpec := respDataToSpecData zeroAD2kData.scaleSpec (⟨CMD_R, CMD_R_AD_VER, RSP_RW_OK, [0x31, 0x32, 0x33], 3⟩ : Response).data }])
    ∧ ((⟨CMD_R, CMD_R_AD_VER, RSP_RW_OK, [0x31, 0x32, 0x33], 3⟩ : Response).cmd = CMD_RW_SPAN_DATA ∧ (⟨CMD_R, CMD_R_AD_VER, RSP_RW_OK, [0x31, 0x32, 0x33], 3⟩ : Response).data_len = 28 →
      processResponse zeroAD2kData 0 [] (⟨CMD_R, CMD_R_AD_VER, RSP_RW_OK, [0x31, 0x32, 0x33], 3⟩ : Response) =
        [{ zeroAD2kData with type := AD2K_MSG_SPAN
                             scaleSpan := respDataToSpanData zeroAD2kData.scaleSpan (⟨CMD_R, CMD_R_AD_VER, RSP_RW_OK, [0x31, 0x32, 0x33], 3⟩ : Response).data }])
    ∧ ((⟨CMD_R, CMD_R_AD_VER, RSP_RW_OK, [0x31, 0x32, 0x33], 3⟩ : Response).cmd = CMD_R_AD_VER ∧ (⟨CMD_R, CMD_R_AD_VER, RSP_RW_OK, [0x31, 0x32, 0x33], 3⟩ : Response).data_len = 3 →
      processResponse zeroAD2kData 0 [] (⟨CMD_R, CMD_R_AD_VER, RSP_RW_OK, [0x31, 0x32, 0x33], 3⟩ : Response) =
        [{ zeroAD2kData with type := AD2K_MSG_ADVER
                             adVer := [(⟨CMD_R, CMD_R_AD_VER, RSP_RW_OK, [0x31, 0x32, 0x33], 3⟩ : Response).data.getD 0 0, 0x2E, (⟨CMD_R, CMD_R_AD_VER, RSP_RW_OK, [0x31, 0x32, 0x33], 3⟩ : Response).data.getD 1 0, 0x2E,
                               (⟨CMD_R, CMD_R_AD_VER, RSP_RW_OK, [0x31, 0x32, 0x33], 3⟩ : Response).data.getD 2 0, 0] ++ zeroAD2kData.adVer.drop 6 }]) :=
  processResponse_decodes zeroAD2kData 0 [] (⟨CMD_R, CMD_R_AD_VER, RSP_RW_OK, [0x31, 0x32, 0x33], 3⟩ : Response) (by decide) rfl rfl

theorem memRead_drop_two (body : List Nat) :
    memRead (body.drop 2) (body.length - 2) = body.drop 2 := by
  have := memRead_self (body.drop 2)
  rwa [List.length_drop] at this

/-- C13: for a frame body of length `n ≥ 2`, `getResponse` on a zeroed record
gives type = body[0], result = body[1] and cmd = the saved command id; when the
type is `'R'` and the result `'0'` the payload is body[2..n) (followed by the
zeros of the 128-byte array) and data_len = n - 2, otherwise data_len = 0 and
all 128 payload bytes are zero. -/
theorem getResponse_fields (cmd_saved : Nat) (body : List Nat) (hn : 2 ≤ body.length) :
    (getResponse cmd_saved zeroResponse body body.length).type = body.getD 0 0
    ∧ (getResponse cmd_saved zeroResponse body body.length).result = body.getD 1 0
    ∧ (getResponse cmd_saved zeroResponse body body.length).cmd = cmd_saved
    ∧ (body.getD 0 0 = CMD_R ∧ body.getD 1 0 = RSP_RW_OK →
        (getResponse cmd_saved zeroResponse body body.length).data_len = body.length - 2
        ∧ (getResponse cmd_saved zeroResponse body body.length).data
            = body.drop 2 ++ List.replicate (128 - (body.length - 2)) 0)
    ∧ (¬ (body.getD 0 0 = CMD_R ∧ body.getD 1 0 = RSP_RW_OK) →
        (getResponse cmd_saved zeroResponse body body.length).data_len = 0
        ∧ (getResponse cmd_saved zeroResponse body body.length).data = List.replicate 128 0) := by
  have hlt : ¬ ((body.length : Int) < 2) := by omega
  have hsub : ((body.length : Int) - 2).toNat = body.length - 2 := by omega
  unfold getResponse
  rw [if_neg hlt]
  simp only [hsub]
  by_cases h : body.getD 0 0 = CMD_R ∧ body.getD 1 0 = RSP_RW_OK
  · simp only [if_pos h, memcpy, memRead_drop_two, zeroResponse, List.drop_replicate]
    exact ⟨trivial, trivial, trivial, fun _ => ⟨trivial, trivial⟩, fun hc => absurd h hc⟩
  · simp only [if_neg h]
    exact ⟨trivial, trivial, trivial, fun hc => absurd hc h, fun _ => ⟨trivial, trivial⟩⟩

theorem getResponse_fields_witness :
    (getResponse CMD_R_AD_VER zeroResponse [CMD_R, RSP_RW_OK, 0x31, 0x32, 0x33]
        [CMD_R, RSP_RW_OK, 0x31, 0x32, 0x33].length).type
      = [CMD_R, RSP_RW_OK, 0x31, 0x32, 0x33].getD 0 0
    ∧ (getResponse CMD_R_AD_VER zeroResponse [CMD_R, RSP_RW_OK, 0x31, 0x32, 0x33]
        [CMD_R, RSP_RW_OK, 0x31, 0x32, 0x33].length).result
      = [CMD_R, RSP_RW_OK, 0x31, 0x32, 0x33].getD 1 0
    ∧ (getResponse CMD_R_AD_VER zeroResponse [CMD_R, RSP_RW_OK, 0x31, 0x32, 0x33]
        [CMD_R, RSP_RW_OK, 0x31, 0x32, 0x33].length).cmd = CMD_R_AD_VER
    ∧ ([CMD_R, RSP_RW_OK, 0x31, 0x32, 0x33].getD 0 0 = CMD_R
        ∧ [CMD_R, RSP_RW_OK, 0x31, 0x32, 0x33].getD 1 0 = RSP_RW_OK →
        (getResponse CMD_R_AD_VER zeroResponse [CMD_R, RSP_RW_OK, 0x31, 0x32, 0x33]
            [CMD_R, RSP_RW_OK, 0x31, 0x32, 0x33].length).data_len
          = [CMD_R, RSP_RW_OK, 0x31, 0x32, 0x33].length - 2
        ∧ (getResponse CMD_R_AD_VER zeroResponse [CMD_R, RSP_RW_OK, 0x31, 0x32, 0x33]
            [CMD_R, RSP_RW_OK, 0x31, 0x32, 0x33].length).data
            = [CMD_R, RSP_RW_OK, 0x31, 0x32, 0x33].drop 2
              ++ List.replicate (128 - ([CMD_R, RSP_RW_OK, 0x31, 0x32, 0x33].length - 2)) 0)
    ∧ (¬ ([CMD_R, RSP_RW_OK, 0x31, 0x32, 0x33].getD 0 0 = CMD_R
          ∧ [CMD_R, RSP_RW_OK, 0x31, 0x32, 0x33].getD 1 0 = RSP_RW_OK) →
        (getResponse CMD_R_AD_VER zeroResponse [CMD_R, RSP_RW_OK, 0x31, 0x32, 0x33]
            [CMD_R, RSP_RW_OK, 0x31, 0x32, 0x33].length).data_len = 0
        ∧ (getResponse CMD_R_AD_VER zeroResponse [CMD_R, RSP_RW_OK, 0x31, 0x32, 0x33]
            [CMD_R, RSP_RW_OK, 0x31, 0x32, 0x33].length).data = List.replicate 128 0) :=
  getResponse_fields CMD_R_AD_VER [CMD_R, RSP_RW_OK, 0x31, 0x32, 0x33] (by decide)

/-- C14: when `fetchContent` returns `n`, the iteration of the receive loop
handles the content as a command Response (`getResponse`, `processResponse`,
busy flag cleared) when `n` is 2, 5, 30 or 42, as a telemetry record
(`getNIData`, `processNIData`) when `n` is 27, and leaves the whole state
unchanged for every other `n`, the failure value -1 included. -/
theorem scaleProcedureFrAD_iter_classifies (cs : Bool) (junk : AD2kData) (st : LibState)
    (input content rest : List Nat) (n : Int)
    (h : fetchContent cs st.scale_fd 256 input = some (n, content, rest)) :
    ((n = 2 ∨ n = 5 ∨ n = 30 ∨ n = 42) →
      scaleProcedureFrAD_iter cs junk st input =
        some ({ st with
                msgq_fr_ad := processResponse junk st.msgq_fr_ad_id st.msgq_fr_ad
                  (getResponse st.cmd_saved zeroResponse content n)
                waitRespFg := 0 }, rest))
    ∧ (n = 27 →
      scaleProcedureFrAD_iter cs junk st input =
        some ({ st with
                msgq_fr_ad := processNIData junk st.msgq_fr_ad_id st.msgq_fr_ad
                  (getNIData zeroNIData content) }, rest))
    ∧ (¬ (n = 2 ∨ n = 5 ∨ n = 30 ∨ n = 42 ∨ n = 27) →
      scaleProcedureFrAD_iter cs junk st input = some (st, rest)) := by
  have e1 : (2 : Int) + (LEN_R_AD_VER : Int) = 5 := by decide
  have e2 : (2 : Int) + (LEN_RW_SPEC_DATA : Int) = 42 := by decide
  have e3 : (2 : Int) + (LEN_RW_SPAN_DATA : Int) = 30 := by decide
  have e4 : ((LEN_NI_DATA : Nat) : Int) = 27 := by decide
  unfold scaleProcedureFrAD_iter
  rw [h]
  simp only [e1, e2, e3, e4]
  refine ⟨?_, ?_, ?_⟩
  · intro hn
    have hn' : n = 2 ∨ n = 5 ∨ n = 42 ∨ n = 30 := by omega
    rw [if_pos hn']
  · intro hn
    have hn' : ¬ (n = 2 ∨ n = 5 ∨ n = 42 ∨ n = 30) := by omega
    rw [if_neg hn', if_pos hn]
  · intro hn
    have hn' : ¬ (n = 2 ∨ n = 5 ∨ n = 42 ∨ n = 30) := by omega
    have hn'' : ¬ n = 27 := by omega
    rw [if_neg hn', if_neg hn'']

theorem scaleProcedureFrAD_iter_classifies_witness :
    (((2 : Int) = 2 ∨ (2 : Int) = 5 ∨ (2 : Int) = 30 ∨ (2 : Int) = 42) →
      scaleProcedureFrAD_iter false zeroAD2kData startedState [STX, CMD_W, RSP_RW_OK, ETX, 0x67] =
        some ({ startedState with
                msgq_fr_ad := processResponse zeroAD2kData startedState.msgq_fr_ad_id
                  startedState.msgq_fr_ad (getResponse startedState.cmd_saved zeroResponse [CMD_W, RSP_RW_OK] 2)
                waitRespFg := 0 }, []))
    ∧ ((2 : Int) = 27 →
      scaleProcedureFrAD_iter false zeroAD2kData startedState [STX, CMD_W, RSP_RW_OK, ETX, 0x67] =
        some ({ startedState with
                msgq_fr_ad := processNIData zeroAD2kData startedState.msgq_fr_ad_id
                  startedState.msgq_fr_ad (getNIData zeroNIData [CMD_W, RSP_RW_OK]) }, []))
    ∧ (¬ ((2 : Int) = 2 ∨ (2 : Int) = 5 ∨ (2 : Int) = 30 ∨ (2 : Int) = 42 ∨ (2 : Int) = 27) →
      scaleProcedureFrAD_iter false zeroAD2kData startedState [STX, CMD_W, RSP_RW_OK, ETX, 0x67] = some (startedState, [])) :=
  scaleProcedureFrAD_iter_classifies false zeroAD2kData startedState [STX, CMD_W, RSP_RW_OK, ETX, 0x67] [CMD_W, RSP_RW_OK] [] 2 (by decide)

/-! ## Theorems: command wrappers -/

theorem decimalValue_append_singleton (l : List Nat) (c : Nat) :
    decimalValue (l ++ [c]) = decimalValue l * 10 + (c - 0x30) := by
  simp only [decimalValue, List.reverse_append, List.reverse_cons, List.reverse_nil,
    List.nil_append, List.singleton_append, List.map_cons, Nat.ofDigits_cons]
  ring

theorem decimalDigitsFuel_spec (fuel : Nat) : ∀ n, n < fuel →
    IsDigits (decimalDigitsFuel fuel n) ∧ decimalValue (decimalDigitsFuel fuel n) = n
    ∧ ∀ k, n < 10 ^ k → 1 ≤ k → (decimalDigitsFuel fuel n).length ≤ k := by
  induction fuel with
  | zero => intro n hn; omega
  | succ f ih =>
    intro n hn
    unfold decimalDigitsFuel
    by_cases h : n < 10
    · rw [if_pos h]
      refine ⟨?_, ?_, ?_⟩
      · intro c hc
        rw [List.mem_singleton] at hc
        omega
      · simp [decimalValue]
      · intro k _ hk
        simpa using hk
    · rw [if_neg h]
      obtain ⟨i1, i2, i3⟩ := ih (n / 10) (by omega)
      refine ⟨?_, ?_, ?_⟩
      · intro c hc
        rcases List.mem_append.mp hc with hc | hc
        · exact i1 c hc
        · rw [List.mem_singleton] at hc
          omega
      · rw [decimalValue_append_singleton, i2]
        omega
      · intro k hk hk1
        have hk2 : 2 ≤ k := by
          by_contra hlt
          have : k = 1 := by omega
          subst this
          omega
        have hdiv : n / 10 < 10 ^ (k - 1) := by
          have hp : 10 ^ k = 10 ^ (k - 1) * 10 := by
            rw [← pow_succ]
            congr 1
            omega
          rw [Nat.div_lt_iff_lt_mul (by decide)]
          omega
        have := i3 (k - 1) hdiv (by omega)
        simp only [List.length_append, List.length_cons, List.length_nil]
        omega

theorem decimalValue_replicate_zero_append (j : Nat) (l : List Nat) :
    decimalValue (List.replicate j 0x30 ++ l) = decimalValue l := by
  induction j with
  | zero => simp
  | succ j ih =>
    rw [List.replicate_succ, List.cons_append, decimalValue_cons, ih]
    simp

theorem printfZeroPadInt_eight (t : Int) (ht0 : 0 ≤ t) (ht : t ≤ 99999999) :
    (printfZeroPadInt 8 t).length = 8 ∧ IsDigits (printfZeroPadInt 8 t)
    ∧ (decimalValue (printfZeroPadInt 8 t) : Int) = t := by
  obtain ⟨i1, i2, i3⟩ := decimalDigitsFuel_spec (t.natAbs + 1) t.natAbs (by omega)
  have hlen := i3 8 (by omega) (by decide)
  unfold printfZeroPadInt decimalDigits
  simp only [if_neg (not_lt.mpr ht0)]
  refine ⟨?_, ?_, ?_⟩
  · simp only [List.length_append, List.length_replicate]
    omega
  · intro c hc
    rcases List.mem_append.mp hc with hc | hc
    · rw [List.mem_replicate] at hc
      omega
    · exact i1 c hc
  · rw [decimalValue_replicate_zero_append, i2]
    omega

theorem getD_lt_of_forall (l : List Nat) (b : Nat) (hb : 0 < b) (h : ∀ c ∈ l, c < b)
    (i : Nat) : l.getD i 0 < b := by
  rw [List.getD_eq_getElem?_getD]
  by_cases hi : i < l.length
  · rw [List.getElem?_eq_getElem hi]
    exact h _ (List.getElem_mem _)
  · rw [List.getElem?_eq_none (by omega)]
    exact hb

theorem frame_byte3 (type cmd : Nat) (m : List Nat) (x : Nat) (hm : 0 < m.length) :
    (([STX, type, cmd] ++ m ++ [ETX]) ++ [x]).getD 3 0 = m.getD 0 0 := by
  cases m with
  | nil => simp at hm
  | cons a t => rfl

theorem sendCmd_enqueues (st : LibState) (type cmd : Nat) (data : List Nat) (k : Nat)
    (timeout : Int) (hq : 0 ≤ st.msgq_to_ad_id) (ht : type ≠ 0) (hc : cmd ≠ 0) (hk : 0 < k)
    (h3 : (memRead data k).getD 0 0 < 0x80) :
    sendCmd st type cmd (some data) (k : Int) timeout =
      (0, { st with
            cmd_saved := cmd
            msgq_to_ad := st.msgq_to_ad ++
              [STX :: type :: cmd ::
                (memRead data k ++ [ETX, calculateBCC (type :: cmd :: memRead data k)])] }) := by
  have hcs : cstr [STX, type, cmd, 0] = [STX, type, cmd] := by
    have h1 : (type != 0) = true := by simpa using ht
    have h2 : (cmd != 0) = true := by simpa using hc
    simp [cstr, List.takeWhile_cons, STX, h1, h2]
  have hdrop : (([STX, type, cmd] ++ memRead data k ++ [ETX]).drop 1).take
      (([STX, type, cmd] ++ memRead data k ++ [ETX]).length - 2)
        = type :: cmd :: memRead data k := by
    simp only [List.cons_append, List.nil_append, List.drop_succ_cons, List.drop_zero,
      List.length_cons, List.length_append, List.length_nil]
    have : (memRead data k).length + (0 + 1) + 1 + 1 + 1 - 2
        = (type :: cmd :: memRead data k).length := by
      simp only [List.length_cons]
      omega
    rw [this]
    exact List.take_left (type :: cmd :: memRead data k) [ETX]
  have hsend : ¬ (st.msgq_to_ad_id < 0 ∨ AD2K_MSG_DEFAULT ≤ 0) := by
    have : ¬ AD2K_MSG_DEFAULT ≤ 0 := by decide
    omega
  have hpos : (k : Int) > 0 := by omega
  have hb3 : ∀ x : Nat,
      ¬ 0x80 ≤ (([STX, type, cmd] ++ memRead data k ++ [ETX]) ++ [x]).getD 3 0 := by
    intro x
    rw [frame_byte3 type cmd _ x (by simpa [memRead] using hk)]
    omega
  unfold sendCmd
  rw [if_neg (by omega), hcs]
  simp only [if_pos hpos, Int.toNat_ofNat, hdrop, msgq_send_msg, if_neg hsend]
  rw [if_neg (hb3 _)]
  simp

theorem snprintfBuf_digiTare (d : List Nat) (hd : d.length = 8) :
    memRead (snprintfBuf 16 d) 8 = d := by
  have h1 : d.take (16 - 1) = d := List.take_of_length_le (by omega)
  unfold snprintfBuf
  rw [h1]
  have := memRead_append_left d (List.replicate (16 - 8) 0)
  rw [hd] at this ⊢
  exact this

/-- C15: for a tare value `t` with 0 ≤ t ≤ 99999999 (and the send queue
created), `ad2k_SetDigitalTare t` returns 0 and enqueues exactly the frame STX,
`'W'`, `'U'`, `d`, ETX, `calculateBCC ('W', 'U', d)`, where `d` is `t` written as
8 zero-padded decimal digits; for t = 1250 the frame is
02 57 55 30 30 30 30 31 32 35 30 03 04. -/
theorem ad2k_SetDigitalTare_frame (st : LibState) (t : Int) (ht0 : 0 ≤ t)
    (ht : t ≤ 99999999) (hq : 0 ≤ st.msgq_to_ad_id) :
    (printfZeroPadInt 8 t).length = 8 ∧ IsDigits (printfZeroPadInt 8 t)
    ∧ (decimalValue (printfZeroPadInt 8 t) : Int) = t
    ∧ ad2k_SetDigitalTare st t =
        (0, { st with
              cmd_saved := CMD_W_DIGI_TARE
              msgq_to_ad := st.msgq_to_ad ++
                [STX :: CMD_W :: CMD_W_DIGI_TARE ::
                  (printfZeroPadInt 8 t ++
                    [ETX, calculateBCC (CMD_W :: CMD_W_DIGI_TARE :: printfZeroPadInt 8 t)])] })
    ∧ (t = 1250 →
        STX :: CMD_W :: CMD_W_DIGI_TARE ::
          (printfZeroPadInt 8 t ++
            [ETX, calculateBCC (CMD_W :: CMD_W_DIGI_TARE :: printfZeroPadInt 8 t)])
        = [0x02, 0x57, 0x55, 0x30, 0x30, 0x30, 0x30, 0x31, 0x32, 0x35, 0x30, 0x03, 0x04]) := by
  obtain ⟨h1, h2, h3⟩ := printfZeroPadInt_eight t ht0 ht
  refine ⟨h1, h2, h3, ?_, ?_⟩
  · unfold ad2k_SetDigitalTare sendWCmd
    have hb3 : (memRead (snprintfBuf 16 (printfZeroPadInt 8 t)) LEN_W_DIGI_TARE).getD 0 0
        < 0x80 := by
      rw [show LEN_W_DIGI_TARE = 8 from rfl, snprintfBuf_digiTare _ h1]
      exact getD_lt_of_forall _ 0x80 (by decide) (fun c hc => by have := h2 c hc; omega) 0
    have := sendCmd_enqueues st CMD_W CMD_W_DIGI_TARE (snprintfBuf 16 (printfZeroPadInt 8 t))
      LEN_W_DIGI_TARE TIME_OUT_CMD_mSEC hq (by decide) (by decide) (by decide) hb3
    rw [show LEN_W_DIGI_TARE = 8 from rfl, snprintfBuf_digiTare _ h1] at this
    exact this
  · intro h
    subst h
    decide

theorem ad2k_SetDigitalTare_frame_witness :
    (printfZeroPadInt 8 1250).length = 8 ∧ IsDigits (printfZeroPadInt 8 1250)
    ∧ (decimalValue (printfZeroPadInt 8 1250) : Int) = 1250
    ∧ ad2k_SetDigitalTare startedState 1250 =
        (0, { startedState with
              cmd_saved := CMD_W_DIGI_TARE
              msgq_to_ad := startedState.msgq_to_ad ++
                [STX :: CMD_W :: CMD_W_DIGI_TARE ::
                  (printfZeroPadInt 8 1250 ++
                    [ETX, calculateBCC (CMD_W :: CMD_W_DIGI_TARE :: printfZeroPadInt 8 1250)])] })
    ∧ ((1250 : Int) = 1250 →
        STX :: CMD_W :: CMD_W_DIGI_TARE ::
          (printfZeroPadInt 8 1250 ++
            [ETX, calculateBCC (CMD_W :: CMD_W_DIGI_TARE :: printfZeroPadInt 8 1250)])
        = [0x02, 0x57, 0x55, 0x30, 0x30, 0x30, 0x30, 0x31, 0x32, 0x35, 0x30, 0x03, 0x04]) :=
  ad2k_SetDigitalTare_frame startedState 1250 (by decide) (by decide) (by decide)

theorem scaleProcedureFrAD_iter_response (cs : Bool) (junk : AD2kData) (st : LibState)
    (input content rest : List Nat) (n : Int)
    (h : fetchContent cs st.scale_fd 256 input = some (n, content, rest))
    (hn : n = 2 ∨ n = 5 ∨ n = 30 ∨ n = 42) :
    scaleProcedureFrAD_iter cs junk st input =
      some ({ st with
              msgq_fr_ad := processResponse junk st.msgq_fr_ad_id st.msgq_fr_ad
                (getResponse st.cmd_saved zeroResponse content n)
              waitRespFg := 0 }, rest) := by
  have e1 : (2 : Int) + (LEN_R_AD_VER : Int) = 5 := by decide
  have e2 : (2 : Int) + (LEN_RW_SPEC_DATA : Int) = 42 := by decide
  have e3 : (2 : Int) + (LEN_RW_SPAN_DATA : Int) = 30 := by decide
  have hn' : n = 2 ∨ n = 5 ∨ n = 42 ∨ n = 30 := by omega
  unfold scaleProcedureFrAD_iter
  rw [h]
  simp only [e1, e2, e3]
  rw [if_pos hn']

theorem sendCmd_cmd_saved (st : LibState) (type cmd : Nat) (data : Option (List Nat))
    (data_len timeout : Int) (hq : 0 ≤ st.msgq_to_ad_id) :
    (sendCmd st type cmd data data_len timeout).2.cmd_saved = cmd := by
  have hsend : ¬ (st.msgq_to_ad_id < 0 ∨ AD2K_MSG_DEFAULT ≤ 0) := by
    have : ¬ AD2K_MSG_DEFAULT ≤ 0 := by decide
    omega
  unfold sendCmd
  rw [if_neg (by omega)]
  simp only [msgq_send_msg, if_neg hsend]
  repeat' split
  all_goals rfl

/-- C16: reading the valid frame whose body is `'W'`, `r` (a write
acknowledgement with result `r`), the receive loop publishes one Response event
(tag `AD2K_MSG_RESP`) with type `'W'`, cmd = the saved command id, result `r`,
data_len 0 and an all-zero payload, and clears the busy flag; after
`ad2k_SetDigitalTare` the saved command id is `'U'`. -/
theorem write_ack_published (cs : Bool) (junk : AD2kData) (st : LibState) (r : Nat)
    (rest : List Nat) (hfd : 0 ≤ st.scale_fd) (hq : 0 ≤ st.msgq_fr_ad_id)
    (hr : r < 128) (hr3 : r ≠ ETX) :
    scaleProcedureFrAD_iter cs junk st
        (STX :: ([CMD_W, r] ++ ETX :: calculateBCC [CMD_W, r] :: rest))
      = some ({ st with
                msgq_fr_ad := [{ junk with
                  type := AD2K_MSG_RESP
                  response := ⟨CMD_W, st.cmd_saved, r, List.replicate 128 0, 0⟩ }]
                waitRespFg := 0 }, rest)
    ∧ ∀ (st0 : LibState) (t : Int), 0 ≤ st0.msgq_to_ad_id →
        (ad2k_SetDigitalTare st0 t).2.cmd_saved = CMD_W_DIGI_TARE := by
  constructor
  · have hbody : ∀ b ∈ [CMD_W, r], b < 256 ∧ b ≠ ETX := by
      intro b hb
      simp only [List.mem_cons, List.mem_singleton, List.mem_nil_iff, or_false] at hb
      rcases hb with h | h
      · subst h
        decide
      · subst h
        exact ⟨by omega, hr3⟩
    have hlt : calculateBCC [CMD_W, r] < 2 ^ 7 := by
      apply calculateBCC_lt 7 (by decide)
      intro b hb
      simp only [List.mem_cons, List.mem_singleton, List.mem_nil_iff, or_false] at hb
      rcases hb with h | h
      · subst h
        decide
      · subst h
        omega
    have hf := fetchContent_accepts cs st.scale_fd [CMD_W, r] rest hfd hbody (by simp)
      (Or.inr hlt)
    have hf' : fetchContent cs st.scale_fd 256
        (STX :: ([CMD_W, r] ++ ETX :: calculateBCC [CMD_W, r] :: rest))
        = some (2, [CMD_W, r], rest) := hf
    have hne : ¬ (CMD_W = CMD_R ∧ r = RSP_RW_OK) := fun h => absurd h.1 (by decide)
    have hg : getResponse st.cmd_saved zeroResponse [CMD_W, r] 2
        = ⟨CMD_W, st.cmd_saved, r, List.replicate 128 0, 0⟩ := by
      unfold getResponse
      rw [if_neg (by decide)]
      simp only [List.getD_cons_zero, List.getD_cons_succ, if_neg hne]
    rw [scaleProcedureFrAD_iter_response cs junk st _ _ rest 2 hf' (Or.inl rfl), hg,
      processResponse_raw junk _ _ _ hq hne]
  · intro st0 t h0
    unfold ad2k_SetDigitalTare sendWCmd
    exact sendCmd_cmd_saved st0 CMD_W CMD_W_DIGI_TARE _ _ _ h0

theorem write_ack_published_witness :
    scaleProcedureFrAD_iter true zeroAD2kData (ad2k_SetDigitalTare startedState 1250).2
        (STX :: ([CMD_W, RSP_RW_OK] ++ ETX :: calculateBCC [CMD_W, RSP_RW_OK] :: []))
      = some ({ (ad2k_SetDigitalTare startedState 1250).2 with
                msgq_fr_ad := [{ zeroAD2kData with
                  type := AD2K_MSG_RESP
                  response := ⟨CMD_W, (ad2k_SetDigitalTare startedState 1250).2.cmd_saved, RSP_RW_OK, List.replicate 128 0, 0⟩ }]
                waitRespFg := 0 }, [])
    ∧ ∀ (st0 : LibState) (t : Int), 0 ≤ st0.msgq_to_ad_id →
        (ad2k_SetDigitalTare st0 t).2.cmd_saved = CMD_W_DIGI_TARE :=
  write_ack_published true zeroAD2kData (ad2k_SetDigitalTare startedState 1250).2 RSP_RW_OK [] (by decide) (by decide) (by decide)
    (by decide)

theorem hexDigitUpper_isUpperHexChar : ∀ d < 16, IsUpperHexChar (hexDigitUpper d) := by
  decide

theorem hexByteToStr_isUpperHexChar (h : Nat) : ∀ c ∈ hexByteToStr h, IsUpperHexChar c := by
  have hle : h &&& 0xff ≤ 0xff := Nat.and_le_right
  intro c hc
  simp only [hexByteToStr, List.mem_cons, List.mem_singleton, List.mem_nil_iff, or_false] at hc
  rcases hc with hc | hc
  · rw [hc]
    exact hexDigitUpper_isUpperHexChar _ (by omega)
  · rw [hc]
    exact hexDigitUpper_isUpperHexChar _ (by omega)

theorem ad2k_HexToStr_five (l : List Nat) :
    ad2k_HexToStr l 5 = hexByteToStr (l.getD 0 0) ++ hexByteToStr (l.getD 1 0)
      ++ hexByteToStr (l.getD 2 0) ++ hexByteToStr (l.getD 3 0) ++ hexByteToStr (l.getD 4 0) := by
  have hr : List.range 5 = [0, 1, 2, 3, 4] := by decide
  simp only [ad2k_HexToStr, hr, List.flatMap_cons, List.flatMap_nil, List.append_nil,
    List.append_assoc]

/-- C17 (as stated, refuted): the payload `ad2k_SetSpecData` hands to `sendWCmd`
has `LEN_RW_SPEC_DATA` = 40 bytes, not 10; for the all-zero record the frame
enqueued is STX, `'W'`, `'C'`, forty `'0'`, ETX, 0x14. -/
theorem setSpecData_payload_not_ten :
    ad2k_SetSpecData startedState (some zeroSpecData)
      = sendWCmd startedState CMD_RW_SPEC_DATA (some (specDataToCmdData zeroSpecData))
          LEN_RW_SPEC_DATA TIME_OUT_SPEC_mSEC
    ∧ (specDataToCmdData zeroSpecData).length ≠ 10
    ∧ (LEN_RW_SPEC_DATA : Int) ≠ 10
    ∧ (ad2k_SetSpecData startedState (some zeroSpecData)).2.msgq_to_ad
      = [STX :: CMD_W :: CMD_RW_SPEC_DATA :: (List.replicate 40 0x30 ++ [ETX, 0x14])] := by
  decide

/-- C17 (amended): for every SpecData `s`, the payload `ad2k_SetSpecData` hands
to `sendWCmd` has length 40: its first 10 characters are the ASCII-hex string of
the 5 packed bytes, all of them from `0-9A-F`, and the other 30 are `'0'`. -/
theorem setSpecData_payload (st : LibState) (s : SpecData) :
    ad2k_SetSpecData st (some s)
      = sendWCmd st CMD_RW_SPEC_DATA (some (specDataToCmdData s)) 40 TIME_OUT_SPEC_mSEC
    ∧ (specDataToCmdData s).length = 40
    ∧ (specDataToCmdData s).take 10
      = hexByteToStr (specByte0 s) ++ hexByteToStr (specByte1 s) ++ hexByteToStr (specByte2 s)
        ++ hexByteToStr (specByte3 s) ++ hexByteToStr (specByte4 s)
    ∧ (∀ c ∈ (specDataToCmdData s).take 10, IsUpperHexChar c)
    ∧ (specDataToCmdData s).drop 10 = List.replicate 30 0x30 := by
  have h5 := ad2k_HexToStr_five (specBytes s)
  simp only [specBytes, List.getD_cons_zero, List.getD_cons_succ] at h5
  have hlen : (ad2k_HexToStr (specBytes s) 5).length = 10 := by
    rw [specBytes, h5]
    simp [hexByteToStr]
  have hpad : (List.replicate LEN_RW_SPEC_DATA 0x30).drop (2 * NBYTE_SPEC)
      = List.replicate 30 0x30 := by decide
  have htake : (specDataToCmdData s).take 10 = ad2k_HexToStr (specBytes s) 5 := by
    unfold specDataToCmdData
    rw [show NBYTE_SPEC = 5 from rfl]
    exact List.take_left' hlen
  refine ⟨rfl, ?_, ?_, ?_, ?_⟩
  · unfold specDataToCmdData
    rw [hpad, show NBYTE_SPEC = 5 from rfl, List.length_append, hlen]
    rfl
  · rw [htake, specBytes, h5]
  · rw [htake, specBytes, h5]
    intro c hc
    simp only [List.mem_append] at hc
    rcases hc with (((hc | hc) | hc) | hc) | hc <;> exact hexByteToStr_isUpperHexChar _ c hc
  · unfold specDataToCmdData
    rw [hpad, show NBYTE_SPEC = 5 from rfl]
    exact List.drop_left' hlen

/-! ## Theorems: SpecData layout -/

set_option synthInstance.maxSize 4000 in
theorem specByte0_layout_closed : ∀ v0 < 4, ∀ v1 < 2, ∀ v2 < 2, ∀ v3 < 4, ∀ v4 < 2, ∀ v5 < 2,
    specByte0 ({ zeroSpecData with wgtStabCond := v0, tareAcc := v1, tareSub := v2, startRange := v3, autoZeroReset := v4, tareAutoClear := v5 } : SpecData) = specLayoutByte0 ({ zeroSpecData with wgtStabCond := v0, tareAcc := v1, tareSub := v2, startRange := v3, autoZeroReset := v4, tareAutoClear := v5 } : SpecData) := by
  decide

theorem specByte0_layout (s : SpecData) (h0 : s.wgtStabCond < 4) (h1 : s.tareAcc < 2) (h2 : s.tareSub < 2) (h3 : s.startRange < 4) (h4 : s.autoZeroReset < 2) (h5 : s.tareAutoClear < 2) :
    specByte0 s = specLayoutByte0 s := by
  have hs : specByte0 s = specByte0 { zeroSpecData with wgtStabCond := s.wgtStabCond, tareAcc := s.tareAcc, tareSub := s.tareSub, startRange := s.startRange, autoZeroReset := s.autoZeroReset, tareAutoClear := s.tareAutoClear } := rfl
  have hl : specLayoutByte0 s = specLayoutByte0 { zeroSpecData with wgtStabCond := s.wgtStabCond, tareAcc := s.tareAcc, tareSub := s.tareSub, startRange := s.startRange, autoZeroReset := s.autoZeroReset, tareAutoClear := s.tareAutoClear } := rfl
  rw [hs, hl]
  exact specByte0_layout_closed _ h0 _ h1 _ h2 _ h3 _ h4 _ h5

set_option synthInstance.maxSize 4000 in
theorem specByte1_layout_closed : ∀ v0 < 2, ∀ v1 < 2, ∀ v2 < 2, ∀ v3 < 2, ∀ v4 < 2, ∀ v5 < 2, ∀ v6 < 2, ∀ v7 < 2,
    specByte1 ({ zeroSpecData with priTareOpe := v0, autoClearCond := v1, tareAutoClear2 := v2, zeroOn := v3, manTareCancel := v4, digiTare := v5, wgtReset := v6, zeroTrack := v7 } : SpecData) = specLayoutByte1 ({ zeroSpecData with priTareOpe := v0, autoClearCond := v1, tareAutoClear2 := v2, zeroOn := v3, manTareCancel := v4, digiTare := v5, wgtReset := v6, zeroTrack := v7 } : SpecData) := by
  decide

theorem specByte1_layout (s : SpecData) (h0 : s.priTareOpe < 2) (h1 : s.autoClearCond < 2) (h2 : s.tareAutoClear2 < 2) (h3 : s.zeroOn < 2) (h4 : s.manTareCancel < 2) (h5 : s.digiTare < 2) (h6 : s.wgtReset < 2) (h7 : s.zeroTrack < 2) :
    specByte1 s = specLayoutByte1 s := by
  have hs : specByte1 s = specByte1 { zeroSpecData with priTareOpe := s.priTareOpe, autoClearCond := s.autoClearCond, tareAutoClear2 := s.tareAutoClear2, zeroOn := s.zeroOn, manTareCancel := s.manTareCancel, digiTare := s.digiTare, wgtReset := s.wgtReset, zeroTrack := s.zeroTrack } := rfl
  have hl : specLayoutByte1 s = specLayoutByte1 { zeroSpecData with priTareOpe := s.priTareOpe, autoClearCond := s.autoClearCond, tareAutoClear2 := s.tareAutoClear2, zeroOn := s.zeroOn, manTareCancel := s.manTareCancel, digiTare := s.digiTare, wgtReset := s.wgtReset, zeroTrack := s.zeroTrack } := rfl
  rw [hs, hl]
  exact specByte1_layout_closed _ h0 _ h1 _ h2 _ h3 _ h4 _ h5 _ h6 _ h7

set_option synthInstance.maxSize 4000 in
theorem specByte2_layout_closed : ∀ v0 < 5, ∀ v1 < 4, ∀ v2 < 2, ∀ v3 < 2,
    specByte2 ({ zeroSpecData with posDecPoint1 := v0, reZeroRange := v1, reZeroFunc := v2, wtgSinMul1 := v3 } : SpecData) = specLayoutByte2 ({ zeroSpecData with posDecPoint1 := v0, reZeroRange := v1, reZeroFunc := v2, wtgSinMul1 := v3 } : SpecData) := by
  decide

theorem specByte2_layout (s : SpecData) (h0 : s.posDecPoint1 < 5) (h1 : s.reZeroRange < 4) (h2 : s.reZeroFunc < 2) (h3 : s.wtgSinMul1 < 2) :
    specByte2 s = specLayoutByte2 s := by
  have hs : specByte2 s = specByte2 { zeroSpecData with posDecPoint1 := s.posDecPoint1, reZeroRange := s.reZeroRange, reZeroFunc := s.reZeroFunc, wtgSinMul1 := s.wtgSinMul1 } := rfl
  have hl : specLayoutByte2 s = specLayoutByte2 { zeroSpecData with posDecPoint1 := s.posDecPoint1, reZeroRange := s.reZeroRange, reZeroFunc := s.reZeroFunc, wtgSinMul1 := s.wtgSinMul1 } := rfl
  rw [hs, hl]
  exact specByte2_layout_closed _ h0 _ h1 _ h2 _ h3

set_option synthInstance.maxSize 4000 in
theorem specByte3_layout_closed : ∀ v0 < 4, ∀ v1 < 2, ∀ v2 < 2,
    specByte3 ({ zeroSpecData with negWgtMsk := v0, tareRange := v1, decPointType := v2 } : SpecData) = specLayoutByte3 ({ zeroSpecData with negWgtMsk := v0, tareRange := v1, decPointType := v2 } : SpecData) := by
  decide

theorem specByte3_layout (s : SpecData) (h0 : s.negWgtMsk < 4) (h1 : s.tareRange < 2) (h2 : s.decPointType < 2) :
    specByte3 s = specLayoutByte3 s := by
  have hs : specByte3 s = specByte3 { zeroSpecData with negWgtMsk := s.negWgtMsk, tareRange := s.tareRange, decPointType := s.decPointType } := rfl
  have hl : specLayoutByte3 s = specLayoutByte3 { zeroSpecData with negWgtMsk := s.negWgtMsk, tareRange := s.tareRange, decPointType := s.decPointType } := rfl
  rw [hs, hl]
  exact specByte3_layout_closed _ h0 _ h1 _ h2

set_option synthInstance.maxSize 4000 in
theorem specByte4_layout_closed : ∀ v0 < 4,
    specByte4 ({ zeroSpecData with scale1FilterStrn := v0 } : SpecData) = specLayoutByte4 ({ zeroSpecData with scale1FilterStrn := v0 } : SpecData) := by
  decide

theorem specByte4_layout (s : SpecData) (h0 : s.scale1FilterStrn < 4) :
    specByte4 s = specLayoutByte4 s := by
  have hs : specByte4 s = specByte4 { zeroSpecData with scale1FilterStrn := s.scale1FilterStrn } := rfl
  have hl : specLayoutByte4 s = specLayoutByte4 { zeroSpecData with scale1FilterStrn := s.scale1FilterStrn } := rfl
  rw [hs, hl]
  exact specByte4_layout_closed _ h0


theorem specByte2_unused_closed : ∀ v0 < 5, ∀ v1 < 4, ∀ v2 < 2, ∀ v3 < 2,
    specByte2 ({ zeroSpecData with posDecPoint1 := v0, reZeroRange := v1, reZeroFunc := v2, wtgSinMul1 := v3 } : SpecData) &&& 0x10 = 0 := by
  decide

theorem specByte2_unused (s : SpecData) (h0 : s.posDecPoint1 < 5) (h1 : s.reZeroRange < 4) (h2 : s.reZeroFunc < 2) (h3 : s.wtgSinMul1 < 2) :
    specByte2 s &&& 0x10 = 0 := by
  have hs : specByte2 s = specByte2 { zeroSpecData with posDecPoint1 := s.posDecPoint1, reZeroRange := s.reZeroRange, reZeroFunc := s.reZeroFunc, wtgSinMul1 := s.wtgSinMul1 } := rfl
  rw [hs]
  exact specByte2_unused_closed _ h0 _ h1 _ h2 _ h3

theorem specByte3_unused_closed : ∀ v0 < 4, ∀ v1 < 2, ∀ v2 < 2,
    specByte3 ({ zeroSpecData with negWgtMsk := v0, tareRange := v1, decPointType := v2 } : SpecData) &&& 0x0F = 0 := by
  decide

theorem specByte3_unused (s : SpecData) (h0 : s.negWgtMsk < 4) (h1 : s.tareRange < 2) (h2 : s.decPointType < 2) :
    specByte3 s &&& 0x0F = 0 := by
  have hs : specByte3 s = specByte3 { zeroSpecData with negWgtMsk := s.negWgtMsk, tareRange := s.tareRange, decPointType := s.decPointType } := rfl
  rw [hs]
  exact specByte3_unused_closed _ h0 _ h1 _ h2

theorem specByte4_unused_closed : ∀ v0 < 4,
    specByte4 ({ zeroSpecData with scale1FilterStrn := v0 } : SpecData) &&& 0x3F = 0 := by
  decide

theorem specByte4_unused (s : SpecData) (h0 : s.scale1FilterStrn < 4) :
    specByte4 s &&& 0x3F = 0 := by
  have hs : specByte4 s = specByte4 { zeroSpecData with scale1FilterStrn := s.scale1FilterStrn } := rfl
  rw [hs]
  exact specByte4_unused_closed _ h0

/-- C18: for a valid SpecData each of the 5 bytes packed by `specDataToCmdData`
is the OR of every field's code shifted to the bit position the layout table
assigns, the unused bits (byte 2 bit 4, byte 3 bits 0-3, byte 4 bits 0-5) are
zero, and with wgtStabCond = tight, startRange = 50% and the other flags Allow
byte 0 is 0x88, emitted as the characters "88". -/
theorem specBytes_layout (s : SpecData) (hs : s.Valid) :
    specBytes s = [specLayoutByte0 s, specLayoutByte1 s, specLayoutByte2 s, specLayoutByte3 s,
      specLayoutByte4 s]
    ∧ specByte2 s &&& 0x10 = 0 ∧ specByte3 s &&& 0x0F = 0 ∧ specByte4 s &&& 0x3F = 0
    ∧ specByte0 ({ zeroSpecData with wgtStabCond := SV_WSC_TIGHT, startRange := SV_SR_50 } : SpecData) = 0x88
    ∧ (specDataToCmdData ({ zeroSpecData with wgtStabCond := SV_WSC_TIGHT, startRange := SV_SR_50 } : SpecData)).take 2 = [0x38, 0x38] := by
  obtain ⟨h1, h2, h3, h4, h5, h6, h7, h8, h9, h10, h11, h12, h13, h14, h15, h16, h17, h18, h19,
    _, h21, h22, _, _, h25, _⟩ := hs
  refine ⟨?_, specByte2_unused s h15 h16 h17 h18, specByte3_unused s h19 h22 h21,
    specByte4_unused s h25, by decide, by decide⟩
  rw [specBytes, specByte0_layout s h1 h2 h3 h4 h5 h6,
    specByte1_layout s h7 h8 h9 h10 h11 h12 h13 h14, specByte2_layout s h15 h16 h17 h18,
    specByte3_layout s h19 h22 h21, specByte4_layout s h25]

theorem specBytes_layout_witness :
    specBytes ({ zeroSpecData with wgtStabCond := SV_WSC_TIGHT, startRange := SV_SR_50 } : SpecData) = [specLayoutByte0 ({ zeroSpecData with wgtStabCond := SV_WSC_TIGHT, startRange := SV_SR_50 } : SpecData), specLayoutByte1 ({ zeroSpecData with wgtStabCond := SV_WSC_TIGHT, startRange := SV_SR_50 } : SpecData), specLayoutByte2 ({ zeroSpecData with wgtStabCond := SV_WSC_TIGHT, startRange := SV_SR_50 } : SpecData),
      specLayoutByte3 ({ zeroSpecData with wgtStabCond := SV_WSC_TIGHT, startRange := SV_SR_50 } : SpecData), specLayoutByte4 ({ zeroSpecData with wgtStabCond := SV_WSC_TIGHT, startRange := SV_SR_50 } : SpecData)]
    ∧ specByte2 ({ zeroSpecData with wgtStabCond := SV_WSC_TIGHT, startRange := SV_SR_50 } : SpecData) &&& 0x10 = 0 ∧ specByte3 ({ zeroSpecData with wgtStabCond := SV_WSC_TIGHT, startRange := SV_SR_50 } : SpecData) &&& 0x0F = 0 ∧ specByte4 ({ zeroSpecData with wgtStabCond := SV_WSC_TIGHT, startRange := SV_SR_50 } : SpecData) &&& 0x3F = 0
    ∧ specByte0 ({ zeroSpecData with wgtStabCond := SV_WSC_TIGHT, startRange := SV_SR_50 } : SpecData) = 0x88
    ∧ (specDataToCmdData ({ zeroSpecData with wgtStabCond := SV_WSC_TIGHT, startRange := SV_SR_50 } : SpecData)).take 2 = [0x38, 0x38] :=
  specBytes_layout ({ zeroSpecData with wgtStabCond := SV_WSC_TIGHT, startRange := SV_SR_50 } : SpecData) (by decide)

theorem hexDigitValue_lt (c : Nat) : hexDigitValue c < 16 := by
  unfold hexDigitValue
  split
  · omega
  · split
    · omega
    · split <;> omega

theorem strToNumLoop_hex_step (c : Nat) (rest : List Nat) (val sign : Int)
    (hc : IsHexDigit c) :
    strToNumLoop BASE_HEX 16 (c :: rest) val sign
      = strToNumLoop BASE_HEX 16 rest (val * 16 + (hexDigitValue c : Int)) sign := by
  have h1 : ¬ (BASE_HEX = BASE_BIN ∧ ¬ (c = 0x30 ∨ c = 0x31)) :=
    fun h => absurd h.1 (by decide)
  have h2 : ¬ (BASE_HEX = BASE_DEC ∧ ¬ (0x30 ≤ c ∧ c ≤ 0x39)) :=
    fun h => absurd h.1 (by decide)
  have h3 : ¬ (BASE_HEX = BASE_HEX ∧ ¬ (0x30 ≤ c ∧ c ≤ 0x39) ∧ ¬ (0x61 ≤ c ∧ c ≤ 0x66)
      ∧ ¬ (0x41 ≤ c ∧ c ≤ 0x46)) := by
    unfold IsHexDigit at hc
    intro h
    rcases hc with hc | hc | hc
    · exact h.2.1 hc
    · exact h.2.2.1 hc
    · exact h.2.2.2 hc
  have hnum : (if 0x30 ≤ c ∧ c ≤ 0x39 then (c : Int) - 0x30
        else if 0x61 ≤ c ∧ c ≤ 0x66 then (c : Int) - 0x61 + 0xa
        else if 0x41 ≤ c ∧ c ≤ 0x46 then (c : Int) - 0x41 + 0xa
        else 0) = (hexDigitValue c : Int) := by
    unfold hexDigitValue
    split
    · omega
    · split
      · omega
      · split
        · omega
        · rfl
  rw [strToNumLoop, if_neg h1, if_neg h2, if_neg h3]
  simp only [hnum]

theorem hexPairToByte_hexDigits (c0 c1 : Nat) (h0 : IsHexDigit c0) (h1 : IsHexDigit c1) :
    hexPairToByte c0 c1 = 16 * hexDigitValue c0 + hexDigitValue c1 := by
  have hc : cstr [c0, c1, 0] = [c0, c1] := by
    have e0 : (c0 != 0) = true := by
      unfold IsHexDigit at h0
      simp
      omega
    have e1 : (c1 != 0) = true := by
      unfold IsHexDigit at h1
      simp
      omega
    simp [cstr, List.takeWhile_cons, e0, e1]
  have hb1 : ¬ BASE_HEX = BASE_BIN := by decide
  have hb2 : ¬ BASE_HEX = BASE_DEC := by decide
  have l0 := hexDigitValue_lt c0
  have l1 := hexDigitValue_lt c1
  unfold hexPairToByte
  rw [hc, ad2k_StrToNum, if_neg hb1, if_neg hb2, if_pos rfl, strToNumLoop_hex_step _ _ _ _ h0,
    strToNumLoop_hex_step _ _ _ _ h1, strToNumLoop]
  omega

theorem strToHex_hexDigits (payload : List Nat) (hhex : ∀ i < 10, IsHexDigit (payload.getD i 0)) :
    ad2k_StrToHex payload NBYTE_SPEC = [hexPayloadByte payload 0, hexPayloadByte payload 1,
      hexPayloadByte payload 2, hexPayloadByte payload 3, hexPayloadByte payload 4] := by
  have hr : List.range 5 = [0, 1, 2, 3, 4] := by decide
  simp only [ad2k_StrToHex, NBYTE_SPEC, hr, List.map_cons, List.map_nil, strToHexByte,
    hexPayloadByte]
  rw [hexPairToByte_hexDigits _ _ (hhex 0 (by decide)) (hhex 1 (by decide)),
    hexPairToByte_hexDigits _ _ (hhex 2 (by decide)) (hhex 3 (by decide)),
    hexPairToByte_hexDigits _ _ (hhex 4 (by decide)) (hhex 5 (by decide)),
    hexPairToByte_hexDigits _ _ (hhex 6 (by decide)) (hhex 7 (by decide)),
    hexPairToByte_hexDigits _ _ (hhex 8 (by decide)) (hhex 9 (by decide))]

theorem hexPayloadByte_lt (payload : List Nat) (i : Nat) : hexPayloadByte payload i < 256 := by
  have l0 := hexDigitValue_lt (payload.getD (2 * i) 0)
  have l1 := hexDigitValue_lt (payload.getD (2 * i + 1) 0)
  unfold hexPayloadByte
  omega


set_option maxRecDepth 100000 in
theorem respSpecByte0_fields_closed : ∀ b < 256,
    (respSpecByte0 zeroSpecData b).tareAutoClear = bitField b 0 1 ∧ (respSpecByte0 zeroSpecData b).autoZeroReset = bitField b 1 1 ∧ (respSpecByte0 zeroSpecData b).startRange = bitField b 2 3 ∧ (respSpecByte0 zeroSpecData b).tareSub = bitField b 4 1 ∧ (respSpecByte0 zeroSpecData b).tareAcc = bitField b 5 1 ∧ (respSpecByte0 zeroSpecData b).wgtStabCond = bitField b 6 3 := by
  decide

set_option maxRecDepth 100000 in
theorem respSpecByte1_fields_closed : ∀ b < 256,
    (respSpecByte1 zeroSpecData b).zeroTrack = bitField b 0 1 ∧ (respSpecByte1 zeroSpecData b).wgtReset = bitField b 1 1 ∧ (respSpecByte1 zeroSpecData b).digiTare = bitField b 2 1 ∧ (respSpecByte1 zeroSpecData b).manTareCancel = bitField b 3 1 ∧ (respSpecByte1 zeroSpecData b).zeroOn = bitField b 4 1 ∧ (respSpecByte1 zeroSpecData b).tareAutoClear2 = bitField b 5 1 ∧ (respSpecByte1 zeroSpecData b).autoClearCond = bitField b 6 1 ∧ (respSpecByte1 zeroSpecData b).priTareOpe = bitField b 7 1 := by
  decide

set_option maxRecDepth 100000 in
theorem respSpecByte2_fields_closed : ∀ b < 256,
    (respSpecByte2 zeroSpecData b).wtgSinMul1 = bitField b 0 1 ∧ (respSpecByte2 zeroSpecData b).reZeroFunc = bitField b 1 1 ∧ (respSpecByte2 zeroSpecData b).reZeroRange = bitField b 2 3 ∧ (bitField b 5 7 ≤ 4 → (respSpecByte2 zeroSpecData b).posDecPoint1 = bitField b 5 7) := by
  decide

set_option maxRecDepth 100000 in
theorem respSpecByte3_fields_closed : ∀ b < 256,
    (respSpecByte3 zeroSpecData b).decPointType = bitField b 4 1 ∧ (respSpecByte3 zeroSpecData b).tareRange = bitField b 5 1 ∧ (respSpecByte3 zeroSpecData b).negWgtMsk = bitField b 6 3 := by
  decide

set_option maxRecDepth 100000 in
theorem respSpecByte4_fields_closed : ∀ b < 256,
    (respSpecByte4 zeroSpecData b).scale1FilterStrn = bitField b 6 3 := by
  decide

/-- C19: for a payload whose first 10 characters are hexadecimal digits, the 5
decoded bytes are the character pairs read as hexadecimal numbers, and each
field `respDataToSpecData` stores is the value of the bit range the layout table
assigns to it (posDecPoint1 for the codes 0 to 4). -/
theorem respDataToSpecData_layout (d : SpecData) (payload : List Nat)
    (hhex : ∀ i < 10, IsHexDigit (payload.getD i 0)) :
    ad2k_StrToHex payload NBYTE_SPEC = [hexPayloadByte payload 0, hexPayloadByte payload 1,
      hexPayloadByte payload 2, hexPayloadByte payload 3, hexPayloadByte payload 4]
    ∧ (respDataToSpecData d payload).tareAutoClear = bitField (hexPayloadByte payload 0) 0 1
    ∧ (respDataToSpecData d payload).autoZeroReset = bitField (hexPayloadByte payload 0) 1 1
    ∧ (respDataToSpecData d payload).startRange = bitField (hexPayloadByte payload 0) 2 3
    ∧ (respDataToSpecData d payload).tareSub = bitField (hexPayloadByte payload 0) 4 1
    ∧ (respDataToSpecData d payload).tareAcc = bitField (hexPayloadByte payload 0) 5 1
    ∧ (respDataToSpecData d payload).wgtStabCond = bitField (hexPayloadByte payload 0) 6 3
    ∧ (respDataToSpecData d payload).zeroTrack = bitField (hexPayloadByte payload 1) 0 1
    ∧ (respDataToSpecData d payload).wgtReset = bitField (hexPayloadByte payload 1) 1 1
    ∧ (respDataToSpecData d payload).digiTare = bitField (hexPayloadByte payload 1) 2 1
    ∧ (respDataToSpecData d payload).manTareCancel = bitField (hexPayloadByte payload 1) 3 1
    ∧ (respDataToSpecData d payload).zeroOn = bitField (hexPayloadByte payload 1) 4 1
    ∧ (respDataToSpecData d payload).tareAutoClear2 = bitField (hexPayloadByte payload 1) 5 1
    ∧ (respDataToSpecData d payload).autoClearCond = bitField (hexPayloadByte payload 1) 6 1
    ∧ (respDataToSpecData d payload).priTareOpe = bitField (hexPayloadByte payload 1) 7 1
    ∧ (respDataToSpecData d payload).wtgSinMul1 = bitField (hexPayloadByte payload 2) 0 1
    ∧ (respDataToSpecData d payload).reZeroFunc = bitField (hexPayloadByte payload 2) 1 1
    ∧ (respDataToSpecData d payload).reZeroRange = bitField (hexPayloadByte payload 2) 2 3
    ∧ (bitField (hexPayloadByte payload 2) 5 7 ≤ 4 → (respDataToSpecData d payload).posDecPoint1 = bitField (hexPayloadByte payload 2) 5 7)
    ∧ (respDataToSpecData d payload).decPointType = bitField (hexPayloadByte payload 3) 4 1
    ∧ (respDataToSpecData d payload).tareRange = bitField (hexPayloadByte payload 3) 5 1
    ∧ (respDataToSpecData d payload).negWgtMsk = bitField (hexPayloadByte payload 3) 6 3
    ∧ (respDataToSpecData d payload).scale1FilterStrn = bitField (hexPayloadByte payload 4) 6 3 := by
  have hb := strToHex_hexDigits payload hhex
  refine ⟨hb, ?_⟩
  unfold respDataToSpecData
  rw [hb]
  simp only [List.getD_cons_zero, List.getD_cons_succ]
  exact ⟨(respSpecByte0_fields_closed _ (hexPayloadByte_lt payload 0)).1,
    (respSpecByte0_fields_closed _ (hexPayloadByte_lt payload 0)).2.1,
    (respSpecByte0_fields_closed _ (hexPayloadByte_lt payload 0)).2.2.1,
    (respSpecByte0_fields_closed _ (hexPayloadByte_lt payload 0)).2.2.2.1,
    (respSpecByte0_fields_closed _ (hexPayloadByte_lt payload 0)).2.2.2.2.1,
    (respSpecByte0_fields_closed _ (hexPayloadByte_lt payload 0)).2.2.2.2.2,
    (respSpecByte1_fields_closed _ (hexPayloadByte_lt payload 1)).1,
    (respSpecByte1_fields_closed _ (hexPayloadByte_lt payload 1)).2.1,
    (respSpecByte1_fields_closed _ (hexPayloadByte_lt payload 1)).2.2.1,
    (respSpecByte1_fields_closed _ (hexPayloadByte_lt payload 1)).2.2.2.1,
    (respSpecByte1_fields_closed _ (hexPayloadByte_lt payload 1)).2.2.2.2.1,
    (respSpecByte1_fields_closed _ (hexPayloadByte_lt payload 1)).2.2.2.2.2.1,
    (respSpecByte1_fields_closed _ (hexPayloadByte_lt payload 1)).2.2.2.2.2.2.1,
    (respSpecByte1_fields_closed _ (hexPayloadByte_lt payload 1)).2.2.2.2.2.2.2,
    (respSpecByte2_fields_closed _ (hexPayloadByte_lt payload 2)).1,
    (respSpecByte2_fields_closed _ (hexPayloadByte_lt payload 2)).2.1,
    (respSpecByte2_fields_closed _ (hexPayloadByte_lt payload 2)).2.2.1,
    (respSpecByte2_fields_closed _ (hexPayloadByte_lt payload 2)).2.2.2,
    (respSpecByte3_fields_closed _ (hexPayloadByte_lt payload 3)).1,
    (respSpecByte3_fields_closed _ (hexPayloadByte_lt payload 3)).2.1,
    (respSpecByte3_fields_closed _ (hexPayloadByte_lt payload 3)).2.2,
    (respSpecByte4_fields_closed _ (hexPayloadByte_lt payload 4))⟩

theorem respDataToSpecData_layout_witness :
    ad2k_StrToHex [0x38, 0x38, 0x30, 0x30, 0x30, 0x30, 0x30, 0x30, 0x43, 0x30] NBYTE_SPEC = [hexPayloadByte [0x38, 0x38, 0x30, 0x30, 0x30, 0x30, 0x30, 0x30, 0x43, 0x30] 0, hexPayloadByte [0x38, 0x38, 0x30, 0x30, 0x30, 0x30, 0x30, 0x30, 0x43, 0x30] 1,
      hexPayloadByte [0x38, 0x38, 0x30, 0x30, 0x30, 0x30, 0x30, 0x30, 0x43, 0x30] 2, hexPayloadByte [0x38, 0x38, 0x30, 0x30, 0x30, 0x30, 0x30, 0x30, 0x43, 0x30] 3, hexPayloadByte [0x38, 0x38, 0x30, 0x30, 0x30, 0x30, 0x30, 0x30, 0x43, 0x30] 4]
    ∧ (respDataToSpecData zeroSpecData [0x38, 0x38, 0x30, 0x30, 0x30, 0x30, 0x30, 0x30, 0x43, 0x30]).tareAutoClear = bitField (hexPayloadByte [0x38, 0x38, 0x30, 0x30, 0x30, 0x30, 0x30, 0x30, 0x43, 0x30] 0) 0 1
    ∧ (respDataToSpecData zeroSpecData [0x38, 0x38, 0x30, 0x30, 0x30, 0x30, 0x30, 0x30, 0x43, 0x30]).autoZeroReset = bitField (hexPayloadByte [0x38, 0x38, 0x30, 0x30, 0x30, 0x30, 0x30, 0x30, 0x43, 0x30] 0) 1 1
    ∧ (respDataToSpecData zeroSpecData [0x38, 0x38, 0x30, 0x30, 0x30, 0x30, 0x30, 0x30, 0x43, 0x30]).startRange = bitField (hexPayloadByte [0x38, 0x38, 0x30, 0x30, 0x30, 0x30, 0x30, 0x30, 0x43, 0x30] 0) 2 3
    ∧ (respDataToSpecData zeroSpecData [0x38, 0x38, 0x30, 0x30, 0x30, 0x30, 0x30, 0x30, 0x43, 0x30]).tareSub = bitField (hexPayloadByte [0x38, 0x38, 0x30, 0x30, 0x30, 0x30, 0x30, 0x30, 0x43, 0x30] 0) 4 1
    ∧ (respDataToSpecData zeroSpecData [0x38, 0x38, 0x30, 0x30, 0x30, 0x30, 0x30, 0x30, 0x43, 0x30]).tareAcc = bitField (hexPayloadByte [0x38, 0x38, 0x30, 0x30, 0x30, 0x30, 0x30, 0x30, 0x43, 0x30] 0) 5 1
    ∧ (respDataToSpecData zeroSpecData [0x38, 0x38, 0x30, 0x30, 0x30, 0x30, 0x30, 0x30, 0x43, 0x30]).wgtStabCond = bitField (hexPayloadByte [0x38, 0x38, 0x30, 0x30, 0x30, 0x30, 0x30, 0x30, 0x43, 0x30] 0) 6 3
    ∧ (respDataToSpecData zeroSpecData [0x38, 0x38, 0x30, 0x30, 0x30, 0x30, 0x30, 0x30, 0x43, 0x30]).zeroTrack = bitField (hexPayloadByte [0x38, 0x38, 0x30, 0x30, 0x30, 0x30, 0x30, 0x30, 0x43, 0x30] 1) 0 1
    ∧ (respDataToSpecData zeroSpecData [0x38, 0x38, 0x30, 0x30, 0x30, 0x30, 0x30, 0x30, 0x43, 0x30]).wgtReset = bitField (hexPayloadByte [0x38, 0x38, 0x30, 0x30, 0x30, 0x30, 0x30, 0x30, 0x43, 0x30] 1) 1 1
    ∧ (respDataToSpecData zeroSpecData [0x38, 0x38, 0x30, 0x30, 0x30, 0x30, 0x30, 0x30, 0x43, 0x30]).digiTare = bitField (hexPayloadByte [0x38, 0x38, 0x30, 0x30, 0x30, 0x30, 0x30, 0x30, 0x43, 0x30] 1) 2 1
    ∧ (respDataToSpecData zeroSpecData [0x38, 0x38, 0x30, 0x30, 0x30, 0x30, 0x30, 0x30, 0x43, 0x30]).manTareCancel = bitField (hexPayloadByte [0x38, 0x38, 0x30, 0x30, 0x30, 0x30, 0x30, 0x30, 0x43, 0x30] 1) 3 1
    ∧ (respDataToSpecData zeroSpecData [0x38, 0x38, 0x30, 0x30, 0x30, 0x30, 0x30, 0x30, 0x43, 0x30]).zeroOn = bitField (hexPayloadByte [0x38, 0x38, 0x30, 0x30, 0x30, 0x30, 0x30, 0x30, 0x43, 0x30] 1) 4 1
    ∧ (respDataToSpecData zeroSpecData [0x38, 0x38, 0x30, 0x30, 0x30, 0x30, 0x30, 0x30, 0x43, 0x30]).tareAutoClear2 = bitField (hexPayloadByte [0x38, 0x38, 0x30, 0x30, 0x30, 0x30, 0x30, 0x30, 0x43, 0x30] 1) 5 1
    ∧ (respDataToSpecData zeroSpecData [0x38, 0x38, 0x30, 0x30, 0x30, 0x30, 0x30, 0x30, 0x43, 0x30]).autoClearCond = bitField (hexPayloadByte [0x38, 0x38, 0x30, 0x30, 0x30, 0x30, 0x30, 0x30, 0x43, 0x30] 1) 6 1
    ∧ (respDataToSpecData zeroSpecData [0x38, 0x38, 0x30, 0x30, 0x30, 0x30, 0x30, 0x30, 0x43, 0x30]).priTareOpe = bitField (hexPayloadByte [0x38, 0x38, 0x30, 0x30, 0x30, 0x30, 0x30, 0x30, 0x43, 0x30] 1) 7 1
    ∧ (respDataToSpecData zeroSpecData [0x38, 0x38, 0x30, 0x30, 0x30, 0x30, 0x30, 0x30, 0x43, 0x30]).wtgSinMul1 = bitField (hexPayloadByte [0x38, 0x38, 0x30, 0x30, 0x30, 0x30, 0x30, 0x30, 0x43, 0x30] 2) 0 1
    ∧ (respDataToSpecData zeroSpecData [0x38, 0x38, 0x30, 0x30, 0x30, 0x30, 0x30, 0x30, 0x43, 0x30]).reZeroFunc = bitField (hexPayloadByte [0x38, 0x38, 0x30, 0x30, 0x30, 0x30, 0x30, 0x30, 0x43, 0x30] 2) 1 1
    ∧ (respDataToSpecData zeroSpecData [0x38, 0x38, 0x30, 0x30, 0x30, 0x30, 0x30, 0x30, 0x43, 0x30]).reZeroRange = bitField (hexPayloadByte [0x38, 0x38, 0x30, 0x30, 0x30, 0x30, 0x30, 0x30, 0x43, 0x30] 2) 2 3
    ∧ (bitField (hexPayloadByte [0x38, 0x38, 0x30, 0x30, 0x30, 0x30, 0x30, 0x30, 0x43, 0x30] 2) 5 7 ≤ 4 → (respDataToSpecData zeroSpecData [0x38, 0x38, 0x30, 0x30, 0x30, 0x30, 0x30, 0x30, 0x43, 0x30]).posDecPoint1 = bitField (hexPayloadByte [0x38, 0x38, 0x30, 0x30, 0x30, 0x30, 0x30, 0x30, 0x43, 0x30] 2) 5 7)
    ∧ (respDataToSpecData zeroSpecData [0x38, 0x38, 0x30, 0x30, 0x30, 0x30, 0x30, 0x30, 0x43, 0x30]).decPointType = bitField (hexPayloadByte [0x38, 0x38, 0x30, 0x30, 0x30, 0x30, 0x30, 0x30, 0x43, 0x30] 3) 4 1
    ∧ (respDataToSpecData zeroSpecData [0x38, 0x38, 0x30, 0x30, 0x30, 0x30, 0x30, 0x30, 0x43, 0x30]).tareRange = bitField (hexPayloadByte [0x38, 0x38, 0x30, 0x30, 0x30, 0x30, 0x30, 0x30, 0x43, 0x30] 3) 5 1
    ∧ (respDataToSpecData zeroSpecData [0x38, 0x38, 0x30, 0x30, 0x30, 0x30, 0x30, 0x30, 0x43, 0x30]).negWgtMsk = bitField (hexPayloadByte [0x38, 0x38, 0x30, 0x30, 0x30, 0x30, 0x30, 0x30, 0x43, 0x30] 3) 6 3
    ∧ (respDataToSpecData zeroSpecData [0x38, 0x38, 0x30, 0x30, 0x30, 0x30, 0x30, 0x30, 0x43, 0x30]).scale1FilterStrn = bitField (hexPayloadByte [0x38, 0x38, 0x30, 0x30, 0x30, 0x30, 0x30, 0x30, 0x43, 0x30] 4) 6 3 :=
  respDataToSpecData_layout zeroSpecData [0x38, 0x38, 0x30, 0x30, 0x30, 0x30, 0x30, 0x30, 0x43, 0x30] (by decide)


set_option maxRecDepth 100000 in
theorem respSpecByte2_mask_closed : ∀ b < 256,
    respSpecByte2 zeroSpecData b = respSpecByte2 zeroSpecData (b &&& 0xEF) := by
  decide

theorem respSpecByte2_mask (d : SpecData) (b : Nat) (hb : b < 256) :
    respSpecByte2 d b = respSpecByte2 d (b &&& 0xEF) := by
  have hd : ∀ b, respSpecByte2 d b =
      { d with
        posDecPoint1 := (respSpecByte2 zeroSpecData b).posDecPoint1,
        reZeroRange := (respSpecByte2 zeroSpecData b).reZeroRange,
        reZeroFunc := (respSpecByte2 zeroSpecData b).reZeroFunc,
        wtgSinMul1 := (respSpecByte2 zeroSpecData b).wtgSinMul1 } := fun _ => rfl
  rw [hd b, hd (b &&& 0xEF), ← respSpecByte2_mask_closed b hb]

set_option maxRecDepth 100000 in
theorem respSpecByte3_mask_closed : ∀ b < 256,
    respSpecByte3 zeroSpecData b = respSpecByte3 zeroSpecData (b &&& 0xF0) := by
  decide

theorem respSpecByte3_mask (d : SpecData) (b : Nat) (hb : b < 256) :
    respSpecByte3 d b = respSpecByte3 d (b &&& 0xF0) := by
  have hd : ∀ b, respSpecByte3 d b =
      { d with
        negWgtMsk := (respSpecByte3 zeroSpecData b).negWgtMsk,
        tareRange := (respSpecByte3 zeroSpecData b).tareRange,
        decPointType := (respSpecByte3 zeroSpecData b).decPointType } := fun _ => rfl
  rw [hd b, hd (b &&& 0xF0), ← respSpecByte3_mask_closed b hb]

set_option maxRecDepth 100000 in
theorem respSpecByte4_mask_closed : ∀ b < 256,
    respSpecByte4 zeroSpecData b = respSpecByte4 zeroSpecData (b &&& 0xC0) := by
  decide

theorem respSpecByte4_mask (d : SpecData) (b : Nat) (hb : b < 256) :
    respSpecByte4 d b = respSpecByte4 d (b &&& 0xC0) := by
  have hd : ∀ b, respSpecByte4 d b =
      { d with
        scale1FilterStrn := (respSpecByte4 zeroSpecData b).scale1FilterStrn } := fun _ => rfl
  rw [hd b, hd (b &&& 0xC0), ← respSpecByte4_mask_closed b hb]

theorem strToHexByte_lt (str : List Nat) (i : Nat) : strToHexByte str i < 256 := by
  unfold strToHexByte hexPairToByte
  omega

theorem strToHex_getD_lt (str : List Nat) (n k : Nat) : (ad2k_StrToHex str n).getD k 0 < 256 := by
  unfold ad2k_StrToHex
  rw [List.getD_eq_getElem?_getD]
  by_cases hk : k < n
  · rw [List.getElem?_eq_getElem (by simpa using hk)]
    simp only [List.getElem_map, Option.getD_some]
    exact strToHexByte_lt _ _
  · rw [List.getElem?_eq_none (by simpa using hk)]
    decide

theorem strToHex_take_ten (p : List Nat) :
    ad2k_StrToHex (p.take 10) NBYTE_SPEC = ad2k_StrToHex p NBYTE_SPEC := by
  have hr : List.range 5 = [0, 1, 2, 3, 4] := by decide
  have hg : ∀ i < 10, (p.take 10).getD i 0 = p.getD i 0 := by
    intro i hi
    rw [List.getD_eq_getElem?_getD, List.getD_eq_getElem?_getD, List.getElem?_take_of_lt hi]
  simp only [ad2k_StrToHex, NBYTE_SPEC, hr, List.map_cons, List.map_nil, strToHexByte]
  rw [hg 0 (by decide), hg 1 (by decide), hg 2 (by decide), hg 3 (by decide), hg 4 (by decide),
    hg 5 (by decide), hg 6 (by decide), hg 7 (by decide), hg 8 (by decide), hg 9 (by decide)]

theorem respDataToSpecData_take_ten (d : SpecData) (p : List Nat) :
    respDataToSpecData d (p.take 10) = respDataToSpecData d p := by
  unfold respDataToSpecData
  rw [strToHex_take_ten]

/-- C20: two payloads whose 5 decoded bytes agree except in the unused bits
(byte 2 bit 4, byte 3 bits 0-3, byte 4 bits 0-5) are decoded by
`respDataToSpecData` to the same record, and so are two payloads with the same
first 10 characters. -/
theorem respDataToSpecData_ignores_unused (d : SpecData) (p q : List Nat)
    (h0 : (ad2k_StrToHex p NBYTE_SPEC).getD 0 0 = (ad2k_StrToHex q NBYTE_SPEC).getD 0 0)
    (h1 : (ad2k_StrToHex p NBYTE_SPEC).getD 1 0 = (ad2k_StrToHex q NBYTE_SPEC).getD 1 0)
    (h2 : (ad2k_StrToHex p NBYTE_SPEC).getD 2 0 &&& 0xEF
        = (ad2k_StrToHex q NBYTE_SPEC).getD 2 0 &&& 0xEF)
    (h3 : (ad2k_StrToHex p NBYTE_SPEC).getD 3 0 &&& 0xF0
        = (ad2k_StrToHex q NBYTE_SPEC).getD 3 0 &&& 0xF0)
    (h4 : (ad2k_StrToHex p NBYTE_SPEC).getD 4 0 &&& 0xC0
        = (ad2k_StrToHex q NBYTE_SPEC).getD 4 0 &&& 0xC0) :
    respDataToSpecData d p = respDataToSpecData d q
    ∧ ∀ p1 q1 : List Nat, p1.take 10 = q1.take 10 →
        respDataToSpecData d p1 = respDataToSpecData d q1 := by
  constructor
  · unfold respDataToSpecData
    simp only
    rw [h0, h1,
      respSpecByte2_mask _ _ (strToHex_getD_lt p NBYTE_SPEC 2),
      respSpecByte3_mask _ _ (strToHex_getD_lt p NBYTE_SPEC 3),
      respSpecByte4_mask _ _ (strToHex_getD_lt p NBYTE_SPEC 4), h2, h3, h4,
      ← respSpecByte2_mask _ _ (strToHex_getD_lt q NBYTE_SPEC 2),
      ← respSpecByte3_mask _ _ (strToHex_getD_lt q NBYTE_SPEC 3),
      ← respSpecByte4_mask _ _ (strToHex_getD_lt q NBYTE_SPEC 4)]
  · intro p1 q1 h
    rw [← respDataToSpecData_take_ten d p1, ← respDataToSpecData_take_ten d q1, h]

theorem respDataToSpecData_ignores_unused_witness :
    respDataToSpecData zeroSpecData [0x38, 0x38, 0x30, 0x30, 0x30, 0x30, 0x30, 0x30, 0x30, 0x30]
      = respDataToSpecData zeroSpecData [0x38, 0x38, 0x30, 0x30, 0x31, 0x30, 0x30, 0x46, 0x33, 0x46, 0x5A]
    ∧ ∀ p1 q1 : List Nat, p1.take 10 = q1.take 10 →
        respDataToSpecData zeroSpecData p1 = respDataToSpecData zeroSpecData q1 :=
  respDataToSpecData_ignores_unused zeroSpecData [0x38, 0x38, 0x30, 0x30, 0x30, 0x30, 0x30, 0x30, 0x30, 0x30]
    [0x38, 0x38, 0x30, 0x30, 0x31, 0x30, 0x30, 0x46, 0x33, 0x46, 0x5A] (by decide) (by decide) (by decide)
    (by decide) (by decide)

/-! ## Theorems: string codecs -/

theorem strToNumLoop_dec_digit (c : Nat) (t : List Nat) (val sign : Int)
    (hc : 0x30 ≤ c ∧ c ≤ 0x39) :
    strToNumLoop BASE_DEC 10 (c :: t) val sign
      = strToNumLoop BASE_DEC 10 t (val * 10 + ((c : Int) - 0x30)) sign := by
  have h1 : ¬ (BASE_DEC = BASE_BIN ∧ ¬ (c = 0x30 ∨ c = 0x31)) :=
    fun h => absurd h.1 (by decide)
  have h2 : ¬ (BASE_DEC = BASE_DEC ∧ ¬ (0x30 ≤ c ∧ c ≤ 0x39)) := fun h => h.2 hc
  have h3 : ¬ (BASE_DEC = BASE_HEX ∧ ¬ (0x30 ≤ c ∧ c ≤ 0x39) ∧ ¬ (0x61 ≤ c ∧ c ≤ 0x66)
      ∧ ¬ (0x41 ≤ c ∧ c ≤ 0x46)) := fun h => absurd h.1 (by decide)
  rw [strToNumLoop, if_neg h1, if_neg h2, if_neg h3]
  simp only [if_pos hc]

theorem strToNumLoop_dec_nondigit (c : Nat) (t : List Nat) (val sign : Int)
    (hc : ¬ (0x30 ≤ c ∧ c ≤ 0x39)) :
    strToNumLoop BASE_DEC 10 (c :: t) val sign
      = if c = 0x2D then strToNumLoop BASE_DEC 10 t 0 (-1)
        else if c = 0x2E ∨ c = 0x2C then strToNumLoop BASE_DEC 10 t val sign
        else 0 := by
  have h1 : ¬ (BASE_DEC = BASE_BIN ∧ ¬ (c = 0x30 ∨ c = 0x31)) :=
    fun h => absurd h.1 (by decide)
  have h2 : BASE_DEC = BASE_DEC ∧ ¬ (0x30 ≤ c ∧ c ≤ 0x39) := ⟨rfl, hc⟩
  rw [strToNumLoop, if_neg h1, if_pos h2]

theorem strToNumLoop_dec_spec (s : List Nat) (hs : ∀ c ∈ s, IsDecChar c) (val sign : Int) :
    strToNumLoop BASE_DEC 10 s val sign
      = if 0x2D ∈ s then -(decimalValue (digitsOf (afterLastMinus s)) : Int)
        else (val * 10 ^ (digitsOf s).length + (decimalValue (digitsOf s) : Int)) * sign := by
  induction s generalizing val sign with
  | nil => simp [strToNumLoop, digitsOf, decimalValue]
  | cons c t ih =>
    have ht : ∀ c ∈ t, IsDecChar c := fun x hx => hs x (List.mem_cons_of_mem c hx)
    have hc := hs c (List.mem_cons_self c t)
    by_cases hd : 0x30 ≤ c ∧ c ≤ 0x39
    · have hne : c ≠ 0x2D := by omega
      have hne' : ¬ (0x2D = c) := fun h => hne h.symm
      have hf : digitsOf (c :: t) = c :: digitsOf t := by
        simp [digitsOf, List.filter_cons, hd]
      rw [strToNumLoop_dec_digit c t val sign hd, ih ht]
      by_cases hm : 0x2D ∈ t
      · have hm' : 0x2D ∈ c :: t := List.mem_cons_of_mem c hm
        rw [if_pos hm, if_pos hm', afterLastMinus, if_pos hm]
      · have hm' : ¬ 0x2D ∈ c :: t := by
          rw [List.mem_cons]
          exact fun h => h.elim hne' hm
        rw [if_neg hm, if_neg hm', hf, decimalValue_cons, List.length_cons]
        have : ((c - 0x30 : Nat) : Int) = (c : Int) - 0x30 := by omega
        push_cast
        rw [this]
        ring
    · rw [strToNumLoop_dec_nondigit c t val sign hd]
      have hf : digitsOf (c :: t) = digitsOf t := by
        simp [digitsOf, List.filter_cons, hd]
      by_cases hminus : c = 0x2D
      · have hm' : 0x2D ∈ c :: t := by
          rw [hminus]
          exact List.mem_cons_self _ _
        rw [if_pos hminus, if_pos hm', ih ht, afterLastMinus]
        by_cases hm : 0x2D ∈ t
        · rw [if_pos hm, if_pos hm]
        · rw [if_neg hm, if_neg hm, if_pos hminus]
          ring
      · have hdot : c = 0x2E ∨ c = 0x2C := by
          unfold IsDecChar at hc
          rcases hc with h | h | h
          · exact absurd h hd
          · exact absurd h hminus
          · exact h
        have hne' : ¬ (0x2D = c) := fun h => hminus h.symm
        rw [if_neg hminus, if_pos hdot, ih ht]
        by_cases hm : 0x2D ∈ t
        · have hm' : 0x2D ∈ c :: t := List.mem_cons_of_mem c hm
          rw [if_pos hm, if_pos hm', afterLastMinus, if_pos hm]
        · have hm' : ¬ 0x2D ∈ c :: t := by
            rw [List.mem_cons]
            exact fun h => h.elim hne' hm
          rw [if_neg hm, if_neg hm', hf]

/-- C22: for a string over the characters `'0'`-`'9'`, `'-'`, `'.'`, `','`,
`ad2k_StrToNum(s, BASE_DEC)` is the sign times the decimal value of the digits
that occur after the last `'-'` (all digits when there is none), where the sign
is -1 when the string contains a `'-'` and +1 otherwise. -/
theorem ad2k_StrToNum_dec (s : List Nat) (hs : ∀ c ∈ s, IsDecChar c) :
    ad2k_StrToNum s BASE_DEC
      = (if 0x2D ∈ s then -1 else 1) * (decimalValue (digitsOf (afterLastMinus s)) : Int) := by
  have h1 : ¬ BASE_DEC = BASE_BIN := by decide
  have hnone : ¬ 0x2D ∈ s → afterLastMinus s = s := by
    intro h
    induction s with
    | nil => rfl
    | cons c t ih =>
      rw [List.mem_cons, not_or] at h
      rw [afterLastMinus, if_neg h.2, if_neg (fun hc => h.1 hc.symm)]
  rw [ad2k_StrToNum, if_neg h1, if_pos rfl, strToNumLoop_dec_spec s hs]
  by_cases hm : 0x2D ∈ s
  · rw [if_pos hm, if_pos hm]
    ring
  · rw [if_neg hm, if_neg hm, hnone hm]
    ring

theorem ad2k_StrToNum_dec_witness :
    ad2k_StrToNum [0x31, 0x32, 0x2D, 0x30, 0x2E, 0x35] BASE_DEC
      = (if 0x2D ∈ [0x31, 0x32, 0x2D, 0x30, 0x2E, 0x35] then -1 else 1)
        * (decimalValue (digitsOf (afterLastMinus [0x31, 0x32, 0x2D, 0x30, 0x2E, 0x35])) : Int) :=
  ad2k_StrToNum_dec [0x31, 0x32, 0x2D, 0x30, 0x2E, 0x35] (by decide)

theorem strToNumLoop_bin_zero (s : List Nat) (val sign base : Int)
    (h : ∃ c ∈ s, ¬ IsBinChar c) : strToNumLoop BASE_BIN base s val sign = 0 := by
  induction s generalizing val with
  | nil => simp at h
  | cons c t ih =>
    by_cases hc : c = 0x30 ∨ c = 0x31
    · have ht : ∃ x ∈ t, ¬ IsBinChar x := by
        obtain ⟨x, hx, hn⟩ := h
        rcases List.mem_cons.mp hx with e | e
        · exact absurd (e ▸ hc) hn
        · exact ⟨x, e, hn⟩
      have h1 : ¬ (BASE_BIN = BASE_BIN ∧ ¬ (c = 0x30 ∨ c = 0x31)) := fun h => h.2 hc
      have h2 : ¬ (BASE_BIN = BASE_DEC ∧ ¬ (0x30 ≤ c ∧ c ≤ 0x39)) :=
        fun h => absurd h.1 (by decide)
      have h3 : ¬ (BASE_BIN = BASE_HEX ∧ ¬ (0x30 ≤ c ∧ c ≤ 0x39) ∧ ¬ (0x61 ≤ c ∧ c ≤ 0x66)
          ∧ ¬ (0x41 ≤ c ∧ c ≤ 0x46)) := fun h => absurd h.1 (by decide)
      rw [strToNumLoop, if_neg h1, if_neg h2, if_neg h3]
      exact ih _ ht
    · have h1 : BASE_BIN = BASE_BIN ∧ ¬ (c = 0x30 ∨ c = 0x31) := ⟨rfl, hc⟩
      rw [strToNumLoop, if_pos h1]

theorem strToNumLoop_dec_zero (s : List Nat) (val sign : Int)
    (h : ∃ c ∈ s, ¬ IsDecChar c) : strToNumLoop BASE_DEC 10 s val sign = 0 := by
  induction s generalizing val sign with
  | nil => simp at h
  | cons c t ih =>
    by_cases hc : IsDecChar c
    · have ht : ∃ x ∈ t, ¬ IsDecChar x := by
        obtain ⟨x, hx, hn⟩ := h
        rcases List.mem_cons.mp hx with e | e
        · exact absurd (e ▸ hc) hn
        · exact ⟨x, e, hn⟩
      by_cases hd : 0x30 ≤ c ∧ c ≤ 0x39
      · rw [strToNumLoop_dec_digit c t val sign hd]
        exact ih _ _ ht
      · rw [strToNumLoop_dec_nondigit c t val sign hd]
        split
        · exact ih _ _ ht
        · split
          · exact ih _ _ ht
          · rfl
    · have hd : ¬ (0x30 ≤ c ∧ c ≤ 0x39) := fun h => hc (Or.inl h)
      have h1 : ¬ c = 0x2D := fun h => hc (Or.inr (Or.inl h))
      have h2 : ¬ (c = 0x2E ∨ c = 0x2C) := fun h => hc (Or.inr (Or.inr h))
      rw [strToNumLoop_dec_nondigit c t val sign hd, if_neg h1, if_neg h2]

theorem strToNumLoop_hex_zero (s : List Nat) (val sign : Int)
    (h : ∃ c ∈ s, ¬ IsHexDigit c) : strToNumLoop BASE_HEX 16 s val sign = 0 := by
  induction s generalizing val with
  | nil => simp at h
  | cons c t ih =>
    by_cases hc : IsHexDigit c
    · have ht : ∃ x ∈ t, ¬ IsHexDigit x := by
        obtain ⟨x, hx, hn⟩ := h
        rcases List.mem_cons.mp hx with e | e
        · exact absurd (e ▸ hc) hn
        · exact ⟨x, e, hn⟩
      rw [strToNumLoop_hex_step c t val sign hc]
      exact ih _ ht
    · have h1 : ¬ (BASE_HEX = BASE_BIN ∧ ¬ (c = 0x30 ∨ c = 0x31)) :=
        fun h => absurd h.1 (by decide)
      have h2 : ¬ (BASE_HEX = BASE_DEC ∧ ¬ (0x30 ≤ c ∧ c ≤ 0x39)) :=
        fun h => absurd h.1 (by decide)
      have h3 : BASE_HEX = BASE_HEX ∧ ¬ (0x30 ≤ c ∧ c ≤ 0x39) ∧ ¬ (0x61 ≤ c ∧ c ≤ 0x66)
          ∧ ¬ (0x41 ≤ c ∧ c ≤ 0x46) := by
        unfold IsHexDigit at hc
        exact ⟨rfl, fun h => hc (Or.inl h), fun h => hc (Or.inr (Or.inl h)),
          fun h => hc (Or.inr (Or.inr h))⟩
      rw [strToNumLoop, if_neg h1, if_neg h2, if_pos h3]

/-- C23: a string that contains a character not allowed in the chosen base
makes `ad2k_StrToNum` return 0, whatever its other characters are; the empty
string gives 0 in every base, and an unknown base flag gives 0 for every
string. -/
theorem ad2k_StrToNum_silent_zero (s : List Nat) (base_fg : Int)
    (h : ∃ c ∈ s, ¬ allowedChar base_fg c) :
    ad2k_StrToNum s base_fg = 0
    ∧ (∀ b : Int, ad2k_StrToNum [] b = 0)
    ∧ (∀ (b : Int) (t : List Nat), b ≠ BASE_BIN → b ≠ BASE_DEC → b ≠ BASE_HEX →
        ad2k_StrToNum t b = 0) := by
  refine ⟨?_, ?_, ?_⟩
  · obtain ⟨c, hc, hn⟩ := h
    unfold allowedChar at hn
    unfold ad2k_StrToNum
    by_cases hb : base_fg = BASE_BIN
    · subst hb
      rw [if_pos rfl]
      exact strToNumLoop_bin_zero s 0 1 2 ⟨c, hc, fun h => hn (Or.inl ⟨rfl, h⟩)⟩
    · rw [if_neg hb]
      by_cases hd : base_fg = BASE_DEC
      · subst hd
        rw [if_pos rfl]
        exact strToNumLoop_dec_zero s 0 1 ⟨c, hc, fun h => hn (Or.inr (Or.inl ⟨rfl, h⟩))⟩
      · rw [if_neg hd]
        by_cases hh : base_fg = BASE_HEX
        · subst hh
          rw [if_pos rfl]
          exact strToNumLoop_hex_zero s 0 1 ⟨c, hc, fun h => hn (Or.inr (Or.inr ⟨rfl, h⟩))⟩
        · rw [if_neg hh]
  · intro b
    unfold ad2k_StrToNum
    split
    · rfl
    · split
      · rfl
      · split <;> rfl
  · intro b t h1 h2 h3
    rw [ad2k_StrToNum, if_neg h1, if_neg h2, if_neg h3]

theorem ad2k_StrToNum_silent_zero_witness :
    ad2k_StrToNum [0x31, 0x32, 0x78, 0x33] BASE_DEC = 0
    ∧ (∀ b : Int, ad2k_StrToNum [] b = 0)
    ∧ (∀ (b : Int) (t : List Nat), b ≠ BASE_BIN → b ≠ BASE_DEC → b ≠ BASE_HEX →
        ad2k_StrToNum t b = 0) :=
  ad2k_StrToNum_silent_zero [0x31, 0x32, 0x78, 0x33] BASE_DEC (by decide)

theorem drop_takeWhile_length (p : Nat → Bool) (l : List Nat) :
    l.drop (l.takeWhile p).length = l.dropWhile p := by
  induction l with
  | nil => rfl
  | cons c t ih =>
    by_cases hc : p c = true
    · simp [List.takeWhile_cons, List.dropWhile_cons, hc, ih]
    · simp [List.takeWhile_cons, List.dropWhile_cons, hc]

theorem dropWhile_eq_nil_iff_length (p : Nat → Bool) (l : List Nat) :
    l.dropWhile p = [] ↔ ¬ (l.takeWhile p).length < l.length := by
  have h := List.takeWhile_append_dropWhile p l
  have hl : (l.takeWhile p).length + (l.dropWhile p).length = l.length := by
    rw [← List.length_append, h]
  constructor
  · intro e
    rw [e] at hl
    simp at hl
    omega
  · intro e
    apply List.eq_nil_of_length_eq_zero
    omega

theorem cutHeadZero_digits_strip (r : List Nat) (hr : IsDigits r) :
    cutHeadZero r = stripLeadingZeros r := by
  rw [cutHeadZero_digits r hr, stripLeadingZeros, drop_takeWhile_length]
  by_cases h : (r.takeWhile (fun c => c == 0x30)).length < r.length
  · rw [if_pos h, if_neg (fun e => (dropWhile_eq_nil_iff_length _ r).mp e h)]
  · rw [if_neg h, if_pos ((dropWhile_eq_nil_iff_length _ r).mpr h)]

theorem cutHeadZero_minus_digits (r : List Nat) (hr : IsDigits r) :
    cutHeadZero (0x2D :: r) = 0x2D :: stripLeadingZeros r := by
  have hdot : (0x2D :: r).indexOf 0x2E = (0x2D :: r).length := by
    apply List.indexOf_eq_length.mpr
    intro h
    rcases List.mem_cons.mp h with e | e
    · exact absurd e (by decide)
    · have := hr _ e
      omega
  have hcomma : (0x2D :: r).indexOf 0x2C = (0x2D :: r).length := by
    apply List.indexOf_eq_length.mpr
    intro h
    rcases List.mem_cons.mp h with e | e
    · exact absurd e (by decide)
    · have := hr _ e
      omega
  have hminus : (0x2D :: r).indexOf 0x2D = 0 := by simp [List.indexOf_cons]
  have hpos : 0 < r.length + 1 := by omega
  unfold cutHeadZero
  simp only [hminus, hdot, hcomma, List.length_cons, hpos, if_true, lt_irrefl, if_false,
    Nat.zero_add, List.drop_succ_cons, List.drop_zero, Nat.add_sub_cancel,
    List.take_length, List.singleton_append, List.cons_append, List.nil_append]
  rw [stripLeadingZeros]
  have hq : ∀ k, List.drop (1 + k) (0x2D :: r) = List.drop k r := by
    intro k
    rw [Nat.add_comm, List.drop_succ_cons]
  rw [hq, drop_takeWhile_length]
  by_cases h : (r.takeWhile (fun c => c == 0x30)).length < r.length
  · have h' : 1 + (r.takeWhile (fun c => c == 0x30)).length < r.length + 1 := by omega
    rw [if_pos h', if_neg (fun e => (dropWhile_eq_nil_iff_length _ r).mp e h)]
  · have h' : ¬ 1 + (r.takeWhile (fun c => c == 0x30)).length < r.length + 1 := by omega
    have e := (dropWhile_eq_nil_iff_length _ r).mpr h
    rw [if_neg h', if_pos e, e]

theorem stripLeadingZeros_no_leading_zero (r : List Nat) (rest : List Nat)
    (h : stripLeadingZeros r = 0x30 :: rest) : rest = [] := by
  unfold stripLeadingZeros at h
  split at h
  · simpa using h.symm
  · rename_i hne
    have hhead := List.head_dropWhile_not (fun c => c == 0x30) r
    rw [h] at hhead
    simp at hhead

/-- C25: for a string of decimal digits `r`, `cutHeadZero r` is `r` without its
leading zeros, or `"0"` when every digit is zero, and `cutHeadZero ('-' :: r)` is
`'-'` followed by the same; the trimmed digits never start with a zero that is
followed by another character; `"00001000"` gives `"1000"`, `"00000000"` gives
`"0"` and `"-0000005"` gives `"-5"`. -/
theorem cutHeadZero_spec (r : List Nat) (hr : IsDigits r) :
    cutHeadZero r = stripLeadingZeros r
    ∧ cutHeadZero (0x2D :: r) = 0x2D :: stripLeadingZeros r
    ∧ (∀ rest, stripLeadingZeros r = 0x30 :: rest → rest = [])
    ∧ cutHeadZero [0x30, 0x30, 0x30, 0x30, 0x31, 0x30, 0x30, 0x30] = [0x31, 0x30, 0x30, 0x30]
    ∧ cutHeadZero [0x30, 0x30, 0x30, 0x30, 0x30, 0x30, 0x30, 0x30] = [0x30]
    ∧ cutHeadZero [0x2D, 0x30, 0x30, 0x30, 0x30, 0x30, 0x30, 0x35] = [0x2D, 0x35] :=
  ⟨cutHeadZero_digits_strip r hr, cutHeadZero_minus_digits r hr,
    stripLeadingZeros_no_leading_zero r, by decide, by decide, by decide⟩

theorem cutHeadZero_spec_witness :
    cutHeadZero [0x30, 0x30, 0x37] = stripLeadingZeros [0x30, 0x30, 0x37]
    ∧ cutHeadZero (0x2D :: [0x30, 0x30, 0x37]) = 0x2D :: stripLeadingZeros [0x30, 0x30, 0x37]
    ∧ (∀ rest, stripLeadingZeros [0x30, 0x30, 0x37] = 0x30 :: rest → rest = [])
    ∧ cutHeadZero [0x30, 0x30, 0x30, 0x30, 0x31, 0x30, 0x30, 0x30] = [0x31, 0x30, 0x30, 0x30]
    ∧ cutHeadZero [0x30, 0x30, 0x30, 0x30, 0x30, 0x30, 0x30, 0x30] = [0x30]
    ∧ cutHeadZero [0x2D, 0x30, 0x30, 0x30, 0x30, 0x30, 0x30, 0x35] = [0x2D, 0x35] :=
  cutHeadZero_spec [0x30, 0x30, 0x37] (by decide)

theorem ad2k_HexToStr_eq_flatMap (b : List Nat) :
    ad2k_HexToStr b b.length = b.flatMap hexByteToStr := by
  unfold ad2k_HexToStr
  induction b with
  | nil => rfl
  | cons x t ih =>
    rw [List.length_cons, List.range_succ_eq_map, List.flatMap_cons, List.flatMap_map,
      List.flatMap_cons]
    simp only [List.getD_cons_zero, List.getD_cons_succ]
    rw [← ih]

theorem ad2k_StrToHex_cons_cons (c0 c1 : Nat) (rest : List Nat) (n : Nat) :
    ad2k_StrToHex (c0 :: c1 :: rest) (n + 1) = hexPairToByte c0 c1 :: ad2k_StrToHex rest n := by
  unfold ad2k_StrToHex
  rw [List.range_succ_eq_map, List.map_cons, List.map_map]
  congr 1
  apply List.map_congr_left
  intro i _
  simp only [Function.comp, strToHexByte]
  have e1 : (i + 1) * 2 = i * 2 + 1 + 1 := by ring
  rw [e1, List.getD_cons_succ, List.getD_cons_succ, List.getD_cons_succ,
    List.getD_cons_succ]

theorem strToHex_hexToStr (b t : List Nat) (hb : ∀ x ∈ b, x < 256) :
    ad2k_StrToHex (ad2k_HexToStr b b.length ++ t) b.length = b := by
  rw [ad2k_HexToStr_eq_flatMap]
  induction b with
  | nil => rfl
  | cons x r ih =>
    rw [List.flatMap_cons, List.length_cons]
    show ad2k_StrToHex (hexDigitUpper ((x &&& 0xff) / 16) :: hexDigitUpper ((x &&& 0xff) % 16)
      :: (r.flatMap hexByteToStr ++ t)) (r.length + 1) = x :: r
    rw [ad2k_StrToHex_cons_cons, hexPairToByte_hexByteToStr x (hb x (List.mem_cons_self x r)),
      ih (fun y hy => hb y (List.mem_cons_of_mem x hy))]

theorem ad2k_HexToStr_length (b : List Nat) : (ad2k_HexToStr b b.length).length = 2 * b.length := by
  rw [ad2k_HexToStr_eq_flatMap]
  induction b with
  | nil => rfl
  | cons x r ih =>
    rw [List.flatMap_cons, List.length_append, ih, List.length_cons]
    simp only [hexByteToStr, List.length_cons, List.length_nil]
    omega

/-- C24: for a byte array `b` of length `n`, `ad2k_HexToStr` writes exactly `2n`
characters, all from `0-9A-F`, two per byte with the high nibble first and no
separator, and `ad2k_StrToHex` applied to these characters (whatever follows
them) with the same `n` returns `b`. -/
theorem hex_codec_roundtrip (b t : List Nat) (hb : ∀ x ∈ b, x < 256) :
    (ad2k_HexToStr b b.length).length = 2 * b.length
    ∧ (∀ c ∈ ad2k_HexToStr b b.length, IsUpperHexChar c)
    ∧ ad2k_HexToStr b b.length
        = b.flatMap (fun x => [hexDigitUpper (x / 16), hexDigitUpper (x % 16)])
    ∧ ad2k_StrToHex (ad2k_HexToStr b b.length ++ t) b.length = b := by
  refine ⟨ad2k_HexToStr_length b, ?_, ?_, strToHex_hexToStr b t hb⟩
  · rw [ad2k_HexToStr_eq_flatMap]
    intro c hc
    rw [List.mem_flatMap] at hc
    obtain ⟨x, _, hx⟩ := hc
    exact hexByteToStr_isUpperHexChar x c hx
  · rw [ad2k_HexToStr_eq_flatMap]
    apply List.flatMap_congr
    intro x hx
    have hlt := hb x hx
    have hand : x &&& 0xff = x := by
      have : (0xff : Nat) = 2 ^ 8 - 1 := by decide
      rw [this, Nat.and_pow_two_sub_one_eq_mod]
      exact Nat.mod_eq_of_lt hlt
    simp only [hexByteToStr, hand]

theorem hex_codec_roundtrip_witness :
    (ad2k_HexToStr [0x88, 0x00, 0xFF] [0x88, 0x00, 0xFF].length).length
      = 2 * [0x88, 0x00, 0xFF].length
    ∧ (∀ c ∈ ad2k_HexToStr [0x88, 0x00, 0xFF] [0x88, 0x00, 0xFF].length, IsUpperHexChar c)
    ∧ ad2k_HexToStr [0x88, 0x00, 0xFF] [0x88, 0x00, 0xFF].length
        = [0x88, 0x00, 0xFF].flatMap (fun x => [hexDigitUpper (x / 16), hexDigitUpper (x % 16)])
    ∧ ad2k_StrToHex (ad2k_HexToStr [0x88, 0x00, 0xFF] [0x88, 0x00, 0xFF].length ++ [0x30])
        [0x88, 0x00, 0xFF].length = [0x88, 0x00, 0xFF] :=
  hex_codec_roundtrip [0x88, 0x00, 0xFF] [0x30] (by decide)

theorem strToHex_hexDigits_status (chars : List Nat)
    (hhex : ∀ i < 6, IsHexDigit (chars.getD i 0)) :
    ad2k_StrToHex chars NBYTE_NI_STATUS
      = [hexPayloadByte chars 0, hexPayloadByte chars 1, hexPayloadByte chars 2] := by
  have hr : List.range 3 = [0, 1, 2] := by decide
  simp only [ad2k_StrToHex, NBYTE_NI_STATUS, hr, List.map_cons, List.map_nil, strToHexByte,
    hexPayloadByte]
  rw [hexPairToByte_hexDigits _ _ (hhex 0 (by decide)) (hhex 1 (by decide)),
    hexPairToByte_hexDigits _ _ (hhex 2 (by decide)) (hhex 3 (by decide)),
    hexPairToByte_hexDigits _ _ (hhex 4 (by decide)) (hhex 5 (by decide))]

theorem getNIData_status (c0 c9 c10 c19 c20 : Nat) (r1 r2 tail : List Nat)
    (h1 : r1.length = 8) (h2 : r2.length = 8)
    (hmode : (c0 = 0x30 ∧ c10 = 0x34) ∨ (c0 = 0x61 ∧ c10 = 0x69)) :
    (getNIData zeroNIData (telemetryBody c0 r1 c9 c10 r2 c19 c20 tail)).status
        = ad2k_StrToHex tail NBYTE_NI_STATUS := by
  obtain ⟨p0, p10, p1, p11, p21⟩ := niContent_parts c0 c9 c10 c19 c20 r1 r2 tail h1 h2
  unfold getNIData telemetryBody
  simp only [p0, p10, p1, p11, p21]
  rcases hmode with ⟨a, b⟩ | ⟨a, b⟩
  · subst a b
    rw [if_pos (by decide)]
  · subst a b
    rw [if_neg (by decide), if_pos (by decide)]

theorem NIDataToScaleData_flags (junk : ScaleData) (ni : NIData) :
    (NIDataToScaleData junk ni).tareFg = (if ni.status.getD 0 0 &&& 0x01 ≠ 0 then 1 else 0)
    ∧ (NIDataToScaleData junk ni).zeroPointFg
        = (if (ni.status.getD 0 0 >>> 3) &&& 0x01 ≠ 0 then 1 else 0)
    ∧ (NIDataToScaleData junk ni).stabilizeFg
        = (if (ni.status.getD 0 0 >>> 3 >>> 1) &&& 0x01 ≠ 0 then 1 else 0)
    ∧ (NIDataToScaleData junk ni).underOverFlowFg
        = ((((ni.status.getD 0 0 >>> 3 >>> 1 >>> 2) &&& 0x03) &&& 0xff : Nat) : Int)
    ∧ (NIDataToScaleData junk ni).spanSwFg
        = (if (ni.status.getD 1 0 >>> 3) &&& 0x01 ≠ 0 then 1 else 0)
    ∧ (NIDataToScaleData junk ni).oneTouchTareFg
        = (if ni.status.getD 2 0 &&& 0x01 ≠ 0 then 1 else 0)
    ∧ (NIDataToScaleData junk ni).digitalTareFg
        = (if (ni.status.getD 2 0 >>> 1) &&& 0x01 ≠ 0 then 1 else 0)
    ∧ (NIDataToScaleData junk ni).presetTareFg
        = (if (ni.status.getD 2 0 >>> 1 >>> 1) &&& 0x01 ≠ 0 then 1 else 0)
    ∧ (NIDataToScaleData junk ni).percentTareFg
        = (if (ni.status.getD 2 0 >>> 1 >>> 1 >>> 1) &&& 0x01 ≠ 0 then 1 else 0) := by
  unfold NIDataToScaleData
  simp only
  refine ⟨?_, ?_, ?_, ?_, ?_, ?_, ?_, ?_, ?_⟩ <;> split <;> (try split) <;> rfl

set_option maxRecDepth 100000 in
theorem statusByte0_bits_closed : ∀ b < 256,
    (if b &&& 0x01 ≠ 0 then (1 : Int) else 0) = ((bitField b 0 1 : Nat) : Int)
    ∧ (if (b >>> 3) &&& 0x01 ≠ 0 then (1 : Int) else 0) = ((bitField b 3 1 : Nat) : Int)
    ∧ (if (b >>> 3 >>> 1) &&& 0x01 ≠ 0 then (1 : Int) else 0) = ((bitField b 4 1 : Nat) : Int)
    ∧ ((((b >>> 3 >>> 1 >>> 2) &&& 0x03) &&& 0xff : Nat) : Int) = ((bitField b 6 3 : Nat) : Int)
    ∧ bitField b 0 1 ≤ 1 ∧ bitField b 3 1 ≤ 1 ∧ bitField b 4 1 ≤ 1 ∧ bitField b 6 3 ≤ 3 := by
  decide

set_option maxRecDepth 100000 in
theorem statusByte12_bits_closed : ∀ b < 256,
    (if b &&& 0x01 ≠ 0 then (1 : Int) else 0) = ((bitField b 0 1 : Nat) : Int)
    ∧ (if (b >>> 1) &&& 0x01 ≠ 0 then (1 : Int) else 0) = ((bitField b 1 1 : Nat) : Int)
    ∧ (if (b >>> 1 >>> 1) &&& 0x01 ≠ 0 then (1 : Int) else 0) = ((bitField b 2 1 : Nat) : Int)
    ∧ (if (b >>> 1 >>> 1 >>> 1) &&& 0x01 ≠ 0 then (1 : Int) else 0)
        = ((bitField b 3 1 : Nat) : Int)
    ∧ (if (b >>> 3) &&& 0x01 ≠ 0 then (1 : Int) else 0) = ((bitField b 3 1 : Nat) : Int)
    ∧ bitField b 0 1 ≤ 1 ∧ bitField b 1 1 ≤ 1 ∧ bitField b 2 1 ≤ 1 ∧ bitField b 3 1 ≤ 1 := by
  decide

set_option maxRecDepth 100000 in
theorem statusByte_mask_closed : ∀ b < 256,
    (b &&& 0xD9) &&& 0x01 = b &&& 0x01
    ∧ ((b &&& 0xD9) >>> 3) &&& 0x01 = (b >>> 3) &&& 0x01
    ∧ ((b &&& 0xD9) >>> 3 >>> 1) &&& 0x01 = (b >>> 3 >>> 1) &&& 0x01
    ∧ ((b &&& 0xD9) >>> 3 >>> 1 >>> 2) &&& 0x03 = (b >>> 3 >>> 1 >>> 2) &&& 0x03
    ∧ ((b &&& 0x08) >>> 3) &&& 0x01 = (b >>> 3) &&& 0x01
    ∧ (b &&& 0x0F) &&& 0x01 = b &&& 0x01
    ∧ ((b &&& 0x0F) >>> 1) &&& 0x01 = (b >>> 1) &&& 0x01
    ∧ ((b &&& 0x0F) >>> 1 >>> 1) &&& 0x01 = (b >>> 1 >>> 1) &&& 0x01
    ∧ ((b &&& 0x0F) >>> 1 >>> 1 >>> 1) &&& 0x01 = (b >>> 1 >>> 1 >>> 1) &&& 0x01 := by
  decide

theorem NIDataToScaleData_masked (junk : ScaleData) (ni : NIData) (a b c : Nat)
    (ha : a < 256) (hb : b < 256) (hc : c < 256) :
    NIDataToScaleData junk { ni with status := [a &&& 0xD9, b &&& 0x08, c &&& 0x0F] }
      = NIDataToScaleData junk { ni with status := [a, b, c] } := by
  obtain ⟨a0, a1, a2, a3, _⟩ := statusByte_mask_closed a ha
  obtain ⟨_, _, _, _, b0, _⟩ := statusByte_mask_closed b hb
  obtain ⟨_, _, _, _, _, c0, c1, c2, c3⟩ := statusByte_mask_closed c hc
  unfold NIDataToScaleData
  simp only [List.getD_cons_zero, List.getD_cons_succ, a0, a1, a2, a3, b0, c0, c1, c2, c3]

/-- C30: for a telemetry body whose six status characters are hexadecimal digits
decoding to the bytes s0, s1, s2, the record built by `getNIData` and
`NIDataToScaleData` has tareFg = bit 0 of s0, zeroPointFg = bit 3 of s0,
stabilizeFg = bit 4 of s0, underOverFlowFg = bits 6-7 of s0 (a value 0..3),
spanSwFg = bit 3 of s1, and oneTouchTareFg, digitalTareFg, presetTareFg,
percentTareFg = bits 0, 1, 2, 3 of s2; every one-bit flag is 0 or 1; and clearing
every other status bit (keeping s0 & 0xD9, s1 & 0x08, s2 & 0x0F) leaves the whole
record built by `NIDataToScaleData` unchanged. -/
theorem telemetry_status_decoding (junk : ScaleData) (c0 c9 c10 c19 c20 : Nat)
    (sec1 sec2 chars : List Nat) (h1 : sec1.length = 8) (h2 : sec2.length = 8)
    (hmode : (c0 = 0x30 ∧ c10 = 0x34) ∨ (c0 = 0x61 ∧ c10 = 0x69))
    (hhex : ∀ i < 6, IsHexDigit (chars.getD i 0)) :
    (telemetryScaleData junk (telemetryBody c0 sec1 c9 c10 sec2 c19 c20 chars)).tareFg = ((bitField (hexPayloadByte chars 0) 0 1 : Nat) : Int)
    ∧ (telemetryScaleData junk (telemetryBody c0 sec1 c9 c10 sec2 c19 c20 chars)).zeroPointFg = ((bitField (hexPayloadByte chars 0) 3 1 : Nat) : Int)
    ∧ (telemetryScaleData junk (telemetryBody c0 sec1 c9 c10 sec2 c19 c20 chars)).stabilizeFg = ((bitField (hexPayloadByte chars 0) 4 1 : Nat) : Int)
    ∧ (telemetryScaleData junk (telemetryBody c0 sec1 c9 c10 sec2 c19 c20 chars)).underOverFlowFg = ((bitField (hexPayloadByte chars 0) 6 3 : Nat) : Int)
    ∧ (telemetryScaleData junk (telemetryBody c0 sec1 c9 c10 sec2 c19 c20 chars)).spanSwFg = ((bitField (hexPayloadByte chars 1) 3 1 : Nat) : Int)
    ∧ (telemetryScaleData junk (telemetryBody c0 sec1 c9 c10 sec2 c19 c20 chars)).oneTouchTareFg = ((bitField (hexPayloadByte chars 2) 0 1 : Nat) : Int)
    ∧ (telemetryScaleData junk (telemetryBody c0 sec1 c9 c10 sec2 c19 c20 chars)).digitalTareFg = ((bitField (hexPayloadByte chars 2) 1 1 : Nat) : Int)
    ∧ (telemetryScaleData junk (telemetryBody c0 sec1 c9 c10 sec2 c19 c20 chars)).presetTareFg = ((bitField (hexPayloadByte chars 2) 2 1 : Nat) : Int)
    ∧ (telemetryScaleData junk (telemetryBody c0 sec1 c9 c10 sec2 c19 c20 chars)).percentTareFg = ((bitField (hexPayloadByte chars 2) 3 1 : Nat) : Int)
    ∧ (bitField (hexPayloadByte chars 0) 0 1 ≤ 1 ∧ bitField (hexPayloadByte chars 0) 3 1 ≤ 1
      ∧ bitField (hexPayloadByte chars 0) 4 1 ≤ 1 ∧ bitField (hexPayloadByte chars 0) 6 3 ≤ 3
      ∧ bitField (hexPayloadByte chars 1) 3 1 ≤ 1 ∧ bitField (hexPayloadByte chars 2) 0 1 ≤ 1
      ∧ bitField (hexPayloadByte chars 2) 1 1 ≤ 1 ∧ bitField (hexPayloadByte chars 2) 2 1 ≤ 1
      ∧ bitField (hexPayloadByte chars 2) 3 1 ≤ 1)
    ∧ (getNIData zeroNIData (telemetryBody c0 sec1 c9 c10 sec2 c19 c20 chars)).status
        = [hexPayloadByte chars 0, hexPayloadByte chars 1, hexPayloadByte chars 2]
    ∧ (∀ (ni : NIData) (a b c : Nat), a < 256 → b < 256 → c < 256 →
        NIDataToScaleData junk { ni with status := [a &&& 0xD9, b &&& 0x08, c &&& 0x0F] }
          = NIDataToScaleData junk { ni with status := [a, b, c] }) := by
  have hst := getNIData_status c0 c9 c10 c19 c20 sec1 sec2 chars h1 h2 hmode
  rw [strToHex_hexDigits_status chars hhex] at hst
  obtain ⟨f0, f1, f2, f3, f4, f5, f6, f7, f8⟩ :=
    NIDataToScaleData_flags junk (getNIData zeroNIData (telemetryBody c0 sec1 c9 c10 sec2 c19 c20 chars))
  rw [hst] at f0 f1 f2 f3 f4 f5 f6 f7 f8
  simp only [List.getD_cons_zero, List.getD_cons_succ] at f0 f1 f2 f3 f4 f5 f6 f7 f8
  obtain ⟨a0, a1, a2, a3, la0, la1, la2, la3⟩ :=
    statusByte0_bits_closed _ (hexPayloadByte_lt chars 0)
  obtain ⟨_, _, _, _, b0, _, _, _, lb0⟩ := statusByte12_bits_closed _ (hexPayloadByte_lt chars 1)
  obtain ⟨c0', c1', c2', c3', _, lc0, lc1, lc2, lc3⟩ :=
    statusByte12_bits_closed _ (hexPayloadByte_lt chars 2)
  unfold telemetryScaleData
  exact ⟨f0.trans a0, f1.trans a1, f2.trans a2, f3.trans a3, f4.trans b0, f5.trans c0',
    f6.trans c1', f7.trans c2', f8.trans c3', ⟨la0, la1, la2, la3, lb0, lc0, lc1, lc2, lc3⟩, hst,
    fun ni a b c ha hb hc => NIDataToScaleData_masked junk ni a b c ha hb hc⟩

theorem telemetry_status_decoding_witness :
    (telemetryScaleData zeroScaleData (telemetryBody 0x30 [0x30, 0x30, 0x30, 0x30, 0x31, 0x30, 0x30, 0x30] 0x20 0x34
      [0x30, 0x30, 0x30, 0x30, 0x30, 0x30, 0x32, 0x35] 0x20 0x20 [0x44, 0x39, 0x30, 0x38, 0x30, 0x41])).tareFg = ((bitField (hexPayloadByte [0x44, 0x39, 0x30, 0x38, 0x30, 0x41] 0) 0 1 : Nat) : Int)
    ∧ (telemetryScaleData zeroScaleData (telemetryBody 0x30 [0x30, 0x30, 0x30, 0x30, 0x31, 0x30, 0x30, 0x30] 0x20 0x34
      [0x30, 0x30, 0x30, 0x30, 0x30, 0x30, 0x32, 0x35] 0x20 0x20 [0x44, 0x39, 0x30, 0x38, 0x30, 0x41])).zeroPointFg = ((bitField (hexPayloadByte [0x44, 0x39, 0x30, 0x38, 0x30, 0x41] 0) 3 1 : Nat) : Int)
    ∧ (telemetryScaleData zeroScaleData (telemetryBody 0x30 [0x30, 0x30, 0x30, 0x30, 0x31, 0x30, 0x30, 0x30] 0x20 0x34
      [0x30, 0x30, 0x30, 0x30, 0x30, 0x30, 0x32, 0x35] 0x20 0x20 [0x44, 0x39, 0x30, 0x38, 0x30, 0x41])).stabilizeFg = ((bitField (hexPayloadByte [0x44, 0x39, 0x30, 0x38, 0x30, 0x41] 0) 4 1 : Nat) : Int)
    ∧ (telemetryScaleData zeroScaleData (telemetryBody 0x30 [0x30, 0x30, 0x30, 0x30, 0x31, 0x30, 0x30, 0x30] 0x20 0x34
      [0x30, 0x30, 0x30, 0x30, 0x30, 0x30, 0x32, 0x35] 0x20 0x20 [0x44, 0x39, 0x30, 0x38, 0x30, 0x41])).underOverFlowFg = ((bitField (hexPayloadByte [0x44, 0x39, 0x30, 0x38, 0x30, 0x41] 0) 6 3 : Nat) : Int)
    ∧ (telemetryScaleData zeroScaleData (telemetryBody 0x30 [0x30, 0x30, 0x30, 0x30, 0x31, 0x30, 0x30, 0x30] 0x20 0x34
      [0x30, 0x30, 0x30, 0x30, 0x30, 0x30, 0x32, 0x35] 0x20 0x20 [0x44, 0x39, 0x30, 0x38, 0x30, 0x41])).spanSwFg = ((bitField (hexPayloadByte [0x44, 0x39, 0x30, 0x38, 0x30, 0x41] 1) 3 1 : Nat) : Int)
    ∧ (telemetryScaleData zeroScaleData (telemetryBody 0x30 [0x30, 0x30, 0x30, 0x30, 0x31, 0x30, 0x30, 0x30] 0x20 0x34
      [0x30, 0x30, 0x30, 0x30, 0x30, 0x30, 0x32, 0x35] 0x20 0x20 [0x44, 0x39, 0x30, 0x38, 0x30, 0x41])).oneTouchTareFg = ((bitField (hexPayloadByte [0x44, 0x39, 0x30, 0x38, 0x30, 0x41] 2) 0 1 : Nat) : Int)
    ∧ (telemetryScaleData zeroScaleData (telemetryBody 0x30 [0x30, 0x30, 0x30, 0x30, 0x31, 0x30, 0x30, 0x30] 0x20 0x34
      [0x30, 0x30, 0x30, 0x30, 0x30, 0x30, 0x32, 0x35] 0x20 0x20 [0x44, 0x39, 0x30, 0x38, 0x30, 0x41])).digitalTareFg = ((bitField (hexPayloadByte [0x44, 0x39, 0x30, 0x38, 0x30, 0x41] 2) 1 1 : Nat) : Int)
    ∧ (telemetryScaleData zeroScaleData (telemetryBody 0x30 [0x30, 0x30, 0x30, 0x30, 0x31, 0x30, 0x30, 0x30] 0x20 0x34
      [0x30, 0x30, 0x30, 0x30, 0x30, 0x30, 0x32, 0x35] 0x20 0x20 [0x44, 0x39, 0x30, 0x38, 0x30, 0x41])).presetTareFg = ((bitField (hexPayloadByte [0x44, 0x39, 0x30, 0x38, 0x30, 0x41] 2) 2 1 : Nat) : Int)
    ∧ (telemetryScaleData zeroScaleData (telemetryBody 0x30 [0x30, 0x30, 0x30, 0x30, 0x31, 0x30, 0x30, 0x30] 0x20 0x34
      [0x30, 0x30, 0x30, 0x30, 0x30, 0x30, 0x32, 0x35] 0x20 0x20 [0x44, 0x39, 0x30, 0x38, 0x30, 0x41])).percentTareFg = ((bitField (hexPayloadByte [0x44, 0x39, 0x30, 0x38, 0x30, 0x41] 2) 3 1 : Nat) : Int)
    ∧ (bitField (hexPayloadByte [0x44, 0x39, 0x30, 0x38, 0x30, 0x41] 0) 0 1 ≤ 1 ∧ bitField (hexPayloadByte [0x44, 0x39, 0x30, 0x38, 0x30, 0x41] 0) 3 1 ≤ 1
      ∧ bitField (hexPayloadByte [0x44, 0x39, 0x30, 0x38, 0x30, 0x41] 0) 4 1 ≤ 1 ∧ bitField (hexPayloadByte [0x44, 0x39, 0x30, 0x38, 0x30, 0x41] 0) 6 3 ≤ 3
      ∧ bitField (hexPayloadByte [0x44, 0x39, 0x30, 0x38, 0x30, 0x41] 1) 3 1 ≤ 1 ∧ bitField (hexPayloadByte [0x44, 0x39, 0x30, 0x38, 0x30, 0x41] 2) 0 1 ≤ 1
      ∧ bitField (hexPayloadByte [0x44, 0x39, 0x30, 0x38, 0x30, 0x41] 2) 1 1 ≤ 1 ∧ bitField (hexPayloadByte [0x44, 0x39, 0x30, 0x38, 0x30, 0x41] 2) 2 1 ≤ 1
      ∧ bitField (hexPayloadByte [0x44, 0x39, 0x30, 0x38, 0x30, 0x41] 2) 3 1 ≤ 1)
    ∧ (getNIData zeroNIData (telemetryBody 0x30 [0x30, 0x30, 0x30, 0x30, 0x31, 0x30, 0x30, 0x30] 0x20 0x34
      [0x30, 0x30, 0x30, 0x30, 0x30, 0x30, 0x32, 0x35] 0x20 0x20 [0x44, 0x39, 0x30, 0x38, 0x30, 0x41])).status
        = [hexPayloadByte [0x44, 0x39, 0x30, 0x38, 0x30, 0x41] 0, hexPayloadByte [0x44, 0x39, 0x30, 0x38, 0x30, 0x41] 1, hexPayloadByte [0x44, 0x39, 0x30, 0x38, 0x30, 0x41] 2]
    ∧ (∀ (ni : NIData) (a b c : Nat), a < 256 → b < 256 → c < 256 →
        NIDataToScaleData zeroScaleData { ni with status := [a &&& 0xD9, b &&& 0x08, c &&& 0x0F] }
          = NIDataToScaleData zeroScaleData { ni with status := [a, b, c] }) :=
  telemetry_status_decoding zeroScaleData 0x30 0x20 0x34 0x20 0x20
    [0x30, 0x30, 0x30, 0x30, 0x31, 0x30, 0x30, 0x30]
    [0x30, 0x30, 0x30, 0x30, 0x30, 0x30, 0x32, 0x35] [0x44, 0x39, 0x30, 0x38, 0x30, 0x41]
    (by decide) (by decide) (by decide) (by decide)

theorem fetchLoop_skip (cs : Bool) (m : Int) (hm : 0 < m) (p f : List Nat)
    (hp : ∀ b ∈ p, b < 256 ∧ b ≠ STX) :
    fetchLoop cs m 0 [] (p ++ f) = fetchLoop cs m 0 [] f := by
  induction p with
  | nil => rfl
  | cons x t ih =>
    have hx := hp x (List.mem_cons_self x t)
    have hne : ¬ charValue cs x = (STX : Int) := by
      rw [charValue_eq_iff cs x STX hx.1 (by decide)]
      exact hx.2
    have hl : ¬ (((([] : List Nat).length : Nat) : Int) ≥ m) := by
      simp only [List.length_nil, Nat.cast_zero]
      omega
    rw [List.cons_append, fetchLoop, if_neg hl]
    simp only [if_neg hne]
    exact ih (fun b hb => hp b (List.mem_cons_of_mem x hb))

/-- C28: for every byte sequence `p` without an STX byte and every stream `f`,
`fetchContent` reading `p` followed by `f` gives the same return value and the
same content as reading `f` alone, and blocks exactly when reading `f` alone
blocks; with valid arguments the unread bytes are the same too. -/
theorem fetchContent_resync (cs : Bool) (fd maxSize : Int) (p f : List Nat)
    (hp : ∀ b ∈ p, b < 256 ∧ b ≠ STX) :
    (fetchContent cs fd maxSize (p ++ f)).map (fun r => (r.1, r.2.1))
        = (fetchContent cs fd maxSize f).map (fun r => (r.1, r.2.1))
    ∧ (0 ≤ fd → 0 < maxSize →
        fetchContent cs fd maxSize (p ++ f) = fetchContent cs fd maxSize f) := by
  by_cases hg : fd < 0 ∨ maxSize ≤ 0
  · refine ⟨?_, fun h1 h2 => ?_⟩
    · unfold fetchContent
      rw [if_pos hg, if_pos hg]
      rfl
    · omega
  · have hm : 0 < maxSize := by omega
    have h : fetchContent cs fd maxSize (p ++ f) = fetchContent cs fd maxSize f := by
      unfold fetchContent
      rw [if_neg hg, if_neg hg]
      exact fetchLoop_skip cs maxSize hm p f hp
    exact ⟨by rw [h], fun _ _ => h⟩

theorem fetchContent_resync_witness :
    (fetchContent false 3 256 ([0x41, 0x03, 0x0D] ++ [STX, CMD_W, RSP_RW_OK, ETX, 0x67, 0x55])).map
          (fun r => (r.1, r.2.1))
        = (fetchContent false 3 256 [STX, CMD_W, RSP_RW_OK, ETX, 0x67, 0x55]).map
            (fun r => (r.1, r.2.1))
    ∧ ((0 : Int) ≤ 3 → (0 : Int) < 256 →
        fetchContent false 3 256 ([0x41, 0x03, 0x0D] ++ [STX, CMD_W, RSP_RW_OK, ETX, 0x67, 0x55])
          = fetchContent false 3 256 [STX, CMD_W, RSP_RW_OK, ETX, 0x67, 0x55]) :=
  fetchContent_resync false 3 256 [0x41, 0x03, 0x0D] [STX, CMD_W, RSP_RW_OK, ETX, 0x67, 0x55]
    (by decide)

theorem fetchLoop_body_any (cs : Bool) (m : Nat) (body acc tail : List Nat)
    (hbody : ∀ b ∈ body, b < 256 ∧ b ≠ ETX) (hlen : acc.length + body.length ≤ m) (x : Nat) :
    fetchLoop cs m 1 acc (body ++ x :: tail) = fetchLoop cs m 1 (acc ++ body) (x :: tail) := by
  induction body generalizing acc with
  | nil => simp
  | cons y t ih =>
    have hy := hbody y (List.mem_cons_self y t)
    have hne : ¬ charValue cs y = (ETX : Int) := by
      rw [charValue_eq_iff cs y ETX hy.1 (by decide)]
      exact hy.2
    have hl : ¬ ((acc.length : Int) ≥ (m : Int)) := by
      simp only [List.length_cons] at hlen
      omega
    rw [List.cons_append, fetchLoop, if_neg hl]
    simp only [if_neg hne]
    rw [ih (acc ++ [y]) (fun b hb => hbody b (List.mem_cons_of_mem y hb))
      (by simp only [List.length_append, List.length_cons, List.length_nil] at hlen ⊢; omega)]
    simp

theorem fetchLoop_content_le (cs : Bool) (m : Nat) (input : List Nat) :
    ∀ (stage : Nat) (acc : List Nat) (r : Int) (c rest : List Nat), acc.length ≤ m →
      fetchLoop cs m stage acc input = some (r, c, rest) → c.length ≤ m := by
  induction input with
  | nil =>
    intro stage acc r c rest _ h
    simp [fetchLoop] at h
  | cons ch t ih =>
    intro stage acc r c rest hacc h
    have hdone : ∀ (v : Int) (u : List Nat), some (v, acc, u) = some (r, c, rest) →
        c.length ≤ m := by
      intro v u e
      simp only [Option.some.injEq, Prod.mk.injEq] at e
      rw [← e.2.1]
      exact hacc
    by_cases hfull : (acc.length : Int) ≥ (m : Int)
    · rcases stage with _ | _ | _ | n
      · rw [fetchLoop, if_pos hfull] at h
        exact hdone _ _ h
      · rw [fetchLoop, if_pos hfull] at h
        exact hdone _ _ h
      · rw [fetchLoop, if_pos hfull] at h
        exact hdone _ _ h
      · unfold fetchLoop at h
        rw [if_pos hfull] at h
        exact hdone _ _ h
    · have hlt : acc.length < m := by omega
      rcases stage with _ | _ | _ | n
      · rw [fetchLoop, if_neg hfull] at h
        split at h
        · exact ih 1 acc r c rest hacc h
        · exact ih 0 acc r c rest hacc h
      · rw [fetchLoop, if_neg hfull] at h
        split at h
        · exact ih 2 acc r c rest hacc h
        · exact ih 1 (acc ++ [ch]) r c rest
            (by simp only [List.length_append, List.length_cons, List.length_nil]; omega) h
      · rw [fetchLoop, if_neg hfull] at h
        split at h
        · exact hdone _ _ h
        · exact hdone _ _ h
      · unfold fetchLoop at h
        rw [if_neg hfull] at h
        exact hdone _ _ h

/-- C27: when STX (after any bytes that are not STX) is followed by 256 body
bytes without ETX and at least one more byte, `fetchContent` with the 256-byte
buffer of the receive loop returns 256 (its `maxSize`, not the length of an
accepted frame that the loop classifies) with exactly those 256 bytes stored; the
iteration of the receive loop that reads them leaves the whole state unchanged,
so no event is published; and on no input does `fetchContent` store more than 256
bytes. -/
theorem frame_too_long_dropped (cs : Bool) (junk : AD2kData) (st : LibState)
    (p body : List Nat) (x : Nat) (rest : List Nat) (hfd : 0 ≤ st.scale_fd)
    (hp : ∀ b ∈ p, b < 256 ∧ b ≠ STX) (hbody : ∀ b ∈ body, b < 256 ∧ b ≠ ETX)
    (hlen : body.length = 256) :
    fetchContent cs st.scale_fd 256 (p ++ STX :: (body ++ x :: rest)) = some (256, body, rest)
    ∧ scaleProcedureFrAD_iter cs junk st (p ++ STX :: (body ++ x :: rest)) = some (st, rest)
    ∧ (∀ (input : List Nat) (r : Int) (c rest1 : List Nat),
        fetchContent cs st.scale_fd 256 input = some (r, c, rest1) → c.length ≤ 256) := by
  have hg : ¬ (st.scale_fd < 0 ∨ (256 : Int) ≤ 0) := by omega
  have hstx : charValue cs STX = (STX : Int) := by
    rw [charValue_eq_iff cs STX STX (by decide) (by decide)]
  have h0 : ¬ (((([] : List Nat).length : Nat) : Int) ≥ (256 : Int)) := by simp
  have hfull : ((body.length : Nat) : Int) ≥ (256 : Int) := by omega
  have h : fetchContent cs st.scale_fd 256 (p ++ STX :: (body ++ x :: rest))
      = some (256, body, rest) := by
    unfold fetchContent
    rw [if_neg hg, fetchLoop_skip cs 256 (by decide) p _ hp, fetchLoop, if_neg h0]
    simp only [if_pos hstx]
    have hb := fetchLoop_body_any cs 256 body [] rest hbody (by simp [hlen]) x
    simp only [Nat.cast_ofNat, List.nil_append] at hb
    rw [hb, fetchLoop, if_pos hfull]
  refine ⟨h, ?_, ?_⟩
  · unfold scaleProcedureFrAD_iter
    rw [h]
    simp [LEN_R_AD_VER, LEN_RW_SPEC_DATA, LEN_RW_SPAN_DATA, LEN_NI_DATA]
  · intro input r c rest1 hr
    unfold fetchContent at hr
    rw [if_neg hg] at hr
    have := fetchLoop_content_le cs 256 input 0 [] r c rest1 (by simp)
    simp only [Nat.cast_ofNat] at this
    exact this hr

theorem frame_too_long_dropped_witness :
    fetchContent false 3 256 ([0x0D] ++ STX :: (List.replicate 256 0x41 ++ ETX :: [0x55]))
        = some (256, List.replicate 256 0x41, [0x55])
    ∧ scaleProcedureFrAD_iter false zeroAD2kData ⟨CMD_W_DIGI_TARE, 1, 3, 0, 0, [], []⟩
          ([0x0D] ++ STX :: (List.replicate 256 0x41 ++ ETX :: [0x55]))
        = some (⟨CMD_W_DIGI_TARE, 1, 3, 0, 0, [], []⟩, [0x55])
    ∧ (∀ (input : List Nat) (r : Int) (c rest1 : List Nat),
        fetchContent false 3 256 input = some (r, c, rest1) → c.length ≤ 256) :=
  frame_too_long_dropped false zeroAD2kData ⟨CMD_W_DIGI_TARE, 1, 3, 0, 0, [], []⟩ [0x0D]
    (List.replicate 256 0x41) ETX [0x55] (by decide) (by decide)
    (fun b hb => by rw [List.eq_of_mem_replicate hb]; decide) (List.length_replicate 256 0x41)

theorem crcShift_lt (crc : Nat) (h : crc < 2 ^ 32) : crcShift crc < 2 ^ 32 := by
  unfold crcShift
  split
  · exact Nat.mod_lt _ (by decide)
  · rw [Nat.shiftRight_eq_div_pow]
    exact lt_of_le_of_lt (Nat.div_le_self _ _) h

theorem crc32_one_byte (b : Nat) :
    crc32 [b] 1 = (crc32_table.getD (0xFF ^^^ b) 0 ^^^ 0xFFFFFF) % 2 ^ 32 := by
  rfl

theorem crc32_one_byte_lt (b : Nat) : crc32 [b] 1 < 2 ^ 32 := by
  rw [crc32_one_byte]
  exact Nat.mod_lt _ (by decide)

theorem xor_lt_two_pow32 (a b : Nat) (ha : a < 2 ^ 32) (hb : b < 2 ^ 32) : a ^^^ b < 2 ^ 32 :=
  Nat.xor_lt_two_pow ha hb

theorem checksumLoop_eq (f : List Nat) : ∀ acc, acc < 2 ^ 32 →
    checksumLoop acc f = acc ^^^ (f.map (fun b => crc32 [b] 1)).foldr (fun x y => x ^^^ y) 0
    ∧ checksumLoop acc f < 2 ^ 32 := by
  induction f with
  | nil =>
    intro acc h
    exact ⟨by simp [checksumLoop], h⟩
  | cons c t ih =>
    intro acc h
    have hx := xor_lt_two_pow32 acc (crc32 [c] 1) h (crc32_one_byte_lt c)
    have := ih (acc ^^^ crc32 [c] 1) hx
    rw [checksumLoop, Nat.mod_eq_of_lt hx, List.map_cons, List.foldr_cons, ← Nat.xor_assoc]
    exact this

/-- C26: for a file that can be opened (non-empty file name) with contents `f`,
`calculateChecksum` returns the XOR over all bytes `b` of `f` of `crc32` applied to
the one-byte buffer `[b]`, and 0 for an empty file; this is not the CRC chained
over `f`, as the file `"ab"` shows. -/
theorem calculateChecksum_xor (name f : List Nat) (hname : 0 < (cstr name).length) :
    calculateChecksum (some f) (some name)
        = (f.map (fun b => crc32 [b] 1)).foldr (fun x y => x ^^^ y) 0
    ∧ calculateChecksum (some []) (some name) = 0
    ∧ calculateChecksum (some [0x61, 0x62]) (some name) ≠ crc32 [0x61, 0x62] 2 := by
  have hn : ¬ (cstr name).length ≤ 0 := by omega
  have h : ∀ g, calculateChecksum (some g) (some name) = checksumLoop 0 g := by
    intro g
    simp only [calculateChecksum, if_neg hn]
  refine ⟨?_, ?_, ?_⟩
  · rw [h, (checksumLoop_eq f 0 (by decide)).1, Nat.zero_xor]
  · rw [h]
    rfl
  · rw [h]
    decide

theorem calculateChecksum_xor_witness :
    calculateChecksum (some [0x61, 0x61, 0x62]) (some [0x66])
        = ([0x61, 0x61, 0x62].map (fun b => crc32 [b] 1)).foldr (fun x y => x ^^^ y) 0
    ∧ calculateChecksum (some []) (some [0x66]) = 0
    ∧ calculateChecksum (some [0x61, 0x62]) (some [0x66]) ≠ crc32 [0x61, 0x62] 2 :=
  calculateChecksum_xor [0x66] [0x61, 0x61, 0x62] (by decide)

theorem digitsOf_of_isDigits (l : List Nat) (h : IsDigits l) : digitsOf l = l := by
  unfold digitsOf
  rw [List.filter_eq_self]
  intro c hc
  exact decide_eq_true (h c hc)

theorem zeroPadded_isDigits (j n : Nat) :
    IsDigits (List.replicate j 0x30 ++ decimalDigits n)
    ∧ decimalValue (List.replicate j 0x30 ++ decimalDigits n) = n := by
  obtain ⟨i1, i2, _⟩ := decimalDigitsFuel_spec (n + 1) n (by omega)
  unfold decimalDigits
  refine ⟨?_, ?_⟩
  · intro c hc
    rcases List.mem_append.mp hc with hc | hc
    · rw [List.mem_replicate] at hc
      omega
    · exact i1 c hc
  · rw [decimalValue_replicate_zero_append, i2]

theorem printfZeroPadInt_field (w : Nat) (v : Int) (hw : 1 ≤ w)
    (hneg : v < 0 → v.natAbs < 10 ^ (w - 1)) (hpos : 0 ≤ v → v.natAbs < 10 ^ w) :
    (printfZeroPadInt w v).length = w
    ∧ (∀ c ∈ printfZeroPadInt w v, c ≠ 0)
    ∧ ad2k_StrToNum (printfZeroPadInt w v) BASE_DEC = v := by
  have h1 : ¬ BASE_DEC = BASE_BIN := by decide
  obtain ⟨_, _, i3⟩ := decimalDigitsFuel_spec (v.natAbs + 1) v.natAbs (by omega)
  by_cases hv : v < 0
  · have hlt := hneg hv
    have hw1 : 1 ≤ w - 1 := by
      by_contra hc
      have : w - 1 = 0 := by omega
      rw [this] at hlt
      simp at hlt
      omega
    have hlen := i3 (w - 1) hlt hw1
    have hF : printfZeroPadInt w v
        = 0x2D :: (List.replicate (w - 1 - (decimalDigits v.natAbs).length) 0x30
            ++ decimalDigits v.natAbs) := by
      unfold printfZeroPadInt
      simp only [if_pos hv]
    obtain ⟨d1, d2⟩ := zeroPadded_isDigits (w - 1 - (decimalDigits v.natAbs).length) v.natAbs
    have hnm : ¬ 0x2D ∈ List.replicate (w - 1 - (decimalDigits v.natAbs).length) 0x30
        ++ decimalDigits v.natAbs := by
      intro hm
      have := d1 _ hm
      omega
    have hdec : ∀ c ∈ printfZeroPadInt w v, IsDecChar c := by
      rw [hF]
      intro c hc
      rcases List.mem_cons.mp hc with hc | hc
      · exact Or.inr (Or.inl hc)
      · exact Or.inl (d1 c hc)
    refine ⟨?_, ?_, ?_⟩
    · rw [hF]
      simp only [List.length_cons, List.length_append, List.length_replicate]
      unfold decimalDigits at hlen ⊢
      omega
    · rw [hF]
      intro c hc
      rcases List.mem_cons.mp hc with hc | hc
      · omega
      · have := d1 c hc
        omega
    · rw [ad2k_StrToNum, if_neg h1, if_pos rfl, strToNumLoop_dec_spec _ hdec]
      have hmem : 0x2D ∈ printfZeroPadInt w v := by
        rw [hF]
        exact List.mem_cons_self _ _
      rw [if_pos hmem, hF, afterLastMinus, if_neg hnm, if_pos rfl, digitsOf_of_isDigits _ d1, d2]
      omega
  · have hv0 : 0 ≤ v := by omega
    have hlt := hpos hv0
    have hlen := i3 w hlt hw
    have hF : printfZeroPadInt w v
        = List.replicate (w - (decimalDigits v.natAbs).length) 0x30
            ++ decimalDigits v.natAbs := by
      unfold printfZeroPadInt
      simp only [if_neg hv]
    obtain ⟨d1, d2⟩ := zeroPadded_isDigits (w - (decimalDigits v.natAbs).length) v.natAbs
    rw [← hF] at d1 d2
    have hdec : ∀ c ∈ printfZeroPadInt w v, IsDecChar c := fun c hc => Or.inl (d1 c hc)
    have hnm : ¬ 0x2D ∈ printfZeroPadInt w v := by
      intro hm
      have := d1 _ hm
      omega
    refine ⟨?_, ?_, ?_⟩
    · rw [hF]
      simp only [List.length_append, List.length_replicate]
      unfold decimalDigits at hlen ⊢
      omega
    · intro c hc
      have := d1 c hc
      omega
    · rw [ad2k_StrToNum, if_neg h1, if_pos rfl, strToNumLoop_dec_spec _ hdec, if_neg hnm,
        digitsOf_of_isDigits _ d1, d2]
      omega

theorem spanField_decode (w : Nat) (v : Int) (rest : List Nat) (hw : 1 ≤ w)
    (hneg : v < 0 → v.natAbs < 10 ^ (w - 1)) (hpos : 0 ≤ v → v.natAbs < 10 ^ w) :
    ad2k_StrToNum (cstr (memRead (printfZeroPadInt w v ++ rest) w ++ [0])) BASE_DEC = v := by
  obtain ⟨hl, hz, hv⟩ := printfZeroPadInt_field w v hw hneg hpos
  have hm := memRead_append_left (printfZeroPadInt w v) rest
  rw [hl] at hm
  rw [hm, cstr_append_zero _ hz, hv]

theorem printfZeroPadInt_lt (w : Nat) (v : Int) : ∀ c ∈ printfZeroPadInt w v, c < 0x80 := by
  obtain ⟨d1, _, _⟩ := decimalDigitsFuel_spec (v.natAbs + 1) v.natAbs (by omega)
  have hz : ∀ (j : Nat) (c : Nat),
      c ∈ List.replicate j 0x30 ++ decimalDigitsFuel (v.natAbs + 1) v.natAbs → c < 0x80 := by
    intro j c hc
    rcases List.mem_append.mp hc with hc | hc
    · rw [List.mem_replicate] at hc
      omega
    · have := d1 c hc
      omega
  intro c hc
  unfold printfZeroPadInt decimalDigits at hc
  simp only at hc
  split at hc
  · rcases List.mem_cons.mp hc with h | h
    · omega
    · exact hz _ c h
  · exact hz _ c hc

theorem snprintfBuf_span (d : List Nat) (hd : d.length = 28) :
    memRead (snprintfBuf 32 d) 28 = d := by
  have h1 : d.take (32 - 1) = d := List.take_of_length_le (by omega)
  unfold snprintfBuf
  rw [h1]
  have := memRead_append_left d (List.replicate (32 - 28) 0)
  rw [hd] at this ⊢
  exact this

theorem respDataToSpanData_fields (junk : SpanData) (f1 f2 f3 f4 f5 tail : List Nat)
    (h1 : f1.length = 8) (h2 : f2.length = 8) (h3 : f3.length = 8) (h4 : f4.length = 2) :
    respDataToSpanData junk ((f1 ++ (f2 ++ (f3 ++ (f4 ++ f5)))) ++ tail)
      = ⟨ad2k_StrToNum (cstr (memRead (f1 ++ (f2 ++ (f3 ++ (f4 ++ (f5 ++ tail))))) 8 ++ [0])) BASE_DEC,
         ad2k_StrToNum (cstr (memRead (f2 ++ (f3 ++ (f4 ++ (f5 ++ tail)))) 8 ++ [0])) BASE_DEC,
         ad2k_StrToNum (cstr (memRead (f3 ++ (f4 ++ (f5 ++ tail))) 8 ++ [0])) BASE_DEC,
         ad2k_StrToNum (cstr (memRead (f4 ++ (f5 ++ tail)) 2 ++ [0])) BASE_DEC,
         ad2k_StrToNum (cstr (memRead (f5 ++ tail) 2 ++ [0])) BASE_DEC⟩ := by
  have e0 : (f1 ++ (f2 ++ (f3 ++ (f4 ++ f5)))) ++ tail
      = f1 ++ (f2 ++ (f3 ++ (f4 ++ (f5 ++ tail)))) := by
    simp only [List.append_assoc]
  have d8 : List.drop 8 (f1 ++ (f2 ++ (f3 ++ (f4 ++ (f5 ++ tail)))))
      = f2 ++ (f3 ++ (f4 ++ (f5 ++ tail))) := List.drop_left' h1
  have d16 : List.drop 16 (f1 ++ (f2 ++ (f3 ++ (f4 ++ (f5 ++ tail)))))
      = f3 ++ (f4 ++ (f5 ++ tail)) := by
    rw [← List.append_assoc]
    exact List.drop_left' (by rw [List.length_append, h1, h2])
  have d24 : List.drop 24 (f1 ++ (f2 ++ (f3 ++ (f4 ++ (f5 ++ tail)))))
      = f4 ++ (f5 ++ tail) := by
    rw [← List.append_assoc, ← List.append_assoc]
    exact List.drop_left' (by rw [List.length_append, List.length_append, h1, h2, h3])
  have d26 : List.drop 26 (f1 ++ (f2 ++ (f3 ++ (f4 ++ (f5 ++ tail)))))
      = f5 ++ tail := by
    rw [← List.append_assoc, ← List.append_assoc, ← List.append_assoc]
    exact List.drop_left'
      (by rw [List.length_append, List.length_append, List.length_append, h1, h2, h3, h4])
  rw [e0]
  unfold respDataToSpanData
  simp only [Nat.zero_add, Nat.reduceAdd, List.drop_zero, d8, d16, d24, d26]

/-- C21: for a `SpanData` whose three weights are in -9999999..99999999 and whose
two exponents are in -9..99 (and the send queue created), the payload that
`ad2k_SetSpanData` sends is exactly 28 characters - firstWeight, spanWeight and
secWeight as 8-character zero-padded decimals, then e2 and e1 as 2-character
zero-padded decimals, each of which `ad2k_StrToNum` reads back as the value - and
`respDataToSpanData` of that payload, whatever follows it, returns the same five
values. -/
theorem spanData_roundtrip (st : LibState) (junk : SpanData) (tail : List Nat)
    (fw sw sec e2 e1 : Int) (hq : 0 ≤ st.msgq_to_ad_id)
    (hfw : -9999999 ≤ fw ∧ fw ≤ 99999999) (hsw : -9999999 ≤ sw ∧ sw ≤ 99999999)
    (hsec : -9999999 ≤ sec ∧ sec ≤ 99999999) (he2 : -9 ≤ e2 ∧ e2 ≤ 99)
    (he1 : -9 ≤ e1 ∧ e1 ≤ 99) :
    (printfZeroPadInt 8 fw).length = 8 ∧ (printfZeroPadInt 8 sw).length = 8
    ∧ (printfZeroPadInt 8 sec).length = 8 ∧ (printfZeroPadInt 2 e2).length = 2
    ∧ (printfZeroPadInt 2 e1).length = 2
    ∧ ad2k_StrToNum (printfZeroPadInt 8 fw) BASE_DEC = fw
    ∧ ad2k_StrToNum (printfZeroPadInt 8 sw) BASE_DEC = sw
    ∧ ad2k_StrToNum (printfZeroPadInt 8 sec) BASE_DEC = sec
    ∧ ad2k_StrToNum (printfZeroPadInt 2 e2) BASE_DEC = e2
    ∧ ad2k_StrToNum (printfZeroPadInt 2 e1) BASE_DEC = e1
    ∧ List.length (printfZeroPadInt 8 fw ++ (printfZeroPadInt 8 sw ++ (printfZeroPadInt 8 sec
          ++ (printfZeroPadInt 2 e2 ++ printfZeroPadInt 2 e1)))) = 28
    ∧ ad2k_SetSpanData st (some ⟨fw, sw, sec, e2, e1⟩) =
        (0, { st with
              cmd_saved := CMD_RW_SPAN_DATA
              msgq_to_ad := st.msgq_to_ad ++
                [STX :: CMD_W :: CMD_RW_SPAN_DATA :: ((printfZeroPadInt 8 fw ++ (printfZeroPadInt 8 sw ++ (printfZeroPadInt 8 sec
          ++ (printfZeroPadInt 2 e2 ++ printfZeroPadInt 2 e1))))
                  ++ [ETX, calculateBCC (CMD_W :: CMD_RW_SPAN_DATA :: (printfZeroPadInt 8 fw ++ (printfZeroPadInt 8 sw ++ (printfZeroPadInt 8 sec
          ++ (printfZeroPadInt 2 e2 ++ printfZeroPadInt 2 e1)))))])] })
    ∧ respDataToSpanData junk ((printfZeroPadInt 8 fw ++ (printfZeroPadInt 8 sw ++ (printfZeroPadInt 8 sec
          ++ (printfZeroPadInt 2 e2 ++ printfZeroPadInt 2 e1)))) ++ tail) = ⟨fw, sw, sec, e2, e1⟩ := by
  have p8 : (10 : Nat) ^ 8 = 100000000 := by decide
  have p7 : (10 : Nat) ^ (8 - 1) = 10000000 := by decide
  have p2 : (10 : Nat) ^ 2 = 100 := by decide
  have p1 : (10 : Nat) ^ (2 - 1) = 10 := by decide
  have w8 : ∀ v : Int, -9999999 ≤ v ∧ v ≤ 99999999 →
      (v < 0 → v.natAbs < 10 ^ (8 - 1)) ∧ (0 ≤ v → v.natAbs < 10 ^ 8) := by
    intro v hv
    rw [p7, p8]
    omega
  have w2 : ∀ v : Int, -9 ≤ v ∧ v ≤ 99 →
      (v < 0 → v.natAbs < 10 ^ (2 - 1)) ∧ (0 ≤ v → v.natAbs < 10 ^ 2) := by
    intro v hv
    rw [p1, p2]
    omega
  obtain ⟨l1, _, v1⟩ := printfZeroPadInt_field 8 fw (by decide) (w8 fw hfw).1 (w8 fw hfw).2
  obtain ⟨l2, _, v2⟩ := printfZeroPadInt_field 8 sw (by decide) (w8 sw hsw).1 (w8 sw hsw).2
  obtain ⟨l3, _, v3⟩ := printfZeroPadInt_field 8 sec (by decide) (w8 sec hsec).1 (w8 sec hsec).2
  obtain ⟨l4, _, v4⟩ := printfZeroPadInt_field 2 e2 (by decide) (w2 e2 he2).1 (w2 e2 he2).2
  obtain ⟨l5, _, v5⟩ := printfZeroPadInt_field 2 e1 (by decide) (w2 e1 he1).1 (w2 e1 he1).2
  have hlen : List.length (printfZeroPadInt 8 fw ++ (printfZeroPadInt 8 sw ++ (printfZeroPadInt 8 sec
          ++ (printfZeroPadInt 2 e2 ++ printfZeroPadInt 2 e1)))) = 28 := by
    simp only [List.length_append, l1, l2, l3, l4, l5]
  refine ⟨l1, l2, l3, l4, l5, v1, v2, v3, v4, v5, hlen, ?_, ?_⟩
  · unfold ad2k_SetSpanData sendWCmd
    have := sendCmd_enqueues st CMD_W CMD_RW_SPAN_DATA
      (snprintfBuf 32 (printfZeroPadInt 8 fw ++ (printfZeroPadInt 8 sw ++ (printfZeroPadInt 8 sec
          ++ (printfZeroPadInt 2 e2 ++ printfZeroPadInt 2 e1)))))
      LEN_RW_SPAN_DATA TIME_OUT_SPAN_mSEC hq (by decide) (by decide) (by decide)
      (by
        rw [show LEN_RW_SPAN_DATA = 28 from rfl, snprintfBuf_span _ hlen]
        apply getD_lt_of_forall _ 0x80 (by decide)
        intro c hc
        simp only [List.mem_append] at hc
        rcases hc with hc | hc | hc | hc | hc <;> exact printfZeroPadInt_lt _ _ c hc)
    rw [show LEN_RW_SPAN_DATA = 28 from rfl, snprintfBuf_span _ hlen] at this
    exact this
  · rw [respDataToSpanData_fields junk _ _ _ _ _ tail l1 l2 l3 l4,
      spanField_decode 8 fw _ (by decide) (w8 fw hfw).1 (w8 fw hfw).2,
      spanField_decode 8 sw _ (by decide) (w8 sw hsw).1 (w8 sw hsw).2,
      spanField_decode 8 sec _ (by decide) (w8 sec hsec).1 (w8 sec hsec).2,
      spanField_decode 2 e2 _ (by decide) (w2 e2 he2).1 (w2 e2 he2).2,
      spanField_decode 2 e1 _ (by decide) (w2 e1 he1).1 (w2 e1 he1).2]

theorem spanData_roundtrip_witness :
    (printfZeroPadInt 8 3000).length = 8 ∧ (printfZeroPadInt 8 (-1500)).length = 8
    ∧ (printfZeroPadInt 8 99999999).length = 8 ∧ (printfZeroPadInt 2 (-9)).length = 2
    ∧ (printfZeroPadInt 2 2).length = 2
    ∧ ad2k_StrToNum (printfZeroPadInt 8 3000) BASE_DEC = 3000
    ∧ ad2k_StrToNum (printfZeroPadInt 8 (-1500)) BASE_DEC = (-1500)
    ∧ ad2k_StrToNum (printfZeroPadInt 8 99999999) BASE_DEC = 99999999
    ∧ ad2k_StrToNum (printfZeroPadInt 2 (-9)) BASE_DEC = (-9)
    ∧ ad2k_StrToNum (printfZeroPadInt 2 2) BASE_DEC = 2
    ∧ List.length (printfZeroPadInt 8 3000 ++ (printfZeroPadInt 8 (-1500) ++ (printfZeroPadInt 8 99999999
          ++ (printfZeroPadInt 2 (-9) ++ printfZeroPadInt 2 2)))) = 28
    ∧ ad2k_SetSpanData startedState (some ⟨3000, (-1500), 99999999, (-9), 2⟩) =
        (0, { startedState with
              cmd_saved := CMD_RW_SPAN_DATA
              msgq_to_ad := startedState.msgq_to_ad ++
                [STX :: CMD_W :: CMD_RW_SPAN_DATA :: ((printfZeroPadInt 8 3000 ++ (printfZeroPadInt 8 (-1500) ++ (printfZeroPadInt 8 99999999
          ++ (printfZeroPadInt 2 (-9) ++ printfZeroPadInt 2 2))))
                  ++ [ETX, calculateBCC (CMD_W :: CMD_RW_SPAN_DATA :: (printfZeroPadInt 8 3000 ++ (printfZeroPadInt 8 (-1500) ++ (printfZeroPadInt 8 99999999
          ++ (printfZeroPadInt 2 (-9) ++ printfZeroPadInt 2 2)))))])] })
    ∧ respDataToSpanData ⟨7, 7, 7, 7, 7⟩ ((printfZeroPadInt 8 3000 ++ (printfZeroPadInt 8 (-1500) ++ (printfZeroPadInt 8 99999999
          ++ (printfZeroPadInt 2 (-9) ++ printfZeroPadInt 2 2)))) ++ [0, 0, 0x41]) = ⟨3000, (-1500), 99999999, (-9), 2⟩ :=
  spanData_roundtrip startedState ⟨7, 7, 7, 7, 7⟩ [0, 0, 0x41] 3000 (-1500) 99999999 (-9) 2
    (by decide) (by decide) (by decide) (by decide) (by decide) (by decide)

theorem calculateChecksum_file (name f : List Nat) (hname : 0 < (cstr name).length) :
    calculateChecksum (some f) (some name)
      = (f.map (fun b => crc32 [b] 1)).foldr (fun x y => x ^^^ y) 0 := by
  have hn : ¬ (cstr name).length ≤ 0 := by omega
  simp only [calculateChecksum, if_neg hn]
  rw [(checksumLoop_eq f 0 (by decide)).1, Nat.zero_xor]

theorem xorFold_append (l m : List Nat) :
    (l ++ m).foldr (fun x y => x ^^^ y) 0
      = l.foldr (fun x y => x ^^^ y) 0 ^^^ m.foldr (fun x y => x ^^^ y) 0 := by
  induction l with
  | nil => simp
  | cons x t ih => rw [List.cons_append, List.foldr_cons, List.foldr_cons, ih, Nat.xor_assoc]

theorem xorFold_perm (l m : List Nat) (h : l.Perm m) :
    l.foldr (fun x y => x ^^^ y) 0 = m.foldr (fun x y => x ^^^ y) 0 := by
  induction h with
  | nil => rfl
  | cons x _ ih => rw [List.foldr_cons, List.foldr_cons, ih]
  | swap x y l =>
    simp only [List.foldr_cons]
    rw [← Nat.xor_assoc, ← Nat.xor_assoc, Nat.xor_comm y x]
  | trans _ _ ih1 ih2 => rw [ih1, ih2]

/-- C35: for a file that can be opened (non-empty file name), the checksum of the
contents `a ++ b` is the XOR of the checksums of `a` and of `b`; two files whose
bytes are permutations of each other have the same checksum; and inserting the
same byte value `x` at two places of a file leaves its checksum unchanged. -/
theorem calculateChecksum_xor_hom (name : List Nat) (hname : 0 < (cstr name).length) :
    (∀ a b : List Nat, calculateChecksum (some (a ++ b)) (some name)
        = calculateChecksum (some a) (some name) ^^^ calculateChecksum (some b) (some name))
    ∧ (∀ a b : List Nat, a.Perm b →
        calculateChecksum (some a) (some name) = calculateChecksum (some b) (some name))
    ∧ (∀ (a b c : List Nat) (x : Nat),
        calculateChecksum (some (a ++ x :: (b ++ x :: c))) (some name)
          = calculateChecksum (some (a ++ (b ++ c))) (some name)) := by
  refine ⟨?_, ?_, ?_⟩
  · intro a b
    rw [calculateChecksum_file name _ hname, calculateChecksum_file name _ hname,
      calculateChecksum_file name _ hname, List.map_append, xorFold_append]
  · intro a b h
    rw [calculateChecksum_file name _ hname, calculateChecksum_file name _ hname]
    exact xorFold_perm _ _ (h.map _)
  · intro a b c x
    rw [calculateChecksum_file name _ hname, calculateChecksum_file name _ hname]
    simp only [List.map_append, List.map_cons, xorFold_append, List.foldr_cons]
    have key : ∀ p q r : Nat, p ^^^ (q ^^^ (p ^^^ r)) = q ^^^ r := by
      intro p q r
      rw [← Nat.xor_assoc q p r, Nat.xor_comm q p, Nat.xor_assoc p q r, ← Nat.xor_assoc p p,
        Nat.xor_self, Nat.zero_xor]
    rw [key]

theorem calculateChecksum_xor_hom_witness :
    (∀ a b : List Nat, calculateChecksum (some (a ++ b)) (some [0x66])
        = calculateChecksum (some a) (some [0x66]) ^^^ calculateChecksum (some b) (some [0x66]))
    ∧ (∀ a b : List Nat, a.Perm b →
        calculateChecksum (some a) (some [0x66]) = calculateChecksum (some b) (some [0x66]))
    ∧ (∀ (a b c : List Nat) (x : Nat),
        calculateChecksum (some (a ++ x :: (b ++ x :: c))) (some [0x66])
          = calculateChecksum (some (a ++ (b ++ c))) (some [0x66])) :=
  calculateChecksum_xor_hom [0x66] (by decide)

/-- C32 (as stated, refuted): for the byte 0x61 the standard CRC-32 is 0xE8B7BE43,
while `crc32` on the one-byte buffer returns 0x174841BC, its complement. -/
theorem crc32_not_standard :
    standardCrc32 [0x61] = 0xE8B7BE43 ∧ crc32 [0x61] 1 = 0x174841BC
    ∧ crc32 [0x61] 1 ≠ standardCrc32 [0x61] := by
  decide

set_option maxRecDepth 1000000 in
theorem crc32_one_byte_closed : ∀ b < 256,
    crc32 [b] 1 = standardCrc32 [b] ^^^ 0xFFFFFFFF
    ∧ standardCrc32 [b] = crc32 [b] 1 ^^^ 0xFFFFFFFF := by
  decide

/-- C32 (amended): for every byte `b`, `crc32` applied to the one-byte buffer `[b]`
is the standard CRC-32 of that one-byte message (reflected polynomial 0xEDB88320,
initial value 0xFFFFFFFF) without the final complement: each is the other
XOR 0xFFFFFFFF. -/
theorem crc32_one_byte_standard (b : Nat) (hb : b < 256) :
    crc32 [b] 1 = standardCrc32 [b] ^^^ 0xFFFFFFFF
    ∧ standardCrc32 [b] = crc32 [b] 1 ^^^ 0xFFFFFFFF :=
  crc32_one_byte_closed b hb

theorem crc32_one_byte_standard_witness :
    crc32 [0x61] 1 = standardCrc32 [0x61] ^^^ 0xFFFFFFFF
    ∧ standardCrc32 [0x61] = crc32 [0x61] 1 ^^^ 0xFFFFFFFF :=
  crc32_one_byte_standard 0x61 (by decide)

theorem processResponse_clears (junk : AD2kData) (msgq_id : Int) (msgq : List AD2kData)
    (resp : Response) (hq : 0 ≤ msgq_id) :
    (processResponse junk msgq_id msgq resp).length ≤ 1
    ∧ processResponse junk msgq_id msgq resp = processResponse junk msgq_id [] resp := by
  have hsend : ¬ (msgq_id < 0 ∨ AD2K_MSG_DEFAULT ≤ 0) := by
    have : ¬ AD2K_MSG_DEFAULT ≤ 0 := by decide
    omega
  unfold processResponse
  rw [if_neg (by omega), if_neg (by omega)]
  have key : ∀ (c : Prop) [Decidable c] (ev : AD2kData),
      (if c then ((-1 : Int), ([] : List AD2kData)) else (0, [ev])).2.length ≤ 1 := by
    intro c _ ev
    split <;> simp
  simp only [msgq_clear, msgq_send_msg, if_neg hsend, if_neg (not_lt.mpr hq), List.nil_append,
    and_true]
  exact key _ _

theorem processNIData_singleton (junk : AD2kData) (msgq_id : Int) (msgq : List AD2kData)
    (NIdata : NIData) (hq : 0 ≤ msgq_id) :
    processNIData junk msgq_id msgq NIdata
      = [{ junk with
            type := AD2K_MSG_NI
            scaleData := NIDataToScaleData junk.scaleData NIdata }] := by
  have hsend : ¬ (msgq_id < 0 ∨ AD2K_MSG_DEFAULT ≤ 0) := by
    have : ¬ AD2K_MSG_DEFAULT ≤ 0 := by decide
    omega
  have hb3 : ¬ 0x80 ≤ intByte3 AD2K_MSG_NI := by decide
  unfold processNIData
  simp only [msgq_clear, msgq_send_msg, if_neg hsend, if_neg (not_lt.mpr hq), if_neg hb3,
    List.nil_append]

theorem scaleProcedureFrAD_iter_telemetry (cs : Bool) (junk : AD2kData) (st : LibState)
    (input content rest : List Nat)
    (h : fetchContent cs st.scale_fd 256 input = some (27, content, rest)) :
    scaleProcedureFrAD_iter cs junk st input =
      some ({ st with
              msgq_fr_ad := processNIData junk st.msgq_fr_ad_id st.msgq_fr_ad
                (getNIData zeroNIData content) }, rest) := by
  unfold scaleProcedureFrAD_iter
  rw [h]
  simp only
  rw [if_neg (by decide), if_pos (by decide)]

/-- C31: the valid frame STX, `'R'`, `'0'`, ETX, 0x62, read while the saved
command id is `'U'` and an earlier event waits in the mailbox, empties the
mailbox and then sends the uninitialised local `ad2kData`: when the stack held
0xA5 bytes (tag 0xA5A5A5A5, byte 3 of the message text 0xA5) nothing is queued
and the mailbox holds no event; when it held zeros the one event queued is that
all-zero record with tag 0, not an event decoded from the frame. -/
theorem mailbox_unmatched_read_not_latest :
    scaleProcedureFrAD_iter false { zeroAD2kData with type := -1515870811 }
        { startedState with
            cmd_saved := CMD_W_DIGI_TARE
            waitRespFg := 1
            msgq_fr_ad := [{ zeroAD2kData with type := AD2K_MSG_NI }] }
        [STX, CMD_R, RSP_RW_OK, ETX, 0x62]
      = some ({ startedState with cmd_saved := CMD_W_DIGI_TARE, msgq_fr_ad := [] }, [])
    ∧ scaleProcedureFrAD_iter false zeroAD2kData
        { startedState with
            cmd_saved := CMD_W_DIGI_TARE
            waitRespFg := 1
            msgq_fr_ad := [{ zeroAD2kData with type := AD2K_MSG_NI }] }
        [STX, CMD_R, RSP_RW_OK, ETX, 0x62]
      = some ({ startedState with cmd_saved := CMD_W_DIGI_TARE, msgq_fr_ad := [zeroAD2kData] },
          [])
    ∧ intByte3 (-1515870811) = 0xA5
    ∧ zeroAD2kData.type = 0 := by
  decide

theorem send_tail (c : Prop) [Decidable c] (q : List (List Nat)) (buf : List Nat)
    (st1 : LibState) :
    (if (if c then ((-1 : Int), q) else (0, q ++ [buf])).1 < 0 then ((-1 : Int), st1)
      else (0, { st1 with msgq_to_ad := (if c then ((-1 : Int), q) else (0, q ++ [buf])).2 }))
      = if c then (-1, st1) else (0, { st1 with msgq_to_ad := q ++ [buf] }) := by
  by_cases hc : c
  · rw [if_pos hc, if_pos hc, if_pos (by show (-1 : Int) < 0; decide)]
  · rw [if_neg hc, if_neg hc, if_neg (by show ¬ (0 : Int) < 0; decide)]

theorem sendCmd_cases (st : LibState) (type cmd : Nat) (data : Option (List Nat))
    (data_len timeout : Int) (hq : 0 ≤ st.msgq_to_ad_id) :
    ∃ frame : List Nat, sendCmd st type cmd data data_len timeout
      = if 0x80 ≤ frame.getD 3 0 then (-1, { st with cmd_saved := cmd })
        else (0, { st with cmd_saved := cmd, msgq_to_ad := st.msgq_to_ad ++ [frame] }) := by
  have hsend : ¬ (st.msgq_to_ad_id < 0 ∨ AD2K_MSG_DEFAULT ≤ 0) := by
    have : ¬ AD2K_MSG_DEFAULT ≤ 0 := by decide
    omega
  unfold sendCmd
  rw [if_neg (by omega)]
  simp only [msgq_send_msg, if_neg hsend]
  exact ⟨_, send_tail _ _ _ _⟩

theorem sendCmd_fails (st : LibState) (type cmd : Nat) (data : Option (List Nat))
    (data_len timeout : Int) (hq : st.msgq_to_ad_id < 0) :
    sendCmd st type cmd data data_len timeout = (-1, st) := by
  unfold sendCmd
  rw [if_pos hq]

theorem getResponse_cmd (cmd_saved : Nat) (resp : Response) (content : List Nat) (n : Int)
    (hn : 2 ≤ n) : (getResponse cmd_saved resp content n).cmd = cmd_saved := by
  unfold getResponse
  rw [if_neg (by omega)]
  simp only
  split <;> rfl

theorem write_ack_iter (cs : Bool) (junk : AD2kData) (st : LibState) (r : Nat)
    (rest : List Nat) (hfd : 0 ≤ st.scale_fd) (hq : 0 ≤ st.msgq_fr_ad_id)
    (hr : r < 128) (hr3 : r ≠ ETX) :
    scaleProcedureFrAD_iter cs junk st
        (STX :: ([CMD_W, r] ++ ETX :: calculateBCC [CMD_W, r] :: rest))
      = some ({ st with
                msgq_fr_ad := [{ junk with
                  type := AD2K_MSG_RESP
                  response := ⟨CMD_W, st.cmd_saved, r, List.replicate 128 0, 0⟩ }]
                waitRespFg := 0 }, rest) := by
  have hbody : ∀ b ∈ [CMD_W, r], b < 256 ∧ b ≠ ETX := by
    intro b hb
    simp only [List.mem_cons, List.mem_singleton, List.mem_nil_iff, or_false] at hb
    rcases hb with h | h
    · subst h
      decide
    · subst h
      exact ⟨by omega, hr3⟩
  have hlt : calculateBCC [CMD_W, r] < 2 ^ 7 := by
    apply calculateBCC_lt 7 (by decide)
    intro b hb
    simp only [List.mem_cons, List.mem_singleton, List.mem_nil_iff, or_false] at hb
    rcases hb with h | h
    · subst h
      decide
    · subst h
      omega
  have hf := fetchContent_accepts cs st.scale_fd [CMD_W, r] rest hfd hbody (by simp)
    (Or.inr hlt)
  have hf' : fetchContent cs st.scale_fd 256
      (STX :: ([CMD_W, r] ++ ETX :: calculateBCC [CMD_W, r] :: rest))
      = some (2, [CMD_W, r], rest) := hf
  have hne : ¬ (CMD_W = CMD_R ∧ r = RSP_RW_OK) := fun h => absurd h.1 (by decide)
  have hg : getResponse st.cmd_saved zeroResponse [CMD_W, r] 2
      = ⟨CMD_W, st.cmd_saved, r, List.replicate 128 0, 0⟩ := by
    unfold getResponse
    rw [if_neg (by decide)]
    simp only [List.getD_cons_zero, List.getD_cons_succ, if_neg hne]
  rw [scaleProcedureFrAD_iter_response cs junk st _ _ rest 2 hf' (Or.inl rfl), hg,
    processResponse_raw junk _ _ _ hq hne]

/-- C33: when `sendCmd` with command id `c1` and then `sendCmd` with command id
`c2` succeed (both return 0) before any response frame is processed, both frames
are queued, the saved command id is `c1` after the first call and `c2` after the
second (overwritten at enqueue), every Response that `getResponse` builds
afterwards has cmd = `c2`, and the Response event the receive loop publishes for
the first reply (a write acknowledgement with result `r`) carries cmd = `c2`; a
`sendCmd` that fails because the send queue was not created returns -1 and
leaves the whole state, the saved id included, unchanged, while with the queue
created the saved id is overwritten whether or not the frame gets queued. -/
theorem response_carries_latest_cmd (cs : Bool) (junk : AD2kData) (st : LibState)
    (t1 c1 t2 c2 : Nat) (d1 d2 : Option (List Nat)) (l1 l2 to1 to2 : Int) (r : Nat)
    (rest : List Nat) (hto : 0 ≤ st.msgq_to_ad_id) (hfd : 0 ≤ st.scale_fd)
    (hq : 0 ≤ st.msgq_fr_ad_id) (hr : r < 128) (hr3 : r ≠ ETX)
    (hs1 : (sendCmd st t1 c1 d1 l1 to1).1 = 0)
    (hs2 : (sendCmd (sendCmd st t1 c1 d1 l1 to1).2 t2 c2 d2 l2 to2).1 = 0) :
    (sendCmd st t1 c1 d1 l1 to1).2.cmd_saved = c1
    ∧ (sendCmd (sendCmd st t1 c1 d1 l1 to1).2 t2 c2 d2 l2 to2).2.cmd_saved = c2
    ∧ (sendCmd (sendCmd st t1 c1 d1 l1 to1).2 t2 c2 d2 l2 to2).2.msgq_to_ad.length
        = st.msgq_to_ad.length + 2
    ∧ (∀ (content : List Nat) (n : Int), 2 ≤ n →
        (getResponse (sendCmd (sendCmd st t1 c1 d1 l1 to1).2 t2 c2 d2 l2 to2).2.cmd_saved
          zeroResponse content n).cmd = c2)
    ∧ scaleProcedureFrAD_iter cs junk (sendCmd (sendCmd st t1 c1 d1 l1 to1).2 t2 c2 d2 l2 to2).2
        (STX :: ([CMD_W, r] ++ ETX :: calculateBCC [CMD_W, r] :: rest))
      = some ({ (sendCmd (sendCmd st t1 c1 d1 l1 to1).2 t2 c2 d2 l2 to2).2 with
                msgq_fr_ad := [{ junk with
                  type := AD2K_MSG_RESP
                  response := ⟨CMD_W, c2, r, List.replicate 128 0, 0⟩ }]
                waitRespFg := 0 }, rest)
    ∧ (∀ (st0 : LibState) (t c : Nat) (d : Option (List Nat)) (l to0 : Int),
        st0.msgq_to_ad_id < 0 → sendCmd st0 t c d l to0 = (-1, st0))
    ∧ (∀ (st0 : LibState) (t c : Nat) (d : Option (List Nat)) (l to0 : Int),
        0 ≤ st0.msgq_to_ad_id → (sendCmd st0 t c d l to0).2.cmd_saved = c) := by
  obtain ⟨f1, e1⟩ := sendCmd_cases st t1 c1 d1 l1 to1 hto
  rw [e1] at hs1 hs2 ⊢
  by_cases b1 : 0x80 ≤ f1.getD 3 0
  · rw [if_pos b1] at hs1
    exact absurd hs1 (by show ¬ ((-1 : Int) = 0); decide)
  · rw [if_neg b1] at hs2 ⊢
    obtain ⟨f2, e2⟩ := sendCmd_cases
      { st with cmd_saved := c1, msgq_to_ad := st.msgq_to_ad ++ [f1] } t2 c2 d2 l2 to2 hto
    simp only at e2 hs2 ⊢
    rw [e2] at hs2 ⊢
    by_cases b2 : 0x80 ≤ f2.getD 3 0
    · rw [if_pos b2] at hs2
      exact absurd hs2 (by show ¬ ((-1 : Int) = 0); decide)
    · rw [if_neg b2]
      refine ⟨?_, ?_, ?_, ?_, ?_, ?_, ?_⟩
      · trivial
      · trivial
      · simp only [List.length_append, List.length_singleton]
      · intro content n hn
        exact getResponse_cmd c2 zeroResponse content n hn
      · exact write_ack_iter cs junk _ r rest hfd hq hr hr3
      · intro st0 t c d l to0 h0
        exact sendCmd_fails st0 t c d l to0 h0
      · intro st0 t c d l to0 h0
        exact sendCmd_cmd_saved st0 t c d l to0 h0

theorem response_carries_latest_cmd_witness :
    (sendCmd startedState CMD_R CMD_RW_SPEC_DATA none 0 2000).2.cmd_saved = CMD_RW_SPEC_DATA
    ∧ (sendCmd (sendCmd startedState CMD_R CMD_RW_SPEC_DATA none 0 2000).2 CMD_W CMD_W_DIGI_TARE
          (some [0x30, 0x30, 0x30, 0x30, 0x31, 0x32, 0x35, 0x30]) 8 1000).2.cmd_saved = CMD_W_DIGI_TARE
    ∧ (sendCmd (sendCmd startedState CMD_R CMD_RW_SPEC_DATA none 0 2000).2 CMD_W CMD_W_DIGI_TARE
          (some [0x30, 0x30, 0x30, 0x30, 0x31, 0x32, 0x35, 0x30]) 8 1000).2.msgq_to_ad.length
        = startedState.msgq_to_ad.length + 2
    ∧ (∀ (content : List Nat) (n : Int), 2 ≤ n →
        (getResponse (sendCmd (sendCmd startedState CMD_R CMD_RW_SPEC_DATA none 0 2000).2 CMD_W CMD_W_DIGI_TARE
          (some [0x30, 0x30, 0x30, 0x30, 0x31, 0x32, 0x35, 0x30]) 8 1000).2.cmd_saved
          zeroResponse content n).cmd = CMD_W_DIGI_TARE)
    ∧ scaleProcedureFrAD_iter true zeroAD2kData (sendCmd (sendCmd startedState CMD_R CMD_RW_SPEC_DATA none 0 2000).2 CMD_W CMD_W_DIGI_TARE
          (some [0x30, 0x30, 0x30, 0x30, 0x31, 0x32, 0x35, 0x30]) 8 1000).2
        (STX :: ([CMD_W, RSP_RW_OK] ++ ETX :: calculateBCC [CMD_W, RSP_RW_OK] :: []))
      = some ({ (sendCmd (sendCmd startedState CMD_R CMD_RW_SPEC_DATA none 0 2000).2 CMD_W CMD_W_DIGI_TARE
          (some [0x30, 0x30, 0x30, 0x30, 0x31, 0x32, 0x35, 0x30]) 8 1000).2 with
                msgq_fr_ad := [{ zeroAD2kData with
                  type := AD2K_MSG_RESP
                  response := ⟨CMD_W, CMD_W_DIGI_TARE, RSP_RW_OK, List.replicate 128 0, 0⟩ }]
                waitRespFg := 0 }, [])
    ∧ (∀ (st0 : LibState) (t c : Nat) (d : Option (List Nat)) (l to0 : Int),
        st0.msgq_to_ad_id < 0 → sendCmd st0 t c d l to0 = (-1, st0))
    ∧ (∀ (st0 : LibState) (t c : Nat) (d : Option (List Nat)) (l to0 : Int),
        0 ≤ st0.msgq_to_ad_id → (sendCmd st0 t c d l to0).2.cmd_saved = c) :=
  response_carries_latest_cmd true zeroAD2kData startedState CMD_R CMD_RW_SPEC_DATA CMD_W
    CMD_W_DIGI_TARE none (some [0x30, 0x30, 0x30, 0x30, 0x31, 0x32, 0x35, 0x30]) 0 8 2000 1000
    RSP_RW_OK [] (by decide) (by decide) (by decide) (by decide) (by decide) (by decide)
    (by decide)

theorem stripLeadingZeros_digits (r : List Nat) (hr : IsDigits r) :
    IsDigits (stripLeadingZeros r) ∧ decimalValue (stripLeadingZeros r) = decimalValue r := by
  have h := cutHeadZero_digits_spec r hr
  rw [cutHeadZero_digits_strip r hr] at h
  exact h

theorem ad2k_StrToNum_minus_digits (d : List Nat) (hd : IsDigits d) :
    ad2k_StrToNum (0x2D :: d) BASE_DEC = -(decimalValue d : Int) := by
  have h1 : ¬ BASE_DEC = BASE_BIN := by decide
  have hdec : ∀ c ∈ 0x2D :: d, IsDecChar c := by
    intro c hc
    rcases List.mem_cons.mp hc with hc | hc
    · exact Or.inr (Or.inl hc)
    · exact Or.inl (hd c hc)
  have hnm : ¬ 0x2D ∈ d := by
    intro hm
    have := hd _ hm
    omega
  rw [ad2k_StrToNum, if_neg h1, if_pos rfl, strToNumLoop_dec_spec _ hdec,
    if_pos (List.mem_cons_self _ _), afterLastMinus, if_neg hnm, if_pos rfl,
    digitsOf_of_isDigits d hd]

theorem signedDigits_cases (s : List Nat) (hs : IsSignedDigits s) :
    (IsDigits s ∧ signedDecimalValue s = (decimalValue s : Int))
    ∨ ∃ d, s = 0x2D :: d ∧ IsDigits d ∧ signedDecimalValue s = -(decimalValue d : Int) := by
  rcases hs with h | ⟨hh, ht⟩
  · left
    refine ⟨h, ?_⟩
    unfold signedDecimalValue
    rw [if_neg]
    intro hh
    cases s with
    | nil => simp at hh
    | cons c t =>
      simp only [List.head?_cons, Option.some.injEq] at hh
      have := h c (List.mem_cons_self c t)
      omega
  · right
    cases s with
    | nil => simp at hh
    | cons c t =>
      simp only [List.head?_cons, Option.some.injEq] at hh
      subst hh
      refine ⟨t, rfl, ht, ?_⟩
      unfold signedDecimalValue
      simp only [List.head?_cons, List.tail_cons, if_true]

theorem strToNum_cutHeadZero_signed (s : List Nat) (hs : IsSignedDigits s) :
    ad2k_StrToNum (cutHeadZero s) BASE_DEC = signedDecimalValue s
    ∧ ad2k_StrToNum s BASE_DEC = signedDecimalValue s := by
  rcases signedDigits_cases s hs with ⟨hd, hv⟩ | ⟨d, rfl, hd, hv⟩
  · rw [hv, cutHeadZero_digits_strip s hd,
      ad2k_StrToNum_digits _ (stripLeadingZeros_digits s hd).1,
      (stripLeadingZeros_digits s hd).2, ad2k_StrToNum_digits s hd]
    exact ⟨rfl, rfl⟩
  · rw [hv, cutHeadZero_minus_digits d hd,
      ad2k_StrToNum_minus_digits _ (stripLeadingZeros_digits d hd).1,
      (stripLeadingZeros_digits d hd).2, ad2k_StrToNum_minus_digits d hd]
    exact ⟨rfl, rfl⟩

theorem signedDigits_ne_zero (s : List Nat) (hs : IsSignedDigits s) : ∀ c ∈ s, c ≠ 0 := by
  intro c hc
  rcases signedDigits_cases s hs with ⟨hd, _⟩ | ⟨d, rfl, hd, _⟩
  · have := hd c hc
    omega
  · rcases List.mem_cons.mp hc with h | h
    · omega
    · have := hd c h
      omega

theorem strToNum_cutHeadZero_signed_field (s t : List Nat) (hs : IsSignedDigits s) :
    ad2k_StrToNum (cutHeadZero (cstr (memRead (s ++ t) s.length ++ [0]))) BASE_DEC
      = ad2k_StrToNum s BASE_DEC := by
  rw [memRead_append_left, cstr_append_zero s (signedDigits_ne_zero s hs),
    (strToNum_cutHeadZero_signed s hs).1, (strToNum_cutHeadZero_signed s hs).2]

/-- C34: for every string `s` of decimal digits, optionally with `'-'` as its
first character (the 8-character fields in particular),
`ad2k_StrToNum (cutHeadZero s)` equals `ad2k_StrToNum s`, both being the signed
decimal value of `s`; hence for a telemetry body in weight or internal-count
mode whose fields at bytes 1-8 and 11-18 are such strings, the readings sec1 and
sec2 that `getNIData` stores equal the decimal values of the raw fields. -/
theorem cutHeadZero_preserves_value (s : List Nat) (hs : IsSignedDigits s)
    (c0 c9 c10 c19 c20 : Nat) (f1 f2 tail : List Nat)
    (h1 : f1.length = 8) (h2 : f2.length = 8) (hf1 : IsSignedDigits f1)
    (hf2 : IsSignedDigits f2)
    (hmode : (c0 = 0x30 ∧ c10 = 0x34) ∨ (c0 = 0x61 ∧ c10 = 0x69)) :
    ad2k_StrToNum (cutHeadZero s) BASE_DEC = ad2k_StrToNum s BASE_DEC
    ∧ ad2k_StrToNum s BASE_DEC = signedDecimalValue s
    ∧ (getNIData zeroNIData (telemetryBody c0 f1 c9 c10 f2 c19 c20 tail)).sec1
        = ad2k_StrToNum f1 BASE_DEC
    ∧ (getNIData zeroNIData (telemetryBody c0 f1 c9 c10 f2 c19 c20 tail)).sec2
        = ad2k_StrToNum f2 BASE_DEC
    ∧ (getNIData zeroNIData (telemetryBody c0 f1 c9 c10 f2 c19 c20 tail)).sec1
        = signedDecimalValue f1
    ∧ (getNIData zeroNIData (telemetryBody c0 f1 c9 c10 f2 c19 c20 tail)).sec2
        = signedDecimalValue f2 := by
  obtain ⟨a, b⟩ := strToNum_cutHeadZero_signed s hs
  obtain ⟨p0, p10, p1, p11, p21⟩ := niContent_parts c0 c9 c10 c19 c20 f1 f2 tail h1 h2
  have g1 := strToNum_cutHeadZero_signed_field f1 (c9 :: c10 :: (f2 ++ c19 :: c20 :: tail)) hf1
  have g2 := strToNum_cutHeadZero_signed_field f2 (c19 :: c20 :: tail) hf2
  rw [h1] at g1
  rw [h2] at g2
  have hsec : (getNIData zeroNIData (telemetryBody c0 f1 c9 c10 f2 c19 c20 tail)).sec1
        = ad2k_StrToNum f1 BASE_DEC
      ∧ (getNIData zeroNIData (telemetryBody c0 f1 c9 c10 f2 c19 c20 tail)).sec2
        = ad2k_StrToNum f2 BASE_DEC := by
    unfold getNIData telemetryBody
    simp only [p0, p10, p1, p11, p21]
    rcases hmode with ⟨x, y⟩ | ⟨x, y⟩
    · subst x y
      rw [if_pos (by decide)]
      exact ⟨g1, g2⟩
    · subst x y
      rw [if_neg (by decide), if_pos (by decide)]
      exact ⟨g1, g2⟩
  refine ⟨a.trans b.symm, b, hsec.1, hsec.2, ?_, ?_⟩
  · rw [hsec.1, (strToNum_cutHeadZero_signed f1 hf1).2]
  · rw [hsec.2, (strToNum_cutHeadZero_signed f2 hf2).2]

theorem cutHeadZero_preserves_value_witness :
    ad2k_StrToNum (cutHeadZero [0x2D, 0x30, 0x30, 0x30, 0x30, 0x30, 0x30, 0x35]) BASE_DEC = ad2k_StrToNum [0x2D, 0x30, 0x30, 0x30, 0x30, 0x30, 0x30, 0x35] BASE_DEC
    ∧ ad2k_StrToNum [0x2D, 0x30, 0x30, 0x30, 0x30, 0x30, 0x30, 0x35] BASE_DEC = signedDecimalValue [0x2D, 0x30, 0x30, 0x30, 0x30, 0x30, 0x30, 0x35]
    ∧ (getNIData zeroNIData (telemetryBody 0x30 [0x30, 0x30, 0x30, 0x30, 0x31, 0x30, 0x30, 0x30] 0x20 0x34
        [0x2D, 0x30, 0x30, 0x30, 0x30, 0x30, 0x32, 0x35] 0x20 0x20 [0x31, 0x30, 0x30, 0x30, 0x30, 0x30])).sec1
        = ad2k_StrToNum [0x30, 0x30, 0x30, 0x30, 0x31, 0x30, 0x30, 0x30] BASE_DEC
    ∧ (getNIData zeroNIData (telemetryBody 0x30 [0x30, 0x30, 0x30, 0x30, 0x31, 0x30, 0x30, 0x30] 0x20 0x34
        [0x2D, 0x30, 0x30, 0x30, 0x30, 0x30, 0x32, 0x35] 0x20 0x20 [0x31, 0x30, 0x30, 0x30, 0x30, 0x30])).sec2
        = ad2k_StrToNum [0x2D, 0x30, 0x30, 0x30, 0x30, 0x30, 0x32, 0x35] BASE_DEC
    ∧ (getNIData zeroNIData (telemetryBody 0x30 [0x30, 0x30, 0x30, 0x30, 0x31, 0x30, 0x30, 0x30] 0x20 0x34
        [0x2D, 0x30, 0x30, 0x30, 0x30, 0x30, 0x32, 0x35] 0x20 0x20 [0x31, 0x30, 0x30, 0x30, 0x30, 0x30])).sec1
        = signedDecimalValue [0x30, 0x30, 0x30, 0x30, 0x31, 0x30, 0x30, 0x30]
    ∧ (getNIData zeroNIData (telemetryBody 0x30 [0x30, 0x30, 0x30, 0x30, 0x31, 0x30, 0x30, 0x30] 0x20 0x34
        [0x2D, 0x30, 0x30, 0x30, 0x30, 0x30, 0x32, 0x35] 0x20 0x20 [0x31, 0x30, 0x30, 0x30, 0x30, 0x30])).sec2
        = signedDecimalValue [0x2D, 0x30, 0x30, 0x30, 0x30, 0x30, 0x32, 0x35] :=
  cutHeadZero_preserves_value [0x2D, 0x30, 0x30, 0x30, 0x30, 0x30, 0x30, 0x35] (by decide)
    0x30 0x20 0x34 0x20 0x20 [0x30, 0x30, 0x30, 0x30, 0x31, 0x30, 0x30, 0x30]
    [0x2D, 0x30, 0x30, 0x30, 0x30, 0x30, 0x32, 0x35] [0x31, 0x30, 0x30, 0x30, 0x30, 0x30]
    (by decide) (by decide) (by decide) (by decide) (by decide)

end LibAd2k
